import Mathlib

/-!
# LIN controller facade, VAsio registry datatypes, Ethernet controllers and C API

A shallow embedding of

* `IntegrationBus/source/sim/lin/LinControllerFacade.cpp`: the facade that owns a
  direct behaviour (`LinController`) and a proxy behaviour (`LinControllerProxy`)
  and switches between them on service-discovery events;
* `SilKit/source/core/vasio/VAsioDatatypes.hpp`: the registry header preamble and
  the `RegistryMessageKind` wire codes;
* `IntegrationBus/source/sim/eth/EthController.cpp` and `EthControllerProxy.cpp`: the
  two Ethernet controllers, with their handler tables and status handling;
* `IntegrationBus/source/capi/CapiEthernet.cpp`: sending a frame and acknowledging it
  through the C API;
* the Ethernet wire codec exercised by `SerdesSimEthernetTest.cpp`;
* `IntegrationBus/include/ib/sim/fr/FrDatatypes.hpp`: the FlexRay header and its flag
  accessors.

The two behaviour classes are not part of the embedded sources.  Each behaviour
object is represented by the sequence of member calls it has received, in order,
with their arguments.
-/

namespace ib.mw

/-- Modelled from the spec: the enumeration `ib::mw::ServiceType` is declared in a
header that is not among the sources.  The facade only ever compares against the
enumerator `Link` ("network-simulator link"); every other enumerator is `other n`. -/
inductive ServiceType where
  | Link
  | other (code : Nat)
  deriving DecidableEq, Repr

/-- Modelled from the spec: `ib::mw::ServiceDescriptor` is declared in a header that
is not among the sources.  The spec's data model gives the tuple (participant name,
service type, network name, service id); these are exactly the four getters the
facade calls. -/
structure ServiceDescriptor where
  participantName : String
  serviceType : ServiceType
  networkName : String
  serviceId : Nat
  deriving DecidableEq, Repr

namespace service

/-- Modelled from the spec: `ServiceDiscoveryEvent::Type`, whose declaration is not
among the sources; the spec gives kind ∈ {Created, Removed}, the two enumerators the
facade compares against. -/
inductive ServiceDiscoveryEventType where
  | ServiceCreated
  | ServiceRemoved
  deriving DecidableEq, Repr

end service
end ib.mw

namespace ib.sim.lin

open ib.mw ib.mw.service

/-- The argument types of the LIN controller interface.  They are declared in
`LinDatatypes.hpp` and neighbouring headers, which are not among the sources; the
facade never inspects a value of any of them, so they are taken as parameters. -/
structure LinDatatypes where
  ComAdapter : Type
  FacadeConfig : Type
  TimeProvider : Type
  TraceMessageSink : Type
  ControllerConfig : Type
  ControllerStatus : Type
  Frame : Type
  FrameResponseType : Type
  FrameResponseMode : Type
  FrameResponse : Type
  LinIdT : Type
  FrameStatusHandler : Type
  GoToSleepHandler : Type
  WakeupHandler : Type
  FrameResponseUpdateHandler : Type
  Transmission : Type
  WakeupPulse : Type
  ControllerStatusUpdate : Type
  FrameResponseUpdate : Type

/-- The five message types of the `ReceiveIbMessage` overload set. -/
inductive IbMessage (T : LinDatatypes) where
  | Transmission (msg : T.Transmission)
  | WakeupPulse (msg : T.WakeupPulse)
  | ControllerConfig (msg : T.ControllerConfig)
  | ControllerStatusUpdate (msg : T.ControllerStatusUpdate)
  | FrameResponseUpdate (msg : T.FrameResponseUpdate)

/-- A member call made on one of the two behaviour objects, with its arguments.
`std::chrono::nanoseconds` is an integer count; the sender `from` of an inbound
message is represented by the descriptor `from->GetServiceDescriptor()` returns,
the only thing the facade reads from it. -/
inductive Call (T : LinDatatypes) where
  | Init (config : T.ControllerConfig)
  | SendFrame (frame : T.Frame) (responseType : T.FrameResponseType)
  | SendFrameAt (frame : T.Frame) (responseType : T.FrameResponseType) (timestamp : Int)
  | SendFrameHeader (linId : T.LinIdT)
  | SendFrameHeaderAt (linId : T.LinIdT) (timestamp : Int)
  | SetFrameResponse (frame : T.Frame) (mode : T.FrameResponseMode)
  | SetFrameResponses (responses : List T.FrameResponse)
  | GoToSleep
  | GoToSleepInternal
  | Wakeup
  | WakeupInternal
  | RegisterFrameStatusHandler (handler : T.FrameStatusHandler)
  | RegisterGoToSleepHandler (handler : T.GoToSleepHandler)
  | RegisterWakeupHandler (handler : T.WakeupHandler)
  | RegisterFrameResponseUpdateHandler (handler : T.FrameResponseUpdateHandler)
  | ReceiveIbMessage (sender : ServiceDescriptor) (msg : IbMessage T)
  | SetTimeProvider (timeProvider : T.TimeProvider)
  | AddSink (sink : T.TraceMessageSink)
  | SetServiceDescriptor (serviceDescriptor : ServiceDescriptor)

/-- Whether a recorded call is an inbound message delivery. -/
def Call.isReceive {T : LinDatatypes} : Call T → Bool
  | .ReceiveIbMessage _ _ => true
  | _ => false

/-- A behaviour object (`LinController` or `LinControllerProxy`): the calls it has
received since its construction, oldest first. -/
structure Behaviour (T : LinDatatypes) where
  received : List (Call T)

/-- A freshly constructed behaviour has received no call. -/
def Behaviour.fresh {T : LinDatatypes} : Behaviour T := ⟨[]⟩

/-- Invoke a member function on a behaviour object. -/
def Behaviour.invoke {T : LinDatatypes} (b : Behaviour T) (c : Call T) : Behaviour T :=
  ⟨b.received ++ [c]⟩

/-- The inbound messages a behaviour has been handed so far. -/
def Behaviour.inbound {T : LinDatatypes} (b : Behaviour T) : List (Call T) :=
  b.received.filter Call.isReceive

/-- The two values ever assigned to `_currentController`: `_linController.get()` and
`_linControllerProxy.get()`. -/
inductive ControllerPtr where
  | linController
  | linControllerProxy
  deriving DecidableEq, Repr

/-- Modelled from the spec: the default member initialiser of
`_simulatedLinkDetected` is in `LinControllerFacade.hpp`, which is not among the
sources (the constructor does not assign the flag).  The spec gives
"Initial state: Direct". -/
def simulatedLinkDetectedDefault : Bool := false

/-- The data members of `LinControllerFacade`. -/
structure LinControllerFacade (T : LinDatatypes) where
  comAdapter : T.ComAdapter
  config : T.FacadeConfig
  serviceDescriptor : ServiceDescriptor
  linController : Behaviour T
  linControllerProxy : Behaviour T
  currentController : ControllerPtr
  simulatedLinkDetected : Bool
  simulatedLink : ServiceDescriptor

namespace LinControllerFacade

variable {T : LinDatatypes}

/-- The constructor.  `dflt` is the default-constructed `ServiceDescriptor` that
`_serviceDescriptor` and `_simulatedLink` hold until they are assigned. -/
def new (dflt : ServiceDescriptor) (comAdapter : T.ComAdapter) (config : T.FacadeConfig)
    (_timeProvider : T.TimeProvider) : LinControllerFacade T :=
  { comAdapter := comAdapter
    config := config
    serviceDescriptor := dflt
    linController := Behaviour.fresh
    linControllerProxy := Behaviour.fresh
    currentController := ControllerPtr.linController
    simulatedLinkDetected := simulatedLinkDetectedDefault
    simulatedLink := dflt }

/-- The behaviour object `_currentController` points to. -/
def current (s : LinControllerFacade T) : Behaviour T :=
  match s.currentController with
  | .linController => s.linController
  | .linControllerProxy => s.linControllerProxy

/-- The behaviour object `_currentController` does not point to. -/
def nonCurrent (s : LinControllerFacade T) : Behaviour T :=
  match s.currentController with
  | .linController => s.linControllerProxy
  | .linControllerProxy => s.linController

/-- A member call through the pointer: `_currentController->c`. -/
def callCurrent (s : LinControllerFacade T) (c : Call T) : LinControllerFacade T :=
  match s.currentController with
  | .linController => { s with linController := s.linController.invoke c }
  | .linControllerProxy => { s with linControllerProxy := s.linControllerProxy.invoke c }

def IsNetworkSimulated (s : LinControllerFacade T) : Bool :=
  s.simulatedLinkDetected

def IsRelevantNetwork (s : LinControllerFacade T) (remoteServiceDescriptor : ServiceDescriptor) :
    Bool :=
  decide (remoteServiceDescriptor.serviceType = ServiceType.Link)
    && decide (remoteServiceDescriptor.networkName = s.serviceDescriptor.networkName)

def AllowForwardToDefault (s : LinControllerFacade T) (sender : ServiceDescriptor) : Bool :=
  decide (sender.participantName ≠ s.serviceDescriptor.participantName)

def AllowForwardToProxy (s : LinControllerFacade T) (sender : ServiceDescriptor) : Bool :=
  decide (s.simulatedLink.participantName = sender.participantName)
    && decide (s.serviceDescriptor.serviceId = sender.serviceId)

def Init (s : LinControllerFacade T) (config : T.ControllerConfig) : LinControllerFacade T :=
  s.callCurrent (.Init config)

/-- `Status()` is `const`: it returns what the current behaviour's `Status()` returns.
The two overriding implementations are not among the sources and are parameters. -/
def Status (linControllerStatus linControllerProxyStatus : Behaviour T → T.ControllerStatus)
    (s : LinControllerFacade T) : T.ControllerStatus :=
  match s.currentController with
  | .linController => linControllerStatus s.linController
  | .linControllerProxy => linControllerProxyStatus s.linControllerProxy

def SendFrame (s : LinControllerFacade T) (frame : T.Frame) (responseType : T.FrameResponseType) :
    LinControllerFacade T :=
  s.callCurrent (.SendFrame frame responseType)

/-- The overload `SendFrame(frame, responseType, timestamp)`. -/
def SendFrameAt (s : LinControllerFacade T) (frame : T.Frame)
    (responseType : T.FrameResponseType) (timestamp : Int) : LinControllerFacade T :=
  s.callCurrent (.SendFrameAt frame responseType timestamp)

def SendFrameHeader (s : LinControllerFacade T) (linId : T.LinIdT) : LinControllerFacade T :=
  s.callCurrent (.SendFrameHeader linId)

/-- The overload `SendFrameHeader(linId, timestamp)`. -/
def SendFrameHeaderAt (s : LinControllerFacade T) (linId : T.LinIdT) (timestamp : Int) :
    LinControllerFacade T :=
  s.callCurrent (.SendFrameHeaderAt linId timestamp)

def SetFrameResponse (s : LinControllerFacade T) (frame : T.Frame) (mode : T.FrameResponseMode) :
    LinControllerFacade T :=
  s.callCurrent (.SetFrameResponse frame mode)

def SetFrameResponses (s : LinControllerFacade T) (responses : List T.FrameResponse) :
    LinControllerFacade T :=
  s.callCurrent (.SetFrameResponses responses)

def GoToSleep (s : LinControllerFacade T) : LinControllerFacade T :=
  s.callCurrent .GoToSleep

def GoToSleepInternal (s : LinControllerFacade T) : LinControllerFacade T :=
  s.callCurrent .GoToSleepInternal

def Wakeup (s : LinControllerFacade T) : LinControllerFacade T :=
  s.callCurrent .Wakeup

def WakeupInternal (s : LinControllerFacade T) : LinControllerFacade T :=
  s.callCurrent .WakeupInternal

/-- A member call on both owned objects: first `_linController`, then
`_linControllerProxy`. -/
def callBoth (s : LinControllerFacade T) (c : Call T) : LinControllerFacade T :=
  { s with
    linController := s.linController.invoke c
    linControllerProxy := s.linControllerProxy.invoke c }

def RegisterFrameStatusHandler (s : LinControllerFacade T) (handler : T.FrameStatusHandler) :
    LinControllerFacade T :=
  s.callBoth (.RegisterFrameStatusHandler handler)

def RegisterGoToSleepHandler (s : LinControllerFacade T) (handler : T.GoToSleepHandler) :
    LinControllerFacade T :=
  s.callBoth (.RegisterGoToSleepHandler handler)

def RegisterWakeupHandler (s : LinControllerFacade T) (handler : T.WakeupHandler) :
    LinControllerFacade T :=
  s.callBoth (.RegisterWakeupHandler handler)

def RegisterFrameResponseUpdateHandler (s : LinControllerFacade T)
    (handler : T.FrameResponseUpdateHandler) : LinControllerFacade T :=
  s.callBoth (.RegisterFrameResponseUpdateHandler handler)

/-- The body shared by the `ReceiveIbMessage` overloads for `Transmission`,
`WakeupPulse`, `ControllerConfig` and `FrameResponseUpdate`. -/
def receiveEither (s : LinControllerFacade T) (sender : ServiceDescriptor) (msg : IbMessage T) :
    LinControllerFacade T :=
  if s.IsNetworkSimulated then
    if s.AllowForwardToProxy sender then
      { s with linControllerProxy := s.linControllerProxy.invoke (.ReceiveIbMessage sender msg) }
    else s
  else
    if s.AllowForwardToDefault sender then
      { s with linController := s.linController.invoke (.ReceiveIbMessage sender msg) }
    else s

def ReceiveIbMessage_Transmission (s : LinControllerFacade T) (sender : ServiceDescriptor)
    (msg : T.Transmission) : LinControllerFacade T :=
  s.receiveEither sender (.Transmission msg)

def ReceiveIbMessage_WakeupPulse (s : LinControllerFacade T) (sender : ServiceDescriptor)
    (msg : T.WakeupPulse) : LinControllerFacade T :=
  s.receiveEither sender (.WakeupPulse msg)

def ReceiveIbMessage_ControllerConfig (s : LinControllerFacade T) (sender : ServiceDescriptor)
    (msg : T.ControllerConfig) : LinControllerFacade T :=
  s.receiveEither sender (.ControllerConfig msg)

/-- The `ControllerStatusUpdate` overload has no proxy branch. -/
def ReceiveIbMessage_ControllerStatusUpdate (s : LinControllerFacade T)
    (sender : ServiceDescriptor) (msg : T.ControllerStatusUpdate) : LinControllerFacade T :=
  if !s.IsNetworkSimulated then
    if s.AllowForwardToDefault sender then
      { s with
        linController :=
          s.linController.invoke (.ReceiveIbMessage sender (.ControllerStatusUpdate msg)) }
    else s
  else s

def ReceiveIbMessage_FrameResponseUpdate (s : LinControllerFacade T) (sender : ServiceDescriptor)
    (msg : T.FrameResponseUpdate) : LinControllerFacade T :=
  s.receiveEither sender (.FrameResponseUpdate msg)

/-- Overload resolution of `ReceiveIbMessage` on the static type of the message. -/
def ReceiveIbMessage (s : LinControllerFacade T) (sender : ServiceDescriptor) :
    IbMessage T → LinControllerFacade T
  | .Transmission msg => s.ReceiveIbMessage_Transmission sender msg
  | .WakeupPulse msg => s.ReceiveIbMessage_WakeupPulse sender msg
  | .ControllerConfig msg => s.ReceiveIbMessage_ControllerConfig sender msg
  | .ControllerStatusUpdate msg => s.ReceiveIbMessage_ControllerStatusUpdate sender msg
  | .FrameResponseUpdate msg => s.ReceiveIbMessage_FrameResponseUpdate sender msg

def SetTimeProvider (s : LinControllerFacade T) (timeProvider : T.TimeProvider) :
    LinControllerFacade T :=
  if !s.IsNetworkSimulated then
    { s with linController := s.linController.invoke (.SetTimeProvider timeProvider) }
  else s

def AddSink (s : LinControllerFacade T) (sink : T.TraceMessageSink) : LinControllerFacade T :=
  s.callBoth (.AddSink sink)

/-- The data-member part of `SetServiceDescriptor`.  Its last statement registers
`discoveryHandler` with the discovery service; from then on the service invokes the
handler, which is the step `discoveryHandler` below. -/
def SetServiceDescriptor (s : LinControllerFacade T) (serviceDescriptor : ServiceDescriptor) :
    LinControllerFacade T :=
  { s with
    serviceDescriptor := serviceDescriptor
    linController := s.linController.invoke (.SetServiceDescriptor serviceDescriptor)
    linControllerProxy := s.linControllerProxy.invoke (.SetServiceDescriptor serviceDescriptor) }

/-- The lambda registered in `SetServiceDescriptor`.  It captures `this`; the
by-value capture `serviceDescriptor` is not read in its body. -/
def discoveryHandler (s : LinControllerFacade T) (discoveryType : ServiceDiscoveryEventType)
    (remoteServiceDescriptor : ServiceDescriptor) : LinControllerFacade T :=
  if !s.IsNetworkSimulated then
    if decide (discoveryType = ServiceDiscoveryEventType.ServiceCreated)
        && s.IsRelevantNetwork remoteServiceDescriptor then
      { s with
        simulatedLinkDetected := true
        simulatedLink := remoteServiceDescriptor
        currentController := ControllerPtr.linControllerProxy }
    else s
  else
    if decide (discoveryType = ServiceDiscoveryEventType.ServiceRemoved)
        && s.IsRelevantNetwork remoteServiceDescriptor then
      { s with
        simulatedLinkDetected := false
        currentController := ControllerPtr.linController }
    else s

def GetServiceDescriptor (s : LinControllerFacade T) : ServiceDescriptor :=
  s.serviceDescriptor

end LinControllerFacade

/-- One thing that can happen to a facade after construction: a public member call
or an invocation of its discovery handler. -/
inductive Op (T : LinDatatypes) where
  | Init (config : T.ControllerConfig)
  | SendFrame (frame : T.Frame) (responseType : T.FrameResponseType)
  | SendFrameAt (frame : T.Frame) (responseType : T.FrameResponseType) (timestamp : Int)
  | SendFrameHeader (linId : T.LinIdT)
  | SendFrameHeaderAt (linId : T.LinIdT) (timestamp : Int)
  | SetFrameResponse (frame : T.Frame) (mode : T.FrameResponseMode)
  | SetFrameResponses (responses : List T.FrameResponse)
  | GoToSleep
  | GoToSleepInternal
  | Wakeup
  | WakeupInternal
  | RegisterFrameStatusHandler (handler : T.FrameStatusHandler)
  | RegisterGoToSleepHandler (handler : T.GoToSleepHandler)
  | RegisterWakeupHandler (handler : T.WakeupHandler)
  | RegisterFrameResponseUpdateHandler (handler : T.FrameResponseUpdateHandler)
  | ReceiveIbMessage (sender : ServiceDescriptor) (msg : IbMessage T)
  | SetTimeProvider (timeProvider : T.TimeProvider)
  | AddSink (sink : T.TraceMessageSink)
  | SetServiceDescriptor (serviceDescriptor : ServiceDescriptor)
  | Discovery (discoveryType : ServiceDiscoveryEventType) (remote : ServiceDescriptor)

/-- Whether the operation is a discovery event. -/
def Op.isDiscovery {T : LinDatatypes} : Op T → Bool
  | .Discovery _ _ => true
  | _ => false

namespace LinControllerFacade

variable {T : LinDatatypes}

/-- Perform one operation on the facade. -/
def step (s : LinControllerFacade T) : Op T → LinControllerFacade T
  | .Init config => s.Init config
  | .SendFrame frame responseType => s.SendFrame frame responseType
  | .SendFrameAt frame responseType timestamp => s.SendFrameAt frame responseType timestamp
  | .SendFrameHeader linId => s.SendFrameHeader linId
  | .SendFrameHeaderAt linId timestamp => s.SendFrameHeaderAt linId timestamp
  | .SetFrameResponse frame mode => s.SetFrameResponse frame mode
  | .SetFrameResponses responses => s.SetFrameResponses responses
  | .GoToSleep => s.GoToSleep
  | .GoToSleepInternal => s.GoToSleepInternal
  | .Wakeup => s.Wakeup
  | .WakeupInternal => s.WakeupInternal
  | .RegisterFrameStatusHandler handler => s.RegisterFrameStatusHandler handler
  | .RegisterGoToSleepHandler handler => s.RegisterGoToSleepHandler handler
  | .RegisterWakeupHandler handler => s.RegisterWakeupHandler handler
  | .RegisterFrameResponseUpdateHandler handler => s.RegisterFrameResponseUpdateHandler handler
  | .ReceiveIbMessage sender msg => s.ReceiveIbMessage sender msg
  | .SetTimeProvider timeProvider => s.SetTimeProvider timeProvider
  | .AddSink sink => s.AddSink sink
  | .SetServiceDescriptor serviceDescriptor => s.SetServiceDescriptor serviceDescriptor
  | .Discovery discoveryType remote => s.discoveryHandler discoveryType remote

/-- Perform a sequence of operations, first to last. -/
def run (s : LinControllerFacade T) (ops : List (Op T)) : LinControllerFacade T :=
  ops.foldl step s

/-- The pointer and the flag select the same behaviour. -/
def Consistent (s : LinControllerFacade T) : Prop :=
  (s.currentController = ControllerPtr.linControllerProxy ↔ s.IsNetworkSimulated = true)
    ∧ (s.currentController = ControllerPtr.linController ↔ s.IsNetworkSimulated = false)

/-- The facade has `_currentController` equal to `p` now and after each of `ops`. -/
def StaysOn (p : ControllerPtr) : List (Op T) → LinControllerFacade T → Prop
  | [], s => s.currentController = p
  | op :: ops, s => s.currentController = p ∧ StaysOn p ops (s.step op)

/-- What the call `c` through the facade did: the current behaviour received `c`,
everything else is as before. -/
def ForwardedToCurrent (c : Call T) (s s' : LinControllerFacade T) : Prop :=
  s'.currentController = s.currentController
    ∧ s'.current.received = s.current.received ++ [c]
    ∧ s'.nonCurrent = s.nonCurrent
    ∧ s'.simulatedLinkDetected = s.simulatedLinkDetected
    ∧ s'.simulatedLink = s.simulatedLink
    ∧ s'.serviceDescriptor = s.serviceDescriptor

end LinControllerFacade

end ib.sim.lin

namespace SilKit.Core

/-- The constant `REGISTRY_MESSAGE_HEADER_PREAMBLE_VALUE`, a `uint32_t`. -/
def REGISTRY_MESSAGE_HEADER_PREAMBLE_VALUE : Nat := 0x2d424956 % 2 ^ 32

/-- The constant `REGISTRY_MESSAGE_HEADER_PREAMBLE_BYTES`, a `std::array<uint8_t, 4>`
initialised from four character literals. -/
def REGISTRY_MESSAGE_HEADER_PREAMBLE_BYTES : List Nat :=
  [Char.toNat 'V' % 2 ^ 8, Char.toNat 'I' % 2 ^ 8, Char.toNat 'B' % 2 ^ 8, Char.toNat '-' % 2 ^ 8]

/-- The result type of `CurrentProtocolVersion()`, declared in `ProtocolVersion.hpp`,
which is not among the sources: two `uint16_t` fields. -/
structure ProtocolVersion where
  major : Nat
  minor : Nat
  deriving DecidableEq, Repr

structure RegistryMsgHeader where
  preamble : Nat := REGISTRY_MESSAGE_HEADER_PREAMBLE_VALUE
  versionHigh : Nat
  versionLow : Nat
  deriving DecidableEq, Repr

/-- The default constructor `RegistryMsgHeader()`.  The value `CurrentProtocolVersion()`
returns is a parameter. -/
def RegistryMsgHeader.new (currentProtocolVersion : ProtocolVersion) : RegistryMsgHeader :=
  { versionHigh := currentProtocolVersion.major % 2 ^ 16
    versionLow := currentProtocolVersion.minor % 2 ^ 16 }

inductive RegistryMessageKind where
  | Invalid
  | ParticipantAnnouncement
  | ParticipantAnnouncementReply
  | KnownParticipants
  | RemoteParticipantConnectRequest
  deriving DecidableEq, Repr

/-- The enumerator values of `RegistryMessageKind : uint8_t`. -/
def RegistryMessageKind.toUInt8 : RegistryMessageKind → Nat
  | .Invalid => 0
  | .ParticipantAnnouncement => 1
  | .ParticipantAnnouncementReply => 2
  | .KnownParticipants => 3
  | .RemoteParticipantConnectRequest => 4

/-- The `width` least significant bytes of `value`, least significant byte first. -/
def littleEndianBytes (value : Nat) : Nat → List Nat
  | 0 => []
  | width + 1 => value % 256 :: littleEndianBytes (value / 256) width

end SilKit.Core

namespace ib.sim.lin

open ib.mw ib.mw.service

/-- Concrete argument types for evaluating the facade: every value is a number. -/
def sampleTypes : LinDatatypes :=
  { ComAdapter := Nat, FacadeConfig := Nat, TimeProvider := Nat, TraceMessageSink := Nat
    ControllerConfig := Nat, ControllerStatus := Nat, Frame := Nat, FrameResponseType := Nat
    FrameResponseMode := Nat, FrameResponse := Nat, LinIdT := Nat, FrameStatusHandler := Nat
    GoToSleepHandler := Nat, WakeupHandler := Nat, FrameResponseUpdateHandler := Nat
    Transmission := Nat, WakeupPulse := Nat, ControllerStatusUpdate := Nat
    FrameResponseUpdate := Nat }

/-- A default-constructed descriptor, for evaluation. -/
def emptyDescriptor : ServiceDescriptor := ⟨"", .other 0, "", 0⟩

/-- The descriptor of a LIN controller of participant `P1` on network `LIN1`. -/
def ownDescriptor : ServiceDescriptor := ⟨"P1", .other 2, "LIN1", 5⟩

/-- The link a network simulator advertises for network `LIN1`. -/
def netSimLink : ServiceDescriptor := ⟨"NetworkSimulator", .Link, "LIN1", 1⟩

/-- A link for network `LIN1` advertised by a different participant. -/
def otherLink : ServiceDescriptor := ⟨"OtherSimulator", .Link, "LIN1", 9⟩

/-- A constructed facade whose service descriptor has been set. -/
def sampleFacade : LinControllerFacade sampleTypes :=
  (LinControllerFacade.new emptyDescriptor (0 : Nat) (0 : Nat) (0 : Nat)).SetServiceDescriptor
    ownDescriptor

/-- A sequence of public calls without a discovery event: the descriptor is set, the
controller is initialised, a wake-up handler is registered and a wake-up pulse from
another participant arrives. -/
def sampleCalls : List (Op sampleTypes) :=
  [Op.SetServiceDescriptor ownDescriptor, @Op.Init sampleTypes (7 : Nat),
    @Op.RegisterWakeupHandler sampleTypes (3 : Nat),
    Op.ReceiveIbMessage otherLink (@IbMessage.WakeupPulse sampleTypes (4 : Nat))]

/-- The network simulator's endpoint that sends to the sample facade: it carries the
simulator's participant name and the facade's service id. -/
def netSimEndpoint : ServiceDescriptor := ⟨"NetworkSimulator", .other 2, "LIN1", 5⟩

/-- The operations that construct `sampleProxied` from a fresh facade. -/
def sampleSwitch : List (Op sampleTypes) :=
  [Op.SetServiceDescriptor ownDescriptor, Op.Discovery .ServiceCreated netSimLink]

/-- A status function for evaluation: the number of calls the behaviour has received. -/
def sampleStatus (b : Behaviour sampleTypes) : Nat := b.received.length

/-- The sample facade after the network simulator's link has been discovered. -/
def sampleProxied : LinControllerFacade sampleTypes :=
  sampleFacade.discoveryHandler .ServiceCreated netSimLink

end ib.sim.lin

namespace ib.sim.eth

/-- `EthernetTxId`, a `uint32_t` (the C API keys its maps by `uint32_t`). -/
abbrev EthernetTxId := Nat

/-- The states of an Ethernet controller, with the values `Ethernet.h` gives them. -/
inductive EthernetState where
  | Inactive
  | LinkDown
  | LinkUp
  deriving DecidableEq, Repr

/-- The two modes `EthernetSetMode` carries. -/
inductive EthernetMode where
  | Inactive
  | Active
  deriving DecidableEq, Repr

/-- The acknowledgement statuses, with the values `Ethernet.h` gives them. -/
inductive EthernetTransmitStatus where
  | Transmitted
  | ControllerInactive
  | LinkDown
  | Dropped
  | InvalidFrameFormat
  deriving DecidableEq, Repr

def EthernetState.toNat : EthernetState → Nat
  | .Inactive => 0
  | .LinkDown => 1
  | .LinkUp => 2

def EthernetMode.toNat : EthernetMode → Nat
  | .Inactive => 0
  | .Active => 1

def EthernetTransmitStatus.toNat : EthernetTransmitStatus → Nat
  | .Transmitted => 0
  | .ControllerInactive => 1
  | .LinkDown => 2
  | .Dropped => 3
  | .InvalidFrameFormat => 4

/-- An Ethernet frame: the class keeps the raw frame bytes, and every accessor
(`GetSourceMac`, `GetDestinationMac`, `GetVlanTag`, `GetPayload`, `RawFrame`) reads
them. -/
structure EthernetFrame where
  rawFrame : List Nat
  deriving DecidableEq, Repr

/-- A value-initialised frame. -/
def EthernetFrame.empty : EthernetFrame := ⟨[]⟩

def EthernetFrame.SetRawFrame (_frame : EthernetFrame) (rawFrame : List Nat) : EthernetFrame :=
  ⟨rawFrame⟩

def EthernetFrame.RawFrame (frame : EthernetFrame) : List Nat := frame.rawFrame

/-- The member is called `frame` in `EthController.cpp` and `ethFrame` in
`EthControllerProxy.cpp`, `CapiEthernet.cpp` and the serialisation test. -/
structure EthernetFrameEvent where
  transmitId : EthernetTxId
  timestamp : Int
  frame : EthernetFrame
  deriving DecidableEq, Repr

structure EthernetFrameTransmitEvent where
  transmitId : EthernetTxId
  timestamp : Int
  status : EthernetTransmitStatus
  deriving DecidableEq, Repr

structure EthernetStatus where
  timestamp : Int
  state : EthernetState
  bitrate : Nat
  deriving DecidableEq, Repr

structure EthernetSetMode where
  mode : EthernetMode
  deriving DecidableEq, Repr

structure EthernetStateChangeEvent where
  timestamp : Int
  state : EthernetState
  deriving DecidableEq, Repr

structure EthernetBitrateChangeEvent where
  timestamp : Int
  bitrate : Nat
  deriving DecidableEq, Repr

/-- The values of the field types: `transmitId` a `uint32_t`, `timestamp` a 64-bit
signed nanosecond count, the raw frame a vector of bytes whose size fits the 32-bit
length field of the buffer. -/
def EthernetFrameEvent.WellFormed (m : EthernetFrameEvent) : Prop :=
  m.transmitId < 2 ^ 32 ∧ -(2 ^ 63) ≤ m.timestamp ∧ m.timestamp < 2 ^ 63
    ∧ (∀ b ∈ m.frame.rawFrame, b < 256) ∧ m.frame.rawFrame.length < 2 ^ 32

def EthernetFrameTransmitEvent.WellFormed (m : EthernetFrameTransmitEvent) : Prop :=
  m.transmitId < 2 ^ 32 ∧ -(2 ^ 63) ≤ m.timestamp ∧ m.timestamp < 2 ^ 63

def EthernetStatus.WellFormed (m : EthernetStatus) : Prop :=
  -(2 ^ 63) ≤ m.timestamp ∧ m.timestamp < 2 ^ 63 ∧ m.bitrate < 2 ^ 32

end ib.sim.eth

namespace ib.mw

open ib.sim.eth

/-- Modelled from the spec: the message buffer and the Ethernet (de)serialisers
(`MessageBuffer`, `SerdesSimEthernet.hpp`) are not among the sources; only their test
is.  The spec's Wire Codec "encodes/decodes fixed-layout and variable-length protocol
structures into a byte stream", "endianness-fixed", variable-length data
"length-prefixed".  The buffer is the byte stream. -/
abbrev MessageBuffer := List Nat

/-- Modelled from the spec: the two outcomes of a failed `Decode`: the "need more
data" result for a truncated buffer, and `FramingError`. -/
inductive DecodeError where
  | needMoreData
  | framingError
  deriving DecidableEq, Repr

/-- Modelled from the spec: a fixed-layout unsigned integer of `width` bytes, least
significant byte first. -/
def putUInt (width : Nat) (value : Nat) : MessageBuffer :=
  SilKit.Core.littleEndianBytes (value % 256 ^ width) width

/-- The number whose little-endian bytes are `bytes`. -/
def fromLittleEndian : List Nat → Nat
  | [] => 0
  | b :: bs => b + 256 * fromLittleEndian bs

/-- Modelled from the spec: read a fixed-layout unsigned integer of `width` bytes; a
buffer that is too short gives "need more data". -/
def getUInt (width : Nat) (buffer : MessageBuffer) : Except DecodeError (Nat × MessageBuffer) :=
  if buffer.length < width then .error .needMoreData
  else .ok (fromLittleEndian (buffer.take width), buffer.drop width)

/-- Modelled from the spec: a 64-bit signed integer in two's complement. -/
def putInt64 (value : Int) : MessageBuffer :=
  putUInt 8 (value % 2 ^ 64).toNat

def getInt64 (buffer : MessageBuffer) : Except DecodeError (Int × MessageBuffer) :=
  match getUInt 8 buffer with
  | .error e => .error e
  | .ok (n, rest) => .ok (if n < 2 ^ 63 then (n : Int) else (n : Int) - 2 ^ 64, rest)

/-- Modelled from the spec: a length-prefixed byte vector, the length a 32-bit
unsigned integer. -/
def putBytes (bytes : List Nat) : MessageBuffer :=
  putUInt 4 bytes.length ++ bytes.map (· % 256)

def getBytes (buffer : MessageBuffer) : Except DecodeError (List Nat × MessageBuffer) :=
  match getUInt 4 buffer with
  | .error e => .error e
  | .ok (n, rest) =>
    if rest.length < n then .error .needMoreData else .ok (rest.take n, rest.drop n)

def getEthernetState (buffer : MessageBuffer) :
    Except DecodeError (EthernetState × MessageBuffer) :=
  match getUInt 1 buffer with
  | .error e => .error e
  | .ok (0, rest) => .ok (.Inactive, rest)
  | .ok (1, rest) => .ok (.LinkDown, rest)
  | .ok (2, rest) => .ok (.LinkUp, rest)
  | .ok _ => .error .framingError

def getEthernetMode (buffer : MessageBuffer) :
    Except DecodeError (EthernetMode × MessageBuffer) :=
  match getUInt 1 buffer with
  | .error e => .error e
  | .ok (0, rest) => .ok (.Inactive, rest)
  | .ok (1, rest) => .ok (.Active, rest)
  | .ok _ => .error .framingError

def getEthernetTransmitStatus (buffer : MessageBuffer) :
    Except DecodeError (EthernetTransmitStatus × MessageBuffer) :=
  match getUInt 1 buffer with
  | .error e => .error e
  | .ok (0, rest) => .ok (.Transmitted, rest)
  | .ok (1, rest) => .ok (.ControllerInactive, rest)
  | .ok (2, rest) => .ok (.LinkDown, rest)
  | .ok (3, rest) => .ok (.Dropped, rest)
  | .ok (4, rest) => .ok (.InvalidFrameFormat, rest)
  | .ok _ => .error .framingError

/-- Modelled from the spec: `buffer << msg` for `EthernetFrameEvent`: the fields in
order, the frame as its raw bytes. -/
def serializeEthernetFrameEvent (msg : EthernetFrameEvent) : MessageBuffer :=
  putUInt 4 msg.transmitId ++ putInt64 msg.timestamp ++ putBytes msg.frame.RawFrame

/-- Modelled from the spec: `buffer >> msg` for `EthernetFrameEvent`. -/
def deserializeEthernetFrameEvent (buffer : MessageBuffer) :
    Except DecodeError (EthernetFrameEvent × MessageBuffer) :=
  match getUInt 4 buffer with
  | .error e => .error e
  | .ok (transmitId, b1) =>
    match getInt64 b1 with
    | .error e => .error e
    | .ok (timestamp, b2) =>
      match getBytes b2 with
      | .error e => .error e
      | .ok (rawFrame, b3) =>
        .ok ({ transmitId := transmitId, timestamp := timestamp,
               frame := EthernetFrame.empty.SetRawFrame rawFrame }, b3)

/-- Modelled from the spec: `buffer << msg` for `EthernetFrameTransmitEvent`. -/
def serializeEthernetFrameTransmitEvent (msg : EthernetFrameTransmitEvent) : MessageBuffer :=
  putUInt 4 msg.transmitId ++ putInt64 msg.timestamp ++ putUInt 1 msg.status.toNat

/-- Modelled from the spec: `buffer >> msg` for `EthernetFrameTransmitEvent`. -/
def deserializeEthernetFrameTransmitEvent (buffer : MessageBuffer) :
    Except DecodeError (EthernetFrameTransmitEvent × MessageBuffer) :=
  match getUInt 4 buffer with
  | .error e => .error e
  | .ok (transmitId, b1) =>
    match getInt64 b1 with
    | .error e => .error e
    | .ok (timestamp, b2) =>
      match getEthernetTransmitStatus b2 with
      | .error e => .error e
      | .ok (status, b3) =>
        .ok ({ transmitId := transmitId, timestamp := timestamp, status := status }, b3)

/-- Modelled from the spec: `buffer << msg` for `EthernetStatus`. -/
def serializeEthernetStatus (msg : EthernetStatus) : MessageBuffer :=
  putInt64 msg.timestamp ++ putUInt 1 msg.state.toNat ++ putUInt 4 msg.bitrate

/-- Modelled from the spec: `buffer >> msg` for `EthernetStatus`. -/
def deserializeEthernetStatus (buffer : MessageBuffer) :
    Except DecodeError (EthernetStatus × MessageBuffer) :=
  match getInt64 buffer with
  | .error e => .error e
  | .ok (timestamp, b1) =>
    match getEthernetState b1 with
    | .error e => .error e
    | .ok (state, b2) =>
      match getUInt 4 b2 with
      | .error e => .error e
      | .ok (bitrate, b3) => .ok ({ timestamp := timestamp, state := state, bitrate := bitrate }, b3)

/-- Modelled from the spec: `buffer << msg` for `EthernetSetMode`. -/
def serializeEthernetSetMode (msg : EthernetSetMode) : MessageBuffer :=
  putUInt 1 msg.mode.toNat

/-- Modelled from the spec: `buffer >> msg` for `EthernetSetMode`. -/
def deserializeEthernetSetMode (buffer : MessageBuffer) :
    Except DecodeError (EthernetSetMode × MessageBuffer) :=
  match getEthernetMode buffer with
  | .error e => .error e
  | .ok (mode, b1) => .ok ({ mode := mode }, b1)

end ib.mw

namespace ib.sim.eth

open ib.mw ib.mw.service

/-- `ib::util::HandlerId`. -/
abbrev HandlerId := Nat

/-- The four event types handlers are registered for. -/
inductive EthEvent where
  | frame (event : EthernetFrameEvent)
  | frameTransmit (event : EthernetFrameTransmitEvent)
  | stateChange (event : EthernetStateChangeEvent)
  | bitrateChange (event : EthernetBitrateChangeEvent)
  deriving DecidableEq, Repr

/-- One call of a registered handler: the id it was registered under, the handler, and
the event it was called with. -/
structure Invocation (Callback : Type) where
  handlerId : HandlerId
  handler : Callback
  event : EthEvent

/-- Modelled from the spec: the handler container behind `CallbacksT<MsgT>` (member
functions `Add`, `Remove`, `InvokeAll`) is not among the sources.  The spec gives
`AddXHandler(handler) -> handlerId`, `RemoveXHandler(handlerId) -> bool` (false if
unknown id), handler ids that are never reused, and removal of an unknown id as a
no-op.  The container is the registrations in the order they were made, and the next
id to hand out. -/
structure CallbacksT (Callback : Type) where
  nextHandlerId : HandlerId
  entries : List (HandlerId × Callback)

namespace CallbacksT

variable {Callback : Type}

/-- Modelled from the spec: a freshly constructed container. -/
def empty : CallbacksT Callback := ⟨0, []⟩

/-- Modelled from the spec: `Add` registers the handler under an id not handed out
before and returns the id. -/
def Add (c : CallbacksT Callback) (handler : Callback) : HandlerId × CallbacksT Callback :=
  (c.nextHandlerId,
    { nextHandlerId := c.nextHandlerId + 1
      entries := c.entries ++ [(c.nextHandlerId, handler)] })

/-- Modelled from the spec: `Remove` erases the registration with the given id and
returns `true`, or returns `false` and changes nothing when there is none. -/
def Remove (c : CallbacksT Callback) (handlerId : HandlerId) : Bool × CallbacksT Callback :=
  if c.entries.any (fun e => e.1 == handlerId) then
    (true, { c with entries := c.entries.filter (fun e => e.1 != handlerId) })
  else (false, c)

/-- Modelled from the spec: `InvokeAll` calls every registered handler with the event. -/
def InvokeAll (c : CallbacksT Callback) (event : EthEvent) : List (Invocation Callback) :=
  c.entries.map (fun e => { handlerId := e.1, handler := e.2, event := event })

/-- Every id in the container was handed out by it. -/
def IdsIssued (c : CallbacksT Callback) : Prop :=
  ∀ e ∈ c.entries, e.1 < c.nextHandlerId

end CallbacksT

/-- The message types `SendIbMessage` is instantiated with. -/
inductive OutMsg where
  | setMode (msg : EthernetSetMode)
  | frameEvent (msg : EthernetFrameEvent)
  deriving DecidableEq, Repr

/-- The message types of the `ReceiveIbMessage` overload set. -/
inductive InMsg where
  | frameEvent (msg : EthernetFrameEvent)
  | frameTransmitEvent (msg : EthernetFrameTransmitEvent)
  | status (msg : EthernetStatus)
  deriving DecidableEq, Repr

/-- A member call the controller makes on `_simulationBehavior`. -/
inductive SimCall where
  | SetDetailedBehavior (remoteServiceDescriptor : ServiceDescriptor)
  | SetTrivialBehavior
  | SendIbMessage (msg : OutMsg)
  | OnReceiveAck (msg : EthernetFrameTransmitEvent)
  deriving DecidableEq, Repr

/-- The member `_simulationBehavior`, whose class is not among the sources: the calls
it has received, oldest first. -/
structure SimBehavior where
  received : List SimCall
  deriving DecidableEq, Repr

def SimBehavior.invoke (b : SimBehavior) (c : SimCall) : SimBehavior :=
  ⟨b.received ++ [c]⟩

/-- The messages handed to `_simulationBehavior.SendIbMessage` so far. -/
def SimBehavior.sent (b : SimBehavior) : List OutMsg :=
  b.received.filterMap (fun c => match c with
    | .SendIbMessage msg => some msg
    | _ => none)

/-- What is declared outside the sources and the controller depends on, taken as
parameters: the answers of `_simulationBehavior` (`IsTrivial`, `AllowReception`), the
messages it hands back to its parent controller (it is constructed with `this`) while
`SendIbMessage` runs, and `MakeTxId`, which reads and updates the transmit-id member. -/
structure EthControllerEnv where
  IsTrivial : SimBehavior → Bool
  AllowReception : SimBehavior → ServiceDescriptor → Bool
  handedBack : SimBehavior → OutMsg → List (ServiceDescriptor × InMsg)
  MakeTxId : Nat → EthernetTxId × Nat

/-- The direction argument of `_tracer.Trace`. -/
inductive TransmitDirection where
  | RX
  | TX
  deriving DecidableEq, Repr

/-- The data members of `EthController`; `warnings` is what was passed to the
participant's logger, `traced` the tracer calls, `raised` the events `CallHandlers` was
called with and `invoked` the handler calls that made. -/
structure EthController (Callback : Type) where
  serviceDescriptor : ServiceDescriptor
  simulationBehavior : SimBehavior
  ethState : EthernetState
  ethBitRate : Nat
  ethTxId : Nat
  frameCallbacks : CallbacksT Callback
  frameTransmitCallbacks : CallbacksT Callback
  stateChangeCallbacks : CallbacksT Callback
  bitrateChangeCallbacks : CallbacksT Callback
  traced : List (TransmitDirection × Int × EthernetFrame)
  warnings : List String
  raised : List EthEvent
  invoked : List (Invocation Callback)

namespace EthController

variable {Callback : Type}

def IsRelevantNetwork (s : EthController Callback) (remoteServiceDescriptor : ServiceDescriptor) :
    Bool :=
  decide (remoteServiceDescriptor.serviceType = ServiceType.Link)
    && decide (remoteServiceDescriptor.networkName = s.serviceDescriptor.networkName)

def SetDetailedBehavior (s : EthController Callback) (remoteServiceDescriptor : ServiceDescriptor) :
    EthController Callback :=
  { s with
    simulationBehavior := s.simulationBehavior.invoke (.SetDetailedBehavior remoteServiceDescriptor) }

def SetTrivialBehavior (s : EthController Callback) : EthController Callback :=
  { s with simulationBehavior := s.simulationBehavior.invoke .SetTrivialBehavior }

/-- The lambda registered in `RegisterServiceDiscovery`. -/
def discoveryHandler (env : EthControllerEnv) (s : EthController Callback)
    (discoveryType : ServiceDiscoveryEventType) (remoteServiceDescriptor : ServiceDescriptor) :
    EthController Callback :=
  if env.IsTrivial s.simulationBehavior then
    if decide (discoveryType = ServiceDiscoveryEventType.ServiceCreated)
        && s.IsRelevantNetwork remoteServiceDescriptor then
      s.SetDetailedBehavior remoteServiceDescriptor
    else s
  else
    if decide (discoveryType = ServiceDiscoveryEventType.ServiceRemoved)
        && s.IsRelevantNetwork remoteServiceDescriptor then
      s.SetTrivialBehavior
    else s

def GetState (s : EthController Callback) : EthernetState := s.ethState

def AllowReception (env : EthControllerEnv) (s : EthController Callback)
    (sender : ServiceDescriptor) : Bool :=
  env.AllowReception s.simulationBehavior sender

/-- `CallHandlers<MsgT>`: `std::get` selects the container of the event's type. -/
def CallHandlers (s : EthController Callback) (event : EthEvent) : EthController Callback :=
  match event with
  | .frame _ =>
    { s with
      raised := s.raised ++ [event]
      invoked := s.invoked ++ s.frameCallbacks.InvokeAll event }
  | .frameTransmit _ =>
    { s with
      raised := s.raised ++ [event]
      invoked := s.invoked ++ s.frameTransmitCallbacks.InvokeAll event }
  | .stateChange _ =>
    { s with
      raised := s.raised ++ [event]
      invoked := s.invoked ++ s.stateChangeCallbacks.InvokeAll event }
  | .bitrateChange _ =>
    { s with
      raised := s.raised ++ [event]
      invoked := s.invoked ++ s.bitrateChangeCallbacks.InvokeAll event }

def ReceiveIbMessage_EthernetFrameEvent (env : EthControllerEnv) (s : EthController Callback)
    (sender : ServiceDescriptor) (msg : EthernetFrameEvent) : EthController Callback :=
  if !s.AllowReception env sender then s
  else
    CallHandlers { s with traced := s.traced ++ [(TransmitDirection.RX, msg.timestamp, msg.frame)] }
      (.frame msg)

def ReceiveIbMessage_EthernetFrameTransmitEvent (env : EthControllerEnv)
    (s : EthController Callback) (sender : ServiceDescriptor) (msg : EthernetFrameTransmitEvent) :
    EthController Callback :=
  if !s.AllowReception env sender then s
  else
    CallHandlers { s with simulationBehavior := s.simulationBehavior.invoke (.OnReceiveAck msg) }
      (.frameTransmit msg)

/-- The part of `ReceiveIbMessage(EthernetStatus)` after the reception check. -/
def applyStatus (s : EthController Callback) (msg : EthernetStatus) : EthController Callback :=
  let s1 :=
    if msg.bitrate ≠ s.ethBitRate then
      CallHandlers { s with ethBitRate := msg.bitrate }
        (.bitrateChange { timestamp := msg.timestamp, bitrate := msg.bitrate })
    else s
  if msg.state ≠ s1.ethState then
    CallHandlers { s1 with ethState := msg.state }
      (.stateChange { timestamp := msg.timestamp, state := msg.state })
  else s1

def ReceiveIbMessage_EthernetStatus (env : EthControllerEnv) (s : EthController Callback)
    (sender : ServiceDescriptor) (msg : EthernetStatus) : EthController Callback :=
  if !s.AllowReception env sender then s
  else s.applyStatus msg

/-- Overload resolution of `ReceiveIbMessage` on the static type of the message. -/
def ReceiveIbMessage (env : EthControllerEnv) (s : EthController Callback)
    (sender : ServiceDescriptor) : InMsg → EthController Callback
  | .frameEvent msg => s.ReceiveIbMessage_EthernetFrameEvent env sender msg
  | .frameTransmitEvent msg => s.ReceiveIbMessage_EthernetFrameTransmitEvent env sender msg
  | .status msg => s.ReceiveIbMessage_EthernetStatus env sender msg

/-- `SendIbMessage<MsgT>`: the message goes to `_simulationBehavior.SendIbMessage`; the
messages the simulation behaviour hands back to this controller while that call runs
arrive through `ReceiveIbMessage`. -/
def SendIbMessage (env : EthControllerEnv) (s : EthController Callback) (msg : OutMsg) :
    EthController Callback :=
  (env.handedBack s.simulationBehavior msg).foldl
    (fun st back => st.ReceiveIbMessage env back.1 back.2)
    { s with simulationBehavior := s.simulationBehavior.invoke (.SendIbMessage msg) }

def Activate (env : EthControllerEnv) (s : EthController Callback) : EthController Callback :=
  if s.ethState ≠ EthernetState.Inactive then s
  else s.SendIbMessage env (.setMode { mode := EthernetMode.Active })

def Deactivate (env : EthControllerEnv) (s : EthController Callback) : EthController Callback :=
  if s.ethState = EthernetState.Inactive then s
  else s.SendIbMessage env (.setMode { mode := EthernetMode.Inactive })

def SendFrameEvent (env : EthControllerEnv) (s : EthController Callback)
    (msg : EthernetFrameEvent) : EthernetTxId × EthController Callback :=
  let txId := (env.MakeTxId s.ethTxId).1
  let s1 := { s with ethTxId := (env.MakeTxId s.ethTxId).2 }
  (txId, s1.SendIbMessage env (.frameEvent { msg with transmitId := txId }))

/-- `EthernetFrameEvent msg{}` is value-initialised: transmit id 0, timestamp 0 ns. -/
def SendFrame (env : EthControllerEnv) (s : EthController Callback) (frame : EthernetFrame) :
    EthernetTxId × EthController Callback :=
  s.SendFrameEvent env { transmitId := 0, timestamp := 0, frame := frame }

def AddFrameHandler (s : EthController Callback) (handler : Callback) :
    HandlerId × EthController Callback :=
  ((s.frameCallbacks.Add handler).1, { s with frameCallbacks := (s.frameCallbacks.Add handler).2 })

def RemoveHandler_EthernetFrameEvent (s : EthController Callback) (handlerId : HandlerId) :
    Bool × EthController Callback :=
  ((s.frameCallbacks.Remove handlerId).1,
    { s with frameCallbacks := (s.frameCallbacks.Remove handlerId).2 })

def RemoveFrameHandler (s : EthController Callback) (handlerId : HandlerId) :
    EthController Callback :=
  if !(s.RemoveHandler_EthernetFrameEvent handlerId).1 then
    { (s.RemoveHandler_EthernetFrameEvent handlerId).2 with
      warnings := (s.RemoveHandler_EthernetFrameEvent handlerId).2.warnings
        ++ ["RemoveFrameHandler failed: Unknown HandlerId."] }
  else (s.RemoveHandler_EthernetFrameEvent handlerId).2

def AddFrameTransmitHandler (s : EthController Callback) (handler : Callback) :
    HandlerId × EthController Callback :=
  ((s.frameTransmitCallbacks.Add handler).1,
    { s with frameTransmitCallbacks := (s.frameTransmitCallbacks.Add handler).2 })

def RemoveFrameTransmitHandler (s : EthController Callback) (handlerId : HandlerId) :
    EthController Callback :=
  if !(s.frameTransmitCallbacks.Remove handlerId).1 then
    { s with
      frameTransmitCallbacks := (s.frameTransmitCallbacks.Remove handlerId).2
      warnings := s.warnings ++ ["RemoveFrameTransmitHandler failed: Unknown HandlerId."] }
  else { s with frameTransmitCallbacks := (s.frameTransmitCallbacks.Remove handlerId).2 }

def AddStateChangeHandler (s : EthController Callback) (handler : Callback) :
    HandlerId × EthController Callback :=
  ((s.stateChangeCallbacks.Add handler).1,
    { s with stateChangeCallbacks := (s.stateChangeCallbacks.Add handler).2 })

def RemoveStateChangeHandler (s : EthController Callback) (handlerId : HandlerId) :
    EthController Callback :=
  if !(s.stateChangeCallbacks.Remove handlerId).1 then
    { s with
      stateChangeCallbacks := (s.stateChangeCallbacks.Remove handlerId).2
      warnings := s.warnings ++ ["RemoveStateChangeHandler failed: Unknown HandlerId."] }
  else { s with stateChangeCallbacks := (s.stateChangeCallbacks.Remove handlerId).2 }

def AddBitrateChangeHandler (s : EthController Callback) (handler : Callback) :
    HandlerId × EthController Callback :=
  ((s.bitrateChangeCallbacks.Add handler).1,
    { s with bitrateChangeCallbacks := (s.bitrateChangeCallbacks.Add handler).2 })

def RemoveBitrateChangeHandler (s : EthController Callback) (handlerId : HandlerId) :
    EthController Callback :=
  if !(s.bitrateChangeCallbacks.Remove handlerId).1 then
    { s with
      bitrateChangeCallbacks := (s.bitrateChangeCallbacks.Remove handlerId).2
      warnings := s.warnings ++ ["RemoveBitrateChangeHandler failed: Unknown HandlerId."] }
  else { s with bitrateChangeCallbacks := (s.bitrateChangeCallbacks.Remove handlerId).2 }

/-- One thing that can happen to the controller: a public member call, an inbound
message, or an invocation of its discovery handler. -/
inductive Op (Callback : Type) where
  | Activate
  | Deactivate
  | SendFrameEvent (msg : EthernetFrameEvent)
  | SendFrame (frame : EthernetFrame)
  | ReceiveIbMessage (sender : ServiceDescriptor) (msg : InMsg)
  | AddFrameHandler (handler : Callback)
  | RemoveFrameHandler (handlerId : HandlerId)
  | AddFrameTransmitHandler (handler : Callback)
  | RemoveFrameTransmitHandler (handlerId : HandlerId)
  | AddStateChangeHandler (handler : Callback)
  | RemoveStateChangeHandler (handlerId : HandlerId)
  | AddBitrateChangeHandler (handler : Callback)
  | RemoveBitrateChangeHandler (handlerId : HandlerId)
  | Discovery (discoveryType : ServiceDiscoveryEventType) (remote : ServiceDescriptor)

/-- Perform one operation on the controller. -/
def step (env : EthControllerEnv) (s : EthController Callback) : Op Callback → EthController Callback
  | .Activate => s.Activate env
  | .Deactivate => s.Deactivate env
  | .SendFrameEvent msg => (s.SendFrameEvent env msg).2
  | .SendFrame frame => (s.SendFrame env frame).2
  | .ReceiveIbMessage sender msg => s.ReceiveIbMessage env sender msg
  | .AddFrameHandler handler => (s.AddFrameHandler handler).2
  | .RemoveFrameHandler handlerId => s.RemoveFrameHandler handlerId
  | .AddFrameTransmitHandler handler => (s.AddFrameTransmitHandler handler).2
  | .RemoveFrameTransmitHandler handlerId => s.RemoveFrameTransmitHandler handlerId
  | .AddStateChangeHandler handler => (s.AddStateChangeHandler handler).2
  | .RemoveStateChangeHandler handlerId => s.RemoveStateChangeHandler handlerId
  | .AddBitrateChangeHandler handler => (s.AddBitrateChangeHandler handler).2
  | .RemoveBitrateChangeHandler handlerId => s.RemoveBitrateChangeHandler handlerId
  | .Discovery discoveryType remote => s.discoveryHandler env discoveryType remote

/-- Perform a sequence of operations, first to last. -/
def run (env : EthControllerEnv) (s : EthController Callback) (ops : List (Op Callback)) :
    EthController Callback :=
  ops.foldl (step env) s

end EthController

/-- `std::map::find` on a map kept as a list of key-value pairs. -/
def mapFind {α : Type} (key : Nat) : List (Nat × α) → Option α
  | [] => none
  | (k, v) :: rest => if k = key then some v else mapFind key rest

/-- `map[key] = value`: the keys stay in increasing order and unique. -/
def mapAssign {α : Type} (key : Nat) (value : α) : List (Nat × α) → List (Nat × α)
  | [] => [(key, value)]
  | (k, v) :: rest =>
    if key < k then (key, value) :: (k, v) :: rest
    else if key = k then (key, value) :: rest
    else (k, v) :: mapAssign key value rest

/-- `std::map::erase(key)`. -/
def mapErase {α : Type} (key : Nat) (m : List (Nat × α)) : List (Nat × α) :=
  m.filter (fun e => e.1 != key)

/-- The data members of `EthControllerProxy`: `sent` is what was passed to
`_participant->SendIbMessage(this, ...)`, `raised` the events `CallHandlers` was called
with and `invoked` the handler calls that made. -/
structure EthControllerProxy (Callback : Type) where
  ethState : EthernetState
  ethBitRate : Nat
  ethTxId : Nat
  transmittedMessages : List (Nat × EthernetFrame)
  frameCallbacks : List Callback
  frameTransmitCallbacks : List Callback
  stateChangeCallbacks : List Callback
  bitrateChangeCallbacks : List Callback
  sent : List OutMsg
  traced : List (TransmitDirection × Int × EthernetFrame)
  raised : List EthEvent
  invoked : List (Callback × EthEvent)

namespace EthControllerProxy

variable {Callback : Type}

def Activate (s : EthControllerProxy Callback) : EthControllerProxy Callback :=
  if s.ethState ≠ EthernetState.Inactive then s
  else { s with sent := s.sent ++ [.setMode { mode := EthernetMode.Active }] }

def Deactivate (s : EthControllerProxy Callback) : EthControllerProxy Callback :=
  if s.ethState = EthernetState.Inactive then s
  else { s with sent := s.sent ++ [.setMode { mode := EthernetMode.Inactive }] }

/-- `MakeTxId`, declared in the header, is a parameter: it reads and updates the
transmit-id member. -/
def SendFrameEvent (MakeTxId : Nat → EthernetTxId × Nat) (s : EthControllerProxy Callback)
    (msg : EthernetFrameEvent) : EthernetTxId × EthControllerProxy Callback :=
  let txId := (MakeTxId s.ethTxId).1
  (txId,
    { s with
      ethTxId := (MakeTxId s.ethTxId).2
      transmittedMessages := mapAssign txId msg.frame s.transmittedMessages
      sent := s.sent ++ [.frameEvent { msg with transmitId := txId }] })

def SendFrame (MakeTxId : Nat → EthernetTxId × Nat) (s : EthControllerProxy Callback)
    (frame : EthernetFrame) : EthernetTxId × EthControllerProxy Callback :=
  s.SendFrameEvent MakeTxId { transmitId := 0, timestamp := 0, frame := frame }

def AddFrameHandler (s : EthControllerProxy Callback) (handler : Callback) :
    EthControllerProxy Callback :=
  { s with frameCallbacks := s.frameCallbacks ++ [handler] }

def AddFrameTransmitHandler (s : EthControllerProxy Callback) (handler : Callback) :
    EthControllerProxy Callback :=
  { s with frameTransmitCallbacks := s.frameTransmitCallbacks ++ [handler] }

def AddStateChangeHandler (s : EthControllerProxy Callback) (handler : Callback) :
    EthControllerProxy Callback :=
  { s with stateChangeCallbacks := s.stateChangeCallbacks ++ [handler] }

def AddBitrateChangeHandler (s : EthControllerProxy Callback) (handler : Callback) :
    EthControllerProxy Callback :=
  { s with bitrateChangeCallbacks := s.bitrateChangeCallbacks ++ [handler] }

/-- `CallHandlers<MsgT>`: the handlers of the event's type, in registration order. -/
def CallHandlers (s : EthControllerProxy Callback) (event : EthEvent) :
    EthControllerProxy Callback :=
  match event with
  | .frame _ =>
    { s with
      raised := s.raised ++ [event]
      invoked := s.invoked ++ s.frameCallbacks.map (fun h => (h, event)) }
  | .frameTransmit _ =>
    { s with
      raised := s.raised ++ [event]
      invoked := s.invoked ++ s.frameTransmitCallbacks.map (fun h => (h, event)) }
  | .stateChange _ =>
    { s with
      raised := s.raised ++ [event]
      invoked := s.invoked ++ s.stateChangeCallbacks.map (fun h => (h, event)) }
  | .bitrateChange _ =>
    { s with
      raised := s.raised ++ [event]
      invoked := s.invoked ++ s.bitrateChangeCallbacks.map (fun h => (h, event)) }

def ReceiveIbMessage_EthernetFrameEvent (s : EthControllerProxy Callback)
    (_sender : ServiceDescriptor) (msg : EthernetFrameEvent) : EthControllerProxy Callback :=
  CallHandlers { s with traced := s.traced ++ [(TransmitDirection.RX, msg.timestamp, msg.frame)] }
    (.frame msg)

def ReceiveIbMessage_EthernetFrameTransmitEvent (s : EthControllerProxy Callback)
    (_sender : ServiceDescriptor) (msg : EthernetFrameTransmitEvent) :
    EthControllerProxy Callback :=
  let s1 :=
    match mapFind msg.transmitId s.transmittedMessages with
    | some frame =>
      { s with
        traced :=
          if msg.status = EthernetTransmitStatus.Transmitted then
            s.traced ++ [(TransmitDirection.TX, msg.timestamp, frame)]
          else s.traced
        transmittedMessages := mapErase msg.transmitId s.transmittedMessages }
    | none => s
  s1.CallHandlers (.frameTransmit msg)

def ReceiveIbMessage_EthernetStatus (s : EthControllerProxy Callback)
    (_sender : ServiceDescriptor) (msg : EthernetStatus) : EthControllerProxy Callback :=
  let s1 :=
    if msg.bitrate ≠ s.ethBitRate then
      CallHandlers { s with ethBitRate := msg.bitrate }
        (.bitrateChange { timestamp := msg.timestamp, bitrate := msg.bitrate })
    else s
  if msg.state ≠ s1.ethState then
    CallHandlers { s1 with ethState := msg.state }
      (.stateChange { timestamp := msg.timestamp, state := msg.state })
  else s1

end EthControllerProxy

end ib.sim.eth

namespace ib.sim.eth

open ib.mw ib.mw.service

namespace EthController

variable {Callback : Type}

/-- The id is not in the frame-handler table and will not be handed out again. -/
def Retired (handlerId : HandlerId) (s : EthController Callback) : Prop :=
  handlerId < s.frameCallbacks.nextHandlerId ∧ ∀ e ∈ s.frameCallbacks.entries, e.1 ≠ handlerId

/-- No invocation in the list is a frame-handler call under the id. -/
def NoFrameCall (handlerId : HandlerId) (l : List (Invocation Callback)) : Prop :=
  ∀ inv ∈ l, ∀ e : EthernetFrameEvent, inv.event = EthEvent.frame e → inv.handlerId ≠ handlerId

/-- From `s` to `t` the id stayed retired and no frame handler was called under it. -/
def Quiet (handlerId : HandlerId) (s t : EthController Callback) : Prop :=
  Retired handlerId t ∧ ∃ new, t.invoked = s.invoked ++ new ∧ NoFrameCall handlerId new

end EthController

end ib.sim.eth

namespace ib.capi

open ib.mw ib.sim.eth

/-- The two return codes `ib_Ethernet_Controller_SendFrame` returns by itself. -/
inductive ib_ReturnCode where
  | SUCCESS
  | BADPARAMETER
  deriving DecidableEq, Repr

def ETHERNET_MIN_FRAME_SIZE : Nat := 60

/-- The frame argument as `CapiEthernet.cpp` reads it: the bytes at `data` and the
member `size`. -/
structure ib_Ethernet_Frame where
  data : List Nat
  size : Nat
  deriving DecidableEq, Repr

/-- The C event handed to a frame-transmit handler; a pointer is a number, 0 the null
pointer.  The constant `interfaceId` is left out. -/
structure ib_Ethernet_FrameTransmitEvent where
  userContext : Nat
  timestamp : Nat
  status : Nat
  deriving DecidableEq, Repr

/-- The lambda `ib_Ethernet_Controller_AddFrameTransmitHandler` registers on the C++
controller: it captures the C handler and the registration context. -/
structure FrameTransmitLambda where
  handler : Nat
  context : Nat
  deriving DecidableEq, Repr

/-- The closure stored in `callbacksById`: it captures the C handler, the registration
context and the acknowledgement by value. -/
structure DeferredCallback where
  handler : Nat
  context : Nat
  ack : EthernetFrameTransmitEvent
  deriving DecidableEq, Repr

/-- One call `handler(context, controller, &eta)` of a C frame-transmit handler. -/
structure HandlerCall where
  handler : Nat
  context : Nat
  event : ib_Ethernet_FrameTransmitEvent
  deriving DecidableEq, Repr

/-- The global `pendingEthernetTransmits` (its mutex left out). -/
structure PendingEthernetTransmits where
  userContextById : List (Nat × Nat)
  callbacksById : List (Nat × DeferredCallback)
  deriving DecidableEq, Repr

/-- The virtual member functions of `IEthernetController` the C functions below call.
`SendFrame` gives the transmit id, the controller afterwards, and the frame-transmit
handlers the controller invoked while the call ran, in order. -/
structure IEthernetController (σ : Type) where
  SendFrame : σ → EthernetFrame →
    EthernetTxId × σ × List (FrameTransmitLambda × EthernetFrameTransmitEvent)
  AddFrameTransmitHandler : σ → FrameTransmitLambda → σ

/-- The controller behind the opaque pointer together with the globals of
`CapiEthernet.cpp`; `handlerCalls` is the calls of C handlers made so far. -/
structure CapiEthernet (σ : Type) where
  controller : σ
  pendingEthernetTransmits : PendingEthernetTransmits
  ib_error_string : String
  handlerCalls : List HandlerCall

/-- `userContextById[key]`: the stored pointer, or a null pointer inserted under the
key when there is none. -/
def mapIndex (key : Nat) (m : List (Nat × Nat)) : Nat × List (Nat × Nat) :=
  match mapFind key m with
  | some v => (v, m)
  | none => (0, mapAssign key 0 m)

namespace CapiEthernet

variable {σ : Type}

/-- The statements both branches of the lambda share: build `eta` from the
acknowledgement, take the user context out of `userContextById`, call the handler. -/
def callHandler (st : CapiEthernet σ) (handler context : Nat)
    (ack : EthernetFrameTransmitEvent) : CapiEthernet σ :=
  let tmpContext := (mapIndex ack.transmitId st.pendingEthernetTransmits.userContextById).1
  { st with
    pendingEthernetTransmits :=
      { st.pendingEthernetTransmits with
        userContextById :=
          mapErase ack.transmitId
            (mapIndex ack.transmitId st.pendingEthernetTransmits.userContextById).2 }
    handlerCalls := st.handlerCalls ++
      [{ handler := handler, context := context
         event :=
          { userContext := tmpContext
            timestamp := (ack.timestamp % 2 ^ 64).toNat
            status := ack.status.toNat } }] }

/-- The body of the lambda registered by `ib_Ethernet_Controller_AddFrameTransmitHandler`,
run when the controller invokes it with an acknowledgement. -/
def frameTransmitLambda (st : CapiEthernet σ) (l : FrameTransmitLambda)
    (ack : EthernetFrameTransmitEvent) : CapiEthernet σ :=
  let transmitContext := (mapIndex ack.transmitId st.pendingEthernetTransmits.userContextById).1
  let st1 :=
    { st with
      pendingEthernetTransmits :=
        { st.pendingEthernetTransmits with
          userContextById :=
            (mapIndex ack.transmitId st.pendingEthernetTransmits.userContextById).2 } }
  if transmitContext = 0 then
    { st1 with
      pendingEthernetTransmits :=
        { st1.pendingEthernetTransmits with
          callbacksById :=
            mapAssign ack.transmitId
              { handler := l.handler, context := l.context, ack := ack }
              st1.pendingEthernetTransmits.callbacksById } }
  else st1.callHandler l.handler l.context ack

/-- Run the lambdas the controller invoked, in order. -/
def runLambdas (st : CapiEthernet σ)
    (invocations : List (FrameTransmitLambda × EthernetFrameTransmitEvent)) : CapiEthernet σ :=
  invocations.foldl (fun acc inv => acc.frameTransmitLambda inv.1 inv.2) st

def ib_Ethernet_Controller_AddFrameTransmitHandler (I : IEthernetController σ)
    (st : CapiEthernet σ) (context handler : Nat) : ib_ReturnCode × CapiEthernet σ :=
  (.SUCCESS,
    { st with
      controller :=
        I.AddFrameTransmitHandler st.controller { handler := handler, context := context } })

def ib_Ethernet_Controller_SendFrame (I : IEthernetController σ) (st : CapiEthernet σ)
    (frame : ib_Ethernet_Frame) (userContext : Nat) : ib_ReturnCode × CapiEthernet σ :=
  if frame.size < ETHERNET_MIN_FRAME_SIZE then
    (.BADPARAMETER,
      { st with ib_error_string := "An ethernet frame must be at least 60 bytes in size." })
  else
    let ef := EthernetFrame.empty.SetRawFrame (frame.data.take frame.size)
    let sendResult := I.SendFrame st.controller ef
    let transmitId := sendResult.1
    let st1 := runLambdas { st with controller := sendResult.2.1 } sendResult.2.2
    let st2 : CapiEthernet σ :=
      { st1 with
        pendingEthernetTransmits :=
          { st1.pendingEthernetTransmits with
            userContextById :=
              mapAssign transmitId userContext st1.pendingEthernetTransmits.userContextById } }
    let st3 :=
      st2.pendingEthernetTransmits.callbacksById.foldl
        (fun acc pending => acc.callHandler pending.2.handler pending.2.context pending.2.ack) st2
    (.SUCCESS,
      { st3 with
        pendingEthernetTransmits := { st3.pendingEthernetTransmits with callbacksById := [] } })

end CapiEthernet

/-- `EthControllerProxy` as an `IEthernetController`: its `SendFrame` invokes no
handler.  `MakeTxId` is the proxy's parameter. -/
def proxyController (MakeTxId : Nat → EthernetTxId × Nat) :
    IEthernetController (EthControllerProxy FrameTransmitLambda) where
  SendFrame := fun s frame => ((s.SendFrame MakeTxId frame).1, (s.SendFrame MakeTxId frame).2, [])
  AddFrameTransmitHandler := fun s l => s.AddFrameTransmitHandler l

/-- An acknowledgement arrives at the proxy behind the C API: the proxy processes it and
the lambdas it invokes run. -/
def proxyReceivesAck (st : CapiEthernet (EthControllerProxy FrameTransmitLambda))
    (sender : ServiceDescriptor) (ack : EthernetFrameTransmitEvent) :
    CapiEthernet (EthControllerProxy FrameTransmitLambda) :=
  CapiEthernet.runLambdas
    { st with controller := st.controller.ReceiveIbMessage_EthernetFrameTransmitEvent sender ack }
    (st.controller.frameTransmitCallbacks.map (fun l => (l, ack)))

end ib.capi

namespace ib.sim.eth

open ib.mw ib.mw.service

/-- Parameters for evaluation: the simulation behaviour is trivial unless the last
behaviour it was switched to is the detailed one, it accepts every sender and hands
nothing back; transmit ids count up from 1. -/
def sampleEnv : EthControllerEnv where
  IsTrivial := fun b =>
    b.received.foldl
      (fun trivial c =>
        match c with
        | .SetDetailedBehavior _ => false
        | .SetTrivialBehavior => true
        | _ => trivial)
      true
  AllowReception := fun _ _ => true
  handedBack := fun _ _ => []
  MakeTxId := fun n => (n + 1, n + 1)

/-- The descriptor of an Ethernet controller of participant `P1` on network `ETH1`. -/
def ethDescriptor : ServiceDescriptor := ⟨"P1", .other 2, "ETH1", 3⟩

/-- The link a network simulator advertises for network `ETH1`. -/
def ethLink : ServiceDescriptor := ⟨"NetworkSimulator", .Link, "ETH1", 1⟩

/-- A controller on `ETH1`, switched off, with no handler registered; handlers are
numbers. -/
def sampleController : EthController Nat where
  serviceDescriptor := ethDescriptor
  simulationBehavior := ⟨[]⟩
  ethState := EthernetState.Inactive
  ethBitRate := 0
  ethTxId := 0
  frameCallbacks := CallbacksT.empty
  frameTransmitCallbacks := CallbacksT.empty
  stateChangeCallbacks := CallbacksT.empty
  bitrateChangeCallbacks := CallbacksT.empty
  traced := []
  warnings := []
  raised := []
  invoked := []

/-- The sample controller with frame handler 41 registered under id 0 and frame
handler 42 under id 1. -/
def sampleWithHandlers : EthController Nat :=
  ((sampleController.AddFrameHandler 41).2.AddFrameHandler 42).2

/-- A status message: link up at 13 ns with bitrate 1000. -/
def sampleEthStatus : EthernetStatus := { timestamp := 13, state := EthernetState.LinkUp, bitrate := 1000 }

/-- A frame event for evaluation. -/
def sampleFrameEvent : EthernetFrameEvent :=
  { transmitId := 5, timestamp := 13, frame := ⟨[6, 5, 4, 3, 2, 1, 1, 2, 3, 4, 5, 6]⟩ }

/-- A proxy, switched off, with no handler registered. -/
def sampleProxy : EthControllerProxy Nat where
  ethState := EthernetState.Inactive
  ethBitRate := 0
  ethTxId := 0
  transmittedMessages := []
  frameCallbacks := []
  frameTransmitCallbacks := []
  stateChangeCallbacks := []
  bitrateChangeCallbacks := []
  sent := []
  traced := []
  raised := []
  invoked := []

end ib.sim.eth

namespace ib.capi

open ib.mw ib.mw.service ib.sim.eth

/-- The proxy's transmit ids for evaluation: counting up from 1. -/
def countingTxId (n : Nat) : EthernetTxId × Nat := (n + 1, n + 1)

/-- A frame of 60 zero bytes. -/
def frame60 : ib_Ethernet_Frame := { data := List.replicate 60 0, size := 60 }

/-- A frame of 59 zero bytes. -/
def frame59 : ib_Ethernet_Frame := { data := List.replicate 59 0, size := 59 }

/-- A proxy behind the C API with nothing pending. -/
def capiStart : CapiEthernet (EthControllerProxy FrameTransmitLambda) where
  controller :=
    { ethState := EthernetState.LinkUp, ethBitRate := 1000, ethTxId := 0
      transmittedMessages := [], frameCallbacks := [], frameTransmitCallbacks := []
      stateChangeCallbacks := [], bitrateChangeCallbacks := [], sent := [], traced := []
      raised := [], invoked := [] }
  pendingEthernetTransmits := { userContextById := [], callbacksById := [] }
  ib_error_string := ""
  handlerCalls := []

/-- Two frame-transmit handlers are registered: C handler 101 with context 11, then C
handler 102 with context 12. -/
def capiTwoHandlers : CapiEthernet (EthControllerProxy FrameTransmitLambda) :=
  (CapiEthernet.ib_Ethernet_Controller_AddFrameTransmitHandler (proxyController countingTxId)
    (CapiEthernet.ib_Ethernet_Controller_AddFrameTransmitHandler (proxyController countingTxId)
      capiStart 11 101).2 12 102).2

/-- Then a 60-byte frame is sent with user context 7; it gets transmit id 1. -/
def capiAfterSend : CapiEthernet (EthControllerProxy FrameTransmitLambda) :=
  (CapiEthernet.ib_Ethernet_Controller_SendFrame (proxyController countingTxId) capiTwoHandlers
    frame60 7).2

/-- The acknowledgement for transmit id 1: transmitted, at 13 ns. -/
def ackOne : EthernetFrameTransmitEvent :=
  { transmitId := 1, timestamp := 13, status := EthernetTransmitStatus.Transmitted }

/-- Then the acknowledgement for transmit id 1 arrives from the network simulator. -/
def capiAfterAck : CapiEthernet (EthControllerProxy FrameTransmitLambda) :=
  proxyReceivesAck capiAfterSend ethLink ackOne

/-- Then a second 60-byte frame is sent, with user context 8. -/
def capiAfterSecondSend : CapiEthernet (EthControllerProxy FrameTransmitLambda) :=
  (CapiEthernet.ib_Ethernet_Controller_SendFrame (proxyController countingTxId) capiAfterAck
    frame60 8).2

end ib.capi

namespace ib.sim.fr

/-- The FlexRay frame header; `flags`, `payloadLength` and `cycleCount` are `uint8_t`,
`frameId` and `headerCrc` are `uint16_t`, all initialised to 0. -/
structure Header where
  flags : Nat := 0
  frameId : Nat := 0
  payloadLength : Nat := 0
  headerCrc : Nat := 0
  cycleCount : Nat := 0
  deriving DecidableEq, Repr

namespace Header

/-- The enumeration `Header::Flag : uint8_t`. -/
inductive Flag where
  | SuFIndicator
  | SyFIndicator
  | NFIndicator
  | PPIndicator
  deriving DecidableEq, Repr, Fintype

/-- The enumerator values, `static_cast<uint8_t>(flag)`. -/
def Flag.toUInt8 : Flag → Nat
  | .SuFIndicator => (1 <<< 0) % 2 ^ 8
  | .SyFIndicator => (1 <<< 1) % 2 ^ 8
  | .NFIndicator => (1 <<< 2) % 2 ^ 8
  | .PPIndicator => (1 <<< 3) % 2 ^ 8

/-- The bit pattern of `~x` after integer promotion of the `uint8_t` operand `x` to a
32-bit `int`. -/
def complementInt (x : Nat) : Nat := 2 ^ 32 - 1 - x

/-- The values a `uint8_t` member can hold. -/
def WellFormed (h : Header) : Prop := h.flags < 2 ^ 8

/-- `flags & flag` is computed in `int` and converted to `bool`. -/
def IsSet (h : Header) (flag : Flag) : Bool :=
  (h.flags &&& flag.toUInt8) != 0

/-- `flags |= flag`: computed in `int`, stored back into the `uint8_t`. -/
def Set (h : Header) (flag : Flag) : Header :=
  { h with flags := (h.flags ||| flag.toUInt8) % 2 ^ 8 }

/-- `flags &= ~flag`: computed in `int`, stored back into the `uint8_t`. -/
def Clear (h : Header) (flag : Flag) : Header :=
  { h with flags := (h.flags &&& complementInt flag.toUInt8) % 2 ^ 8 }

/-- The overload `Set(flag, condition)`. -/
def SetCond (h : Header) (flag : Flag) (condition : Bool) : Header :=
  if condition then h.Set flag else h.Clear flag

/-- A header for evaluation: flags 0xB5, the unused and reserved bits partly set. -/
def sampleHeader : Header :=
  { flags := 0xB5, frameId := 17, payloadLength := 8, headerCrc := 0x2A5, cycleCount := 3 }

end Header

end ib.sim.fr

namespace ib.sim.eth

open ib.mw ib.mw.service

namespace EthController

variable {Callback : Type}

/-- The frame-handler table the spec's words give after one operation: `AddFrameHandler`
registers the handler under the next id, `RemoveFrameHandler` takes out the
registration under the given id and no other, and no other operation touches the
table. -/
def expectedFrameTable (c : CallbacksT Callback) : Op Callback → CallbacksT Callback
  | .AddFrameHandler handler =>
    { nextHandlerId := c.nextHandlerId + 1, entries := c.entries ++ [(c.nextHandlerId, handler)] }
  | .RemoveFrameHandler handlerId =>
    { nextHandlerId := c.nextHandlerId
      entries := c.entries.filter (fun e => e.1 != handlerId) }
  | _ => c

end EthController

namespace EthControllerProxy

variable {Callback : Type}

/-- One thing that can happen to the proxy: a public member call or an inbound
message. -/
inductive Op (Callback : Type) where
  | Activate
  | Deactivate
  | SendFrameEvent (msg : EthernetFrameEvent)
  | SendFrame (frame : EthernetFrame)
  | AddFrameHandler (handler : Callback)
  | AddFrameTransmitHandler (handler : Callback)
  | AddStateChangeHandler (handler : Callback)
  | AddBitrateChangeHandler (handler : Callback)
  | ReceiveFrameEvent (sender : ServiceDescriptor) (msg : EthernetFrameEvent)
  | ReceiveFrameTransmitEvent (sender : ServiceDescriptor) (msg : EthernetFrameTransmitEvent)
  | ReceiveStatus (sender : ServiceDescriptor) (msg : EthernetStatus)

/-- Perform one operation on the proxy. -/
def step (MakeTxId : Nat → EthernetTxId × Nat) (p : EthControllerProxy Callback) :
    Op Callback → EthControllerProxy Callback
  | .Activate => p.Activate
  | .Deactivate => p.Deactivate
  | .SendFrameEvent msg => (p.SendFrameEvent MakeTxId msg).2
  | .SendFrame frame => (p.SendFrame MakeTxId frame).2
  | .AddFrameHandler handler => p.AddFrameHandler handler
  | .AddFrameTransmitHandler handler => p.AddFrameTransmitHandler handler
  | .AddStateChangeHandler handler => p.AddStateChangeHandler handler
  | .AddBitrateChangeHandler handler => p.AddBitrateChangeHandler handler
  | .ReceiveFrameEvent sender msg => p.ReceiveIbMessage_EthernetFrameEvent sender msg
  | .ReceiveFrameTransmitEvent sender msg =>
    p.ReceiveIbMessage_EthernetFrameTransmitEvent sender msg
  | .ReceiveStatus sender msg => p.ReceiveIbMessage_EthernetStatus sender msg

/-- Perform a sequence of operations, first to last. -/
def run (MakeTxId : Nat → EthernetTxId × Nat) (p : EthControllerProxy Callback)
    (ops : List (Op Callback)) : EthControllerProxy Callback :=
  ops.foldl (step MakeTxId) p

/-- The operation, performed on `p`, is neither the acknowledgement of transmit id `t`
nor a send that is given the id `t` again. -/
def Spares (MakeTxId : Nat → EthernetTxId × Nat) (t : EthernetTxId)
    (p : EthControllerProxy Callback) : Op Callback → Prop
  | .SendFrameEvent _ => (MakeTxId p.ethTxId).1 ≠ t
  | .SendFrame _ => (MakeTxId p.ethTxId).1 ≠ t
  | .ReceiveFrameTransmitEvent _ msg => msg.transmitId ≠ t
  | _ => True

/-- Every operation of the sequence, performed in turn from `p`, spares `t`. -/
def SparesAll (MakeTxId : Nat → EthernetTxId × Nat) (t : EthernetTxId) :
    List (Op Callback) → EthControllerProxy Callback → Prop
  | [], _ => True
  | op :: ops, p => Spares MakeTxId t p op ∧ SparesAll MakeTxId t ops (p.step MakeTxId op)

end EthControllerProxy

/-- Two frames are sent on the sample proxy and none is acknowledged. -/
def sampleTwoSends : EthControllerProxy Nat :=
  (((sampleProxy.SendFrameEvent (fun n => (n + 1, n + 1)) sampleFrameEvent).2).SendFrame
    (fun n => (n + 1, n + 1)) ⟨[9, 9]⟩).2

end ib.sim.eth

namespace ib.sim.lin

open ib.mw ib.mw.service

namespace LinControllerFacade

variable {T : LinDatatypes}

/-! ### Helper lemmas -/

theorem discoveryHandler_of_direct (s : LinControllerFacade T) (k : ServiceDiscoveryEventType)
    (d : ServiceDescriptor) (h : s.IsNetworkSimulated = false) :
    s.discoveryHandler k d =
      if k = .ServiceCreated ∧ d.serviceType = .Link
          ∧ d.networkName = s.serviceDescriptor.networkName then
        { s with
          simulatedLinkDetected := true
          simulatedLink := d
          currentController := ControllerPtr.linControllerProxy }
      else s := by
  unfold discoveryHandler
  simp only [h, IsRelevantNetwork]
  by_cases h1 : k = .ServiceCreated <;> by_cases h2 : d.serviceType = .Link <;>
    by_cases h3 : d.networkName = s.serviceDescriptor.networkName <;> simp [h1, h2, h3]

theorem discoveryHandler_of_proxied (s : LinControllerFacade T) (k : ServiceDiscoveryEventType)
    (d : ServiceDescriptor) (h : s.IsNetworkSimulated = true) :
    s.discoveryHandler k d =
      if k = .ServiceRemoved ∧ d.serviceType = .Link
          ∧ d.networkName = s.serviceDescriptor.networkName then
        { s with
          simulatedLinkDetected := false
          currentController := ControllerPtr.linController }
      else s := by
  unfold discoveryHandler
  simp only [h, IsRelevantNetwork]
  by_cases h1 : k = .ServiceRemoved <;> by_cases h2 : d.serviceType = .Link <;>
    by_cases h3 : d.networkName = s.serviceDescriptor.networkName <;> simp [h1, h2, h3]

theorem step_of_not_discovery (s : LinControllerFacade T) (op : Op T)
    (h : op.isDiscovery = false) :
    (s.step op).currentController = s.currentController
      ∧ (s.step op).simulatedLinkDetected = s.simulatedLinkDetected
      ∧ (s.step op).simulatedLink = s.simulatedLink := by
  cases op <;>
    simp [step, Init, SendFrame, SendFrameAt, SendFrameHeader, SendFrameHeaderAt,
      SetFrameResponse, SetFrameResponses, GoToSleep, GoToSleepInternal, Wakeup, WakeupInternal,
      RegisterFrameStatusHandler, RegisterGoToSleepHandler, RegisterWakeupHandler,
      RegisterFrameResponseUpdateHandler, SetTimeProvider, AddSink, SetServiceDescriptor,
      callBoth, callCurrent, Op.isDiscovery] at h ⊢
  case ReceiveIbMessage sender msg =>
    cases msg <;>
      simp only [ReceiveIbMessage, ReceiveIbMessage_Transmission, ReceiveIbMessage_WakeupPulse,
        ReceiveIbMessage_ControllerConfig, ReceiveIbMessage_ControllerStatusUpdate,
        ReceiveIbMessage_FrameResponseUpdate, receiveEither] <;>
      split <;> (try split) <;> simp
  all_goals (split <;> simp)

theorem step_consistent (s : LinControllerFacade T) (op : Op T) (h : s.Consistent) :
    (s.step op).Consistent := by
  by_cases hd : op.isDiscovery = false
  · obtain ⟨h1, h2, -⟩ := step_of_not_discovery s op hd
    simpa [Consistent, IsNetworkSimulated, h1, h2] using h
  · cases op <;> simp [Op.isDiscovery] at hd
    rename_i k d
    simp only [step]
    cases hf : s.IsNetworkSimulated
    · rw [discoveryHandler_of_direct s k d hf]
      split
      · simp [Consistent, IsNetworkSimulated]
      · exact h
    · rw [discoveryHandler_of_proxied s k d hf]
      split
      · simp [Consistent, IsNetworkSimulated]
      · exact h

theorem run_nil (s : LinControllerFacade T) : s.run [] = s := rfl

theorem run_cons (s : LinControllerFacade T) (op : Op T) (ops : List (Op T)) :
    s.run (op :: ops) = (s.step op).run ops := rfl

theorem run_consistent (s : LinControllerFacade T) (ops : List (Op T)) (h : s.Consistent) :
    (s.run ops).Consistent := by
  induction ops generalizing s with
  | nil => exact h
  | cons op ops ih => exact ih _ (step_consistent s op h)

theorem new_consistent (dflt : ServiceDescriptor) (comAdapter : T.ComAdapter)
    (config : T.FacadeConfig) (timeProvider : T.TimeProvider) :
    (new dflt comAdapter config timeProvider : LinControllerFacade T).Consistent := by
  simp [Consistent, new, IsNetworkSimulated, simulatedLinkDetectedDefault]

theorem reachable_consistent (dflt : ServiceDescriptor) (comAdapter : T.ComAdapter)
    (config : T.FacadeConfig) (timeProvider : T.TimeProvider) (ops : List (Op T)) :
    ((new dflt comAdapter config timeProvider : LinControllerFacade T).run ops).Consistent :=
  run_consistent _ ops (new_consistent dflt comAdapter config timeProvider)

theorem run_of_no_discovery (s : LinControllerFacade T) (ops : List (Op T))
    (h : ∀ op ∈ ops, op.isDiscovery = false) :
    (s.run ops).currentController = s.currentController
      ∧ (s.run ops).simulatedLinkDetected = s.simulatedLinkDetected := by
  induction ops generalizing s with
  | nil => exact ⟨rfl, rfl⟩
  | cons op ops ih =>
    obtain ⟨h1, h2, -⟩ := step_of_not_discovery s op (h op (List.mem_cons_self _ _))
    obtain ⟨h3, h4⟩ := ih (s.step op) (fun o ho => h o (List.mem_cons_of_mem _ ho))
    exact ⟨by rw [run_cons, h3, h1], by rw [run_cons, h4, h2]⟩

theorem callCurrent_forwarded (s : LinControllerFacade T) (c : Call T) :
    ForwardedToCurrent c s (s.callCurrent c) := by
  unfold ForwardedToCurrent callCurrent current nonCurrent
  cases h : s.currentController <;> simp [h, Behaviour.invoke]

theorem callBoth_fields (s : LinControllerFacade T) (c : Call T) :
    (s.callBoth c).linController.received = s.linController.received ++ [c]
      ∧ (s.callBoth c).linControllerProxy.received = s.linControllerProxy.received ++ [c]
      ∧ (s.callBoth c).currentController = s.currentController
      ∧ (s.callBoth c).IsNetworkSimulated = s.IsNetworkSimulated := by
  simp [callBoth, Behaviour.invoke, IsNetworkSimulated]

theorem step_received_grows (s : LinControllerFacade T) (op : Op T) :
    (∃ l, (s.step op).linController.received = s.linController.received ++ l)
      ∧ (∃ l, (s.step op).linControllerProxy.received = s.linControllerProxy.received ++ l) := by
  cases op
  case ReceiveIbMessage sender msg =>
    cases msg <;>
      simp only [step, ReceiveIbMessage, ReceiveIbMessage_Transmission,
        ReceiveIbMessage_WakeupPulse, ReceiveIbMessage_ControllerConfig,
        ReceiveIbMessage_ControllerStatusUpdate, ReceiveIbMessage_FrameResponseUpdate,
        receiveEither] <;>
      split <;> (try split) <;>
      exact ⟨⟨_, by simp [Behaviour.invoke]; rfl⟩, ⟨_, by simp [Behaviour.invoke]; rfl⟩⟩
  case SetTimeProvider tp =>
    simp only [step, SetTimeProvider]
    split <;> exact ⟨⟨_, by simp [Behaviour.invoke]; rfl⟩, ⟨_, by simp [Behaviour.invoke]; rfl⟩⟩
  case Discovery k d =>
    simp only [step, discoveryHandler]
    split <;> split <;> exact ⟨⟨[], by simp⟩, ⟨[], by simp⟩⟩
  all_goals
    simp only [step, Init, SendFrame, SendFrameAt, SendFrameHeader, SendFrameHeaderAt,
      SetFrameResponse, SetFrameResponses, GoToSleep, GoToSleepInternal, Wakeup, WakeupInternal,
      RegisterFrameStatusHandler, RegisterGoToSleepHandler, RegisterWakeupHandler,
      RegisterFrameResponseUpdateHandler, AddSink, SetServiceDescriptor, callBoth, callCurrent]
    first
      | exact ⟨⟨_, rfl⟩, ⟨_, rfl⟩⟩
      | (split <;> first
          | exact ⟨⟨_, rfl⟩, ⟨[], by simp⟩⟩
          | exact ⟨⟨[], by simp⟩, ⟨_, rfl⟩⟩)

theorem run_received_grows (s : LinControllerFacade T) (ops : List (Op T)) :
    (∃ l, (s.run ops).linController.received = s.linController.received ++ l)
      ∧ (∃ l, (s.run ops).linControllerProxy.received = s.linControllerProxy.received ++ l) := by
  induction ops generalizing s with
  | nil => exact ⟨⟨[], by simp [run_nil]⟩, ⟨[], by simp [run_nil]⟩⟩
  | cons op ops ih =>
    obtain ⟨⟨l1, h1⟩, ⟨l2, h2⟩⟩ := step_received_grows s op
    obtain ⟨⟨m1, k1⟩, ⟨m2, k2⟩⟩ := ih (s.step op)
    refine ⟨⟨l1 ++ m1, ?_⟩, ⟨l2 ++ m2, ?_⟩⟩
    · rw [run_cons, k1, h1, List.append_assoc]
    · rw [run_cons, k2, h2, List.append_assoc]

theorem mem_current_of_mem_both (s : LinControllerFacade T) (c : Call T)
    (h1 : c ∈ s.linController.received) (h2 : c ∈ s.linControllerProxy.received) :
    c ∈ s.current.received := by
  unfold current
  cases s.currentController <;> assumption

theorem registered_on_current (s : LinControllerFacade T) (c : Call T) (ops : List (Op T)) :
    c ∈ ((s.callBoth c).run ops).current.received := by
  obtain ⟨⟨l1, h1⟩, ⟨l2, h2⟩⟩ := run_received_grows (s.callBoth c) ops
  obtain ⟨k1, k2, -, -⟩ := callBoth_fields s c
  apply mem_current_of_mem_both
  · rw [h1, k1]; simp
  · rw [h2, k2]; simp

theorem receive_nonCurrent (s : LinControllerFacade T) (sender : ServiceDescriptor)
    (msg : IbMessage T) (h : s.Consistent) :
    (s.ReceiveIbMessage sender msg).currentController = s.currentController
      ∧ (s.ReceiveIbMessage sender msg).nonCurrent = s.nonCurrent
      ∧ ((s.ReceiveIbMessage sender msg).current = s.current
          ∨ (s.ReceiveIbMessage sender msg).current.received
              = s.current.received ++ [Call.ReceiveIbMessage sender msg]) := by
  obtain ⟨hp, hd⟩ := h
  cases hc : s.currentController
  · have hf := hd.mp hc
    cases msg <;>
      simp only [ReceiveIbMessage, ReceiveIbMessage_Transmission, ReceiveIbMessage_WakeupPulse,
        ReceiveIbMessage_ControllerConfig, ReceiveIbMessage_ControllerStatusUpdate,
        ReceiveIbMessage_FrameResponseUpdate, receiveEither, hf] <;>
      by_cases ha : s.AllowForwardToDefault sender = true <;>
      simp [ha, hc, current, nonCurrent, Behaviour.invoke]
  · have hf := hp.mp hc
    cases msg <;>
      simp only [ReceiveIbMessage, ReceiveIbMessage_Transmission, ReceiveIbMessage_WakeupPulse,
        ReceiveIbMessage_ControllerConfig, ReceiveIbMessage_ControllerStatusUpdate,
        ReceiveIbMessage_FrameResponseUpdate, receiveEither, hf] <;>
      by_cases ha : s.AllowForwardToProxy sender = true <;>
      simp [ha, hc, current, nonCurrent, Behaviour.invoke]

theorem step_inbound (s : LinControllerFacade T) (op : Op T) :
    (s.IsNetworkSimulated = true → (s.step op).linController.inbound = s.linController.inbound)
      ∧ (s.IsNetworkSimulated = false →
          (s.step op).linControllerProxy.inbound = s.linControllerProxy.inbound) := by
  cases op
  case ReceiveIbMessage sender msg =>
    constructor <;> intro hf <;> cases msg <;>
      simp only [step, ReceiveIbMessage, ReceiveIbMessage_Transmission,
        ReceiveIbMessage_WakeupPulse, ReceiveIbMessage_ControllerConfig,
        ReceiveIbMessage_ControllerStatusUpdate, ReceiveIbMessage_FrameResponseUpdate,
        receiveEither, hf] <;>
      simp <;> split <;> rfl
  case SetTimeProvider tp =>
    constructor <;> intro hf <;>
      simp [step, SetTimeProvider, hf, Behaviour.inbound, Behaviour.invoke, Call.isReceive]
  case Discovery k d =>
    constructor <;> intro hf <;> simp only [step, discoveryHandler] <;> split <;> split <;> rfl
  all_goals
    constructor <;> intro _ <;>
    simp only [step, Init, SendFrame, SendFrameAt, SendFrameHeader, SendFrameHeaderAt,
      SetFrameResponse, SetFrameResponses, GoToSleep, GoToSleepInternal, Wakeup, WakeupInternal,
      RegisterFrameStatusHandler, RegisterGoToSleepHandler, RegisterWakeupHandler,
      RegisterFrameResponseUpdateHandler, AddSink, SetServiceDescriptor, callBoth, callCurrent] <;>
    (try split) <;>
    simp [Behaviour.inbound, Behaviour.invoke, Call.isReceive]

theorem run_inbound_while_proxied (s : LinControllerFacade T) (ops : List (Op T))
    (hc : s.Consistent) (h : StaysOn ControllerPtr.linControllerProxy ops s) :
    (s.run ops).linController.inbound = s.linController.inbound := by
  induction ops generalizing s with
  | nil => rfl
  | cons op ops ih =>
    obtain ⟨h1, h2⟩ := h
    rw [run_cons, ih (s.step op) (step_consistent s op hc) h2]
    exact (step_inbound s op).1 (hc.1.mp h1)

theorem run_inbound_while_direct (s : LinControllerFacade T) (ops : List (Op T))
    (hc : s.Consistent) (h : StaysOn ControllerPtr.linController ops s) :
    (s.run ops).linControllerProxy.inbound = s.linControllerProxy.inbound := by
  induction ops generalizing s with
  | nil => rfl
  | cons op ops ih =>
    obtain ⟨h1, h2⟩ := h
    rw [run_cons, ih (s.step op) (step_consistent s op hc) h2]
    exact (step_inbound s op).2 (hc.2.mp h1)

/-! ### The discovery-driven switch -/

/-- C1: in the Direct state (`IsNetworkSimulated() == false`) a discovery event makes the
facade Proxied (pointer on the proxy, flag set) if and only if it is a `ServiceCreated`
event whose descriptor has service type `Link` and the facade's own network name; then
only the flag, the pointer and the remembered link change; every other event leaves the
whole state unchanged; and two descriptors with the same service type and network name
(whatever their participant name and service id) lead to the same pointer and flag. -/
theorem direct_to_proxied_iff (s : LinControllerFacade T) (discoveryType : ServiceDiscoveryEventType)
    (d : ServiceDescriptor) (hDirect : s.IsNetworkSimulated = false) :
    (((s.discoveryHandler discoveryType d).currentController = ControllerPtr.linControllerProxy
          ∧ (s.discoveryHandler discoveryType d).IsNetworkSimulated = true)
        ↔ (discoveryType = ServiceDiscoveryEventType.ServiceCreated
            ∧ d.serviceType = ServiceType.Link
            ∧ d.networkName = s.serviceDescriptor.networkName))
      ∧ ((discoveryType = ServiceDiscoveryEventType.ServiceCreated
            ∧ d.serviceType = ServiceType.Link
            ∧ d.networkName = s.serviceDescriptor.networkName) →
          s.discoveryHandler discoveryType d =
            { s with
              simulatedLinkDetected := true
              simulatedLink := d
              currentController := ControllerPtr.linControllerProxy })
      ∧ (¬ (discoveryType = ServiceDiscoveryEventType.ServiceCreated
            ∧ d.serviceType = ServiceType.Link
            ∧ d.networkName = s.serviceDescriptor.networkName) →
          s.discoveryHandler discoveryType d = s)
      ∧ (∀ d2 : ServiceDescriptor, d2.serviceType = d.serviceType →
          d2.networkName = d.networkName →
          (s.discoveryHandler discoveryType d2).currentController
              = (s.discoveryHandler discoveryType d).currentController
            ∧ (s.discoveryHandler discoveryType d2).IsNetworkSimulated
              = (s.discoveryHandler discoveryType d).IsNetworkSimulated) := by
  refine ⟨?_, ?_, ?_, ?_⟩
  · rw [discoveryHandler_of_direct s discoveryType d hDirect]
    split
    · rename_i hc
      simp [IsNetworkSimulated, hc]
    · rename_i hc
      constructor
      · intro h
        rw [h.2] at hDirect
        exact absurd hDirect (by decide)
      · intro h
        exact absurd h hc
  · intro hc
    rw [discoveryHandler_of_direct s discoveryType d hDirect, if_pos hc]
  · intro hc
    rw [discoveryHandler_of_direct s discoveryType d hDirect, if_neg hc]
  · intro d2 ht hn
    rw [discoveryHandler_of_direct s discoveryType d hDirect,
      discoveryHandler_of_direct s discoveryType d2 hDirect, ht, hn]
    split <;> simp [IsNetworkSimulated]

/-- C1, evaluated: the sample facade is Direct and the network simulator's link for its
network makes it Proxied. -/
theorem direct_to_proxied_iff_witness :
    sampleFacade.IsNetworkSimulated = false
      ∧ (sampleFacade.discoveryHandler .ServiceCreated netSimLink).currentController
          = ControllerPtr.linControllerProxy
      ∧ (sampleFacade.discoveryHandler .ServiceCreated netSimLink).IsNetworkSimulated = true :=
  ⟨rfl, (direct_to_proxied_iff sampleFacade .ServiceCreated netSimLink rfl).1.mpr
    ⟨rfl, rfl, rfl⟩⟩

/-- C2, as stated, fails: the sample facade went Proxied on the network simulator's
link; a `ServiceRemoved` event for a different descriptor, a link on the same network
advertised by another participant, returns it to Direct. -/
theorem removed_other_link_returns_to_direct :
    otherLink ≠ netSimLink
      ∧ sampleProxied.IsNetworkSimulated = true
      ∧ sampleProxied.simulatedLink = netSimLink
      ∧ (sampleProxied.discoveryHandler .ServiceRemoved otherLink).IsNetworkSimulated = false
      ∧ (sampleProxied.discoveryHandler .ServiceRemoved otherLink).currentController
          = ControllerPtr.linController
      ∧ ¬ ((sampleProxied.discoveryHandler .ServiceRemoved otherLink).IsNetworkSimulated = true) := by
  refine ⟨by decide, rfl, rfl, rfl, rfl, by decide⟩

/-- C2, amended: in the Proxied state a discovery event returns the facade to Direct if
and only if it is a `ServiceRemoved` event whose descriptor has service type `Link` and
the facade's own network name, whatever its participant name and service id; every
other event leaves the whole state unchanged.  In particular the `ServiceRemoved` event
for the descriptor whose `ServiceCreated` event switched a facade with the same own
network name to Proxied returns the facade to Direct. -/
theorem proxied_to_direct_iff (s : LinControllerFacade T) (discoveryType : ServiceDiscoveryEventType)
    (d : ServiceDescriptor) (hProxied : s.IsNetworkSimulated = true) :
    (((s.discoveryHandler discoveryType d).currentController = ControllerPtr.linController
          ∧ (s.discoveryHandler discoveryType d).IsNetworkSimulated = false)
        ↔ (discoveryType = ServiceDiscoveryEventType.ServiceRemoved
            ∧ d.serviceType = ServiceType.Link
            ∧ d.networkName = s.serviceDescriptor.networkName))
      ∧ (¬ (discoveryType = ServiceDiscoveryEventType.ServiceRemoved
            ∧ d.serviceType = ServiceType.Link
            ∧ d.networkName = s.serviceDescriptor.networkName) →
          s.discoveryHandler discoveryType d = s)
      ∧ (∀ (s0 : LinControllerFacade T) (d0 : ServiceDescriptor),
          s0.IsNetworkSimulated = false →
          (s0.discoveryHandler .ServiceCreated d0).IsNetworkSimulated = true →
          s.serviceDescriptor.networkName = s0.serviceDescriptor.networkName →
          (s.discoveryHandler .ServiceRemoved d0).currentController = ControllerPtr.linController
            ∧ (s.discoveryHandler .ServiceRemoved d0).IsNetworkSimulated = false) := by
  refine ⟨?_, ?_, ?_⟩
  · rw [discoveryHandler_of_proxied s discoveryType d hProxied]
    split
    · rename_i hc
      simp [IsNetworkSimulated, hc]
    · rename_i hc
      constructor
      · intro h
        rw [h.2] at hProxied
        exact absurd hProxied (by decide)
      · intro h
        exact absurd h hc
  · intro hc
    rw [discoveryHandler_of_proxied s discoveryType d hProxied, if_neg hc]
  · intro s0 d0 h0 h1 hn
    rw [discoveryHandler_of_direct s0 .ServiceCreated d0 h0] at h1
    by_cases hc : ServiceDiscoveryEventType.ServiceCreated = ServiceDiscoveryEventType.ServiceCreated
        ∧ d0.serviceType = ServiceType.Link
        ∧ d0.networkName = s0.serviceDescriptor.networkName
    · rw [discoveryHandler_of_proxied s .ServiceRemoved d0 hProxied,
        if_pos ⟨rfl, hc.2.1, hc.2.2.trans hn.symm⟩]
      exact ⟨rfl, rfl⟩
    · rw [if_neg hc, h0] at h1
      exact absurd h1 (by decide)

/-- C2 amended, evaluated: the sample facade is Proxied and the `ServiceRemoved` event
for the link that switched it returns it to Direct. -/
theorem proxied_to_direct_iff_witness :
    sampleProxied.IsNetworkSimulated = true
      ∧ (sampleProxied.discoveryHandler .ServiceRemoved netSimLink).currentController
          = ControllerPtr.linController
      ∧ (sampleProxied.discoveryHandler .ServiceRemoved netSimLink).IsNetworkSimulated = false :=
  ⟨rfl, (proxied_to_direct_iff sampleProxied .ServiceRemoved netSimLink rfl).1.mpr
    ⟨rfl, rfl, rfl⟩⟩

/-- C3: in every state reached from construction by any sequence of public calls and
discovery events, the pointer designates exactly one of the two behaviours, it
designates the proxy if and only if `IsNetworkSimulated()` is true and the direct
behaviour if and only if it is false, and so the behaviour outbound calls reach through
the pointer is the one inbound dispatch selects by the flag. -/
theorem pointer_agrees_with_flag (dflt : ServiceDescriptor) (comAdapter : T.ComAdapter)
    (config : T.FacadeConfig) (timeProvider : T.TimeProvider) (ops : List (Op T)) :
    (((new dflt comAdapter config timeProvider : LinControllerFacade T).run ops).currentController
          = ControllerPtr.linController
        ∨ ((new dflt comAdapter config timeProvider : LinControllerFacade T).run ops).currentController
          = ControllerPtr.linControllerProxy)
      ∧ ¬ (((new dflt comAdapter config timeProvider : LinControllerFacade T).run ops).currentController
            = ControllerPtr.linController
          ∧ ((new dflt comAdapter config timeProvider : LinControllerFacade T).run ops).currentController
            = ControllerPtr.linControllerProxy)
      ∧ (((new dflt comAdapter config timeProvider : LinControllerFacade T).run ops).currentController
            = ControllerPtr.linControllerProxy
          ↔ ((new dflt comAdapter config timeProvider : LinControllerFacade T).run ops).IsNetworkSimulated
            = true)
      ∧ (((new dflt comAdapter config timeProvider : LinControllerFacade T).run ops).currentController
            = ControllerPtr.linController
          ↔ ((new dflt comAdapter config timeProvider : LinControllerFacade T).run ops).IsNetworkSimulated
            = false)
      ∧ ((new dflt comAdapter config timeProvider : LinControllerFacade T).run ops).current
          = (if ((new dflt comAdapter config timeProvider : LinControllerFacade T).run ops).IsNetworkSimulated
              then ((new dflt comAdapter config timeProvider : LinControllerFacade T).run ops).linControllerProxy
              else ((new dflt comAdapter config timeProvider : LinControllerFacade T).run ops).linController) := by
  have h := reachable_consistent dflt comAdapter config timeProvider ops
  generalize (new dflt comAdapter config timeProvider : LinControllerFacade T).run ops = s at h
  obtain ⟨hp, hd⟩ := h
  refine ⟨?_, ?_, hp, hd, ?_⟩
  · cases s.currentController <;> simp
  · intro hboth
    rw [hboth.1] at hboth
    exact absurd hboth.2 (by decide)
  · cases hc : s.currentController
    · have := hd.mp hc
      simp [current, hc, this]
    · have := hp.mp hc
      simp [current, hc, this]

/-- C4: a freshly constructed facade is Direct, its pointer designates the direct
behaviour and not the proxy, and after any sequence of public calls that contains no
discovery event it is still Direct. -/
theorem fresh_facade_is_direct (dflt : ServiceDescriptor) (comAdapter : T.ComAdapter)
    (config : T.FacadeConfig) (timeProvider : T.TimeProvider) (ops : List (Op T))
    (hNoDiscovery : ∀ op ∈ ops, op.isDiscovery = false) :
    (new dflt comAdapter config timeProvider : LinControllerFacade T).currentController
        = ControllerPtr.linController
      ∧ (new dflt comAdapter config timeProvider : LinControllerFacade T).currentController
        ≠ ControllerPtr.linControllerProxy
      ∧ (new dflt comAdapter config timeProvider : LinControllerFacade T).IsNetworkSimulated = false
      ∧ (new dflt comAdapter config timeProvider : LinControllerFacade T).current
        = (new dflt comAdapter config timeProvider : LinControllerFacade T).linController
      ∧ ((new dflt comAdapter config timeProvider : LinControllerFacade T).run ops).currentController
        = ControllerPtr.linController
      ∧ ((new dflt comAdapter config timeProvider : LinControllerFacade T).run ops).IsNetworkSimulated
        = false := by
  obtain ⟨h1, h2⟩ := run_of_no_discovery
    (new dflt comAdapter config timeProvider : LinControllerFacade T) ops hNoDiscovery
  refine ⟨rfl, by simp [new], rfl, rfl, ?_, ?_⟩
  · rw [h1]; rfl
  · simp only [IsNetworkSimulated, h2]; rfl

/-- C4, evaluated: a fresh sample facade is still Direct after its descriptor was set,
it was initialised, a handler was registered and a message from another participant
arrived. -/
theorem fresh_facade_is_direct_witness :
    ((new emptyDescriptor (0 : Nat) (0 : Nat) (0 : Nat) : LinControllerFacade sampleTypes).run
        sampleCalls).currentController = ControllerPtr.linController
      ∧ ((new emptyDescriptor (0 : Nat) (0 : Nat) (0 : Nat) : LinControllerFacade sampleTypes).run
        sampleCalls).IsNetworkSimulated = false :=
  (fresh_facade_is_direct emptyDescriptor (0 : Nat) (0 : Nat) (0 : Nat) sampleCalls
    (by
      intro op hop
      simp only [sampleCalls, List.mem_cons, List.mem_singleton, List.not_mem_nil, or_false] at hop
      rcases hop with h | h | h | h <;> subst h <;> rfl)).2.2.2.2

/-! ### Forwarding -/

/-- C5: each application-facing operation (`Init`, both `SendFrame` overloads, both
`SendFrameHeader` overloads, `SetFrameResponse`, `SetFrameResponses`, `GoToSleep`,
`GoToSleepInternal`, `Wakeup`, `WakeupInternal`) hands exactly one call, with the
arguments it was given, to the behaviour that is current when it is called; the other
behaviour, the pointer, the flag and the descriptors are unchanged.  `Status` returns
the status of the current behaviour and changes nothing. -/
theorem calls_forwarded_to_current (s : LinControllerFacade T)
    (linControllerStatus linControllerProxyStatus : Behaviour T → T.ControllerStatus) :
    (∀ config, ForwardedToCurrent (Call.Init config) s (s.Init config))
      ∧ (s.Status linControllerStatus linControllerProxyStatus
          = if s.currentController = ControllerPtr.linController
              then linControllerStatus s.current else linControllerProxyStatus s.current)
      ∧ (∀ frame responseType,
          ForwardedToCurrent (Call.SendFrame frame responseType) s (s.SendFrame frame responseType))
      ∧ (∀ frame responseType timestamp,
          ForwardedToCurrent (Call.SendFrameAt frame responseType timestamp) s
            (s.SendFrameAt frame responseType timestamp))
      ∧ (∀ linId, ForwardedToCurrent (Call.SendFrameHeader linId) s (s.SendFrameHeader linId))
      ∧ (∀ linId timestamp,
          ForwardedToCurrent (Call.SendFrameHeaderAt linId timestamp) s
            (s.SendFrameHeaderAt linId timestamp))
      ∧ (∀ frame mode,
          ForwardedToCurrent (Call.SetFrameResponse frame mode) s (s.SetFrameResponse frame mode))
      ∧ (∀ responses,
          ForwardedToCurrent (Call.SetFrameResponses responses) s (s.SetFrameResponses responses))
      ∧ ForwardedToCurrent Call.GoToSleep s s.GoToSleep
      ∧ ForwardedToCurrent Call.GoToSleepInternal s s.GoToSleepInternal
      ∧ ForwardedToCurrent Call.Wakeup s s.Wakeup
      ∧ ForwardedToCurrent Call.WakeupInternal s s.WakeupInternal := by
  refine ⟨fun _ => callCurrent_forwarded s _, ?_, fun _ _ => callCurrent_forwarded s _,
    fun _ _ _ => callCurrent_forwarded s _, fun _ => callCurrent_forwarded s _,
    fun _ _ => callCurrent_forwarded s _, fun _ _ => callCurrent_forwarded s _,
    fun _ => callCurrent_forwarded s _, callCurrent_forwarded s _, callCurrent_forwarded s _,
    callCurrent_forwarded s _, callCurrent_forwarded s _⟩
  unfold Status current
  cases s.currentController <;> simp

/-- C6: each of the four handler registrations, in either facade state, hands the
registration to the direct behaviour and to the proxy behaviour and leaves the pointer
and the flag alone; after any later sequence of operations, whatever switches it
contains, the behaviour that is then current has received the registration. -/
theorem handlers_registered_on_both (s : LinControllerFacade T) :
    (∀ handler,
        (s.RegisterFrameStatusHandler handler).linController.received
            = s.linController.received ++ [Call.RegisterFrameStatusHandler handler]
          ∧ (s.RegisterFrameStatusHandler handler).linControllerProxy.received
            = s.linControllerProxy.received ++ [Call.RegisterFrameStatusHandler handler]
          ∧ (s.RegisterFrameStatusHandler handler).currentController = s.currentController
          ∧ (s.RegisterFrameStatusHandler handler).IsNetworkSimulated = s.IsNetworkSimulated
          ∧ ∀ ops : List (Op T),
              Call.RegisterFrameStatusHandler handler
                ∈ ((s.RegisterFrameStatusHandler handler).run ops).current.received)
      ∧ (∀ handler,
        (s.RegisterGoToSleepHandler handler).linController.received
            = s.linController.received ++ [Call.RegisterGoToSleepHandler handler]
          ∧ (s.RegisterGoToSleepHandler handler).linControllerProxy.received
            = s.linControllerProxy.received ++ [Call.RegisterGoToSleepHandler handler]
          ∧ (s.RegisterGoToSleepHandler handler).currentController = s.currentController
          ∧ (s.RegisterGoToSleepHandler handler).IsNetworkSimulated = s.IsNetworkSimulated
          ∧ ∀ ops : List (Op T),
              Call.RegisterGoToSleepHandler handler
                ∈ ((s.RegisterGoToSleepHandler handler).run ops).current.received)
      ∧ (∀ handler,
        (s.RegisterWakeupHandler handler).linController.received
            = s.linController.received ++ [Call.RegisterWakeupHandler handler]
          ∧ (s.RegisterWakeupHandler handler).linControllerProxy.received
            = s.linControllerProxy.received ++ [Call.RegisterWakeupHandler handler]
          ∧ (s.RegisterWakeupHandler handler).currentController = s.currentController
          ∧ (s.RegisterWakeupHandler handler).IsNetworkSimulated = s.IsNetworkSimulated
          ∧ ∀ ops : List (Op T),
              Call.RegisterWakeupHandler handler
                ∈ ((s.RegisterWakeupHandler handler).run ops).current.received)
      ∧ (∀ handler,
        (s.RegisterFrameResponseUpdateHandler handler).linController.received
            = s.linController.received ++ [Call.RegisterFrameResponseUpdateHandler handler]
          ∧ (s.RegisterFrameResponseUpdateHandler handler).linControllerProxy.received
            = s.linControllerProxy.received ++ [Call.RegisterFrameResponseUpdateHandler handler]
          ∧ (s.RegisterFrameResponseUpdateHandler handler).currentController = s.currentController
          ∧ (s.RegisterFrameResponseUpdateHandler handler).IsNetworkSimulated
            = s.IsNetworkSimulated
          ∧ ∀ ops : List (Op T),
              Call.RegisterFrameResponseUpdateHandler handler
                ∈ ((s.RegisterFrameResponseUpdateHandler handler).run ops).current.received) := by
  refine ⟨fun h => ?_, fun h => ?_, fun h => ?_, fun h => ?_⟩
  · obtain ⟨h1, h2, h3, h4⟩ := callBoth_fields s (Call.RegisterFrameStatusHandler h)
    exact ⟨h1, h2, h3, h4, fun ops => registered_on_current s _ ops⟩
  · obtain ⟨h1, h2, h3, h4⟩ := callBoth_fields s (Call.RegisterGoToSleepHandler h)
    exact ⟨h1, h2, h3, h4, fun ops => registered_on_current s _ ops⟩
  · obtain ⟨h1, h2, h3, h4⟩ := callBoth_fields s (Call.RegisterWakeupHandler h)
    exact ⟨h1, h2, h3, h4, fun ops => registered_on_current s _ ops⟩
  · obtain ⟨h1, h2, h3, h4⟩ := callBoth_fields s (Call.RegisterFrameResponseUpdateHandler h)
    exact ⟨h1, h2, h3, h4, fun ops => registered_on_current s _ ops⟩

/-- C7: in a state reached from construction by any sequence of operations, an inbound
message of any of the five kinds leaves the pointer and the behaviour that is not
current untouched; the current behaviour either receives exactly this message or, when
the sender filter rejects it, nothing.  Hence over any later operations during which
the facade stays Proxied the direct behaviour receives no inbound message, and over
any during which it stays Direct the proxy behaviour receives none. -/
theorem inbound_only_to_current (dflt : ServiceDescriptor) (comAdapter : T.ComAdapter)
    (config : T.FacadeConfig) (timeProvider : T.TimeProvider) (ops : List (Op T))
    (s : LinControllerFacade T) (hReach : s = (new dflt comAdapter config timeProvider).run ops) :
    (∀ (sender : ServiceDescriptor) (msg : IbMessage T),
        (s.ReceiveIbMessage sender msg).currentController = s.currentController
          ∧ (s.ReceiveIbMessage sender msg).nonCurrent = s.nonCurrent
          ∧ ((s.ReceiveIbMessage sender msg).current = s.current
              ∨ (s.ReceiveIbMessage sender msg).current.received
                  = s.current.received ++ [Call.ReceiveIbMessage sender msg]))
      ∧ (∀ later : List (Op T), StaysOn ControllerPtr.linControllerProxy later s →
          (s.run later).linController.inbound = s.linController.inbound)
      ∧ (∀ later : List (Op T), StaysOn ControllerPtr.linController later s →
          (s.run later).linControllerProxy.inbound = s.linControllerProxy.inbound) := by
  have hc : s.Consistent := by
    rw [hReach]
    exact reachable_consistent dflt comAdapter config timeProvider ops
  exact ⟨fun sender msg => receive_nonCurrent s sender msg hc,
    fun later h => run_inbound_while_proxied s later hc h,
    fun later h => run_inbound_while_direct s later hc h⟩

/-- C7, evaluated: the Proxied sample facade is reached from construction, and a
transmission from the network simulator's endpoint leaves its direct behaviour
untouched. -/
theorem inbound_only_to_current_witness :
    sampleProxied
        = (new emptyDescriptor (0 : Nat) (0 : Nat) (0 : Nat) : LinControllerFacade sampleTypes).run
            sampleSwitch
      ∧ (sampleProxied.ReceiveIbMessage netSimEndpoint
            (@IbMessage.Transmission sampleTypes (1 : Nat))).nonCurrent
          = sampleProxied.nonCurrent :=
  ⟨rfl, ((@inbound_only_to_current sampleTypes emptyDescriptor (0 : Nat) (0 : Nat) (0 : Nat)
    sampleSwitch sampleProxied rfl).1 netSimEndpoint
      (@IbMessage.Transmission sampleTypes (1 : Nat))).2.1⟩

/-- C8: from a Direct facade, a `ServiceCreated` event for a link on its network makes
it Proxied, and `Status()` is then the proxy behaviour's status whatever the direct
behaviour is; the `ServiceRemoved` event for the same descriptor makes it Direct again:
the pointer designates the direct behaviour, `IsNetworkSimulated()` is false, both
behaviours are as they were, and `Status()` is the direct behaviour's status whatever
the proxy behaviour is. -/
theorem switch_round_trip (s : LinControllerFacade T) (d : ServiceDescriptor)
    (linControllerStatus linControllerProxyStatus : Behaviour T → T.ControllerStatus)
    (hDirect : s.IsNetworkSimulated = false)
    (hLink : d.serviceType = ServiceType.Link)
    (hNetwork : d.networkName = s.serviceDescriptor.networkName) :
    ((s.discoveryHandler .ServiceCreated d).currentController = ControllerPtr.linControllerProxy
        ∧ (s.discoveryHandler .ServiceCreated d).IsNetworkSimulated = true
        ∧ (s.discoveryHandler .ServiceCreated d).Status linControllerStatus linControllerProxyStatus
            = linControllerProxyStatus s.linControllerProxy
        ∧ ∀ b : Behaviour T,
            Status linControllerStatus linControllerProxyStatus
                { s.discoveryHandler .ServiceCreated d with linController := b }
              = (s.discoveryHandler .ServiceCreated d).Status linControllerStatus
                  linControllerProxyStatus)
      ∧ (((s.discoveryHandler .ServiceCreated d).discoveryHandler .ServiceRemoved d).currentController
            = ControllerPtr.linController
        ∧ ((s.discoveryHandler .ServiceCreated d).discoveryHandler .ServiceRemoved d).IsNetworkSimulated
            = false
        ∧ ((s.discoveryHandler .ServiceCreated d).discoveryHandler .ServiceRemoved d).linController
            = s.linController
        ∧ ((s.discoveryHandler .ServiceCreated d).discoveryHandler .ServiceRemoved d).linControllerProxy
            = s.linControllerProxy
        ∧ ((s.discoveryHandler .ServiceCreated d).discoveryHandler .ServiceRemoved d).Status
              linControllerStatus linControllerProxyStatus
            = linControllerStatus s.linController
        ∧ ∀ b : Behaviour T,
            Status linControllerStatus linControllerProxyStatus
                { (s.discoveryHandler .ServiceCreated d).discoveryHandler .ServiceRemoved d with
                  linControllerProxy := b }
              = ((s.discoveryHandler .ServiceCreated d).discoveryHandler .ServiceRemoved d).Status
                  linControllerStatus linControllerProxyStatus) := by
  have h1 : s.discoveryHandler .ServiceCreated d =
      { s with
        simulatedLinkDetected := true
        simulatedLink := d
        currentController := ControllerPtr.linControllerProxy } := by
    rw [discoveryHandler_of_direct s .ServiceCreated d hDirect, if_pos ⟨rfl, hLink, hNetwork⟩]
  have h2 : (s.discoveryHandler .ServiceCreated d).discoveryHandler .ServiceRemoved d =
      { s with
        simulatedLinkDetected := false
        simulatedLink := d
        currentController := ControllerPtr.linController } := by
    rw [discoveryHandler_of_proxied _ .ServiceRemoved d (by rw [h1]; rfl), h1,
      if_pos ⟨rfl, hLink, hNetwork⟩]
  rw [h2, h1]
  simp [Status, IsNetworkSimulated]

/-- C8, evaluated on the sample facade and the network simulator's link, with the
number of received calls as status: after the round trip the facade is Direct and
reports the direct behaviour's status. -/
theorem switch_round_trip_witness :
    sampleFacade.IsNetworkSimulated = false
      ∧ netSimLink.serviceType = ServiceType.Link
      ∧ netSimLink.networkName = sampleFacade.serviceDescriptor.networkName
      ∧ ((sampleFacade.discoveryHandler .ServiceCreated netSimLink).discoveryHandler
            .ServiceRemoved netSimLink).currentController = ControllerPtr.linController
      ∧ ((sampleFacade.discoveryHandler .ServiceCreated netSimLink).discoveryHandler
            .ServiceRemoved netSimLink).Status sampleStatus sampleStatus
          = sampleStatus sampleFacade.linController :=
  ⟨rfl, rfl, rfl,
    (switch_round_trip sampleFacade netSimLink sampleStatus sampleStatus rfl rfl rfl).2.1,
    (switch_round_trip sampleFacade netSimLink sampleStatus sampleStatus rfl rfl rfl).2.2.2.2.2.1⟩

end LinControllerFacade
end ib.sim.lin

namespace SilKit.Core

/-! ### Registry wire constants -/

/-- C9: the wire codes of `RegistryMessageKind` are `Invalid` 0, `ParticipantAnnouncement`
1, `ParticipantAnnouncementReply` 2, `KnownParticipants` 3 and
`RemoteParticipantConnectRequest` 4; every code fits in eight bits; the map from kind to
code is injective; the only kind with code 1 is `ParticipantAnnouncement`. -/
theorem registryMessageKind_codes :
    RegistryMessageKind.Invalid.toUInt8 = 0
      ∧ RegistryMessageKind.ParticipantAnnouncement.toUInt8 = 1
      ∧ RegistryMessageKind.ParticipantAnnouncementReply.toUInt8 = 2
      ∧ RegistryMessageKind.KnownParticipants.toUInt8 = 3
      ∧ RegistryMessageKind.RemoteParticipantConnectRequest.toUInt8 = 4
      ∧ (∀ k : RegistryMessageKind, k.toUInt8 < 2 ^ 8)
      ∧ Function.Injective RegistryMessageKind.toUInt8
      ∧ (∀ k : RegistryMessageKind,
          k.toUInt8 = 1 ↔ k = RegistryMessageKind.ParticipantAnnouncement) := by
  refine ⟨rfl, rfl, rfl, rfl, rfl, ?_, ?_, ?_⟩
  · intro k
    cases k <;> simp [RegistryMessageKind.toUInt8]
  · intro a b h
    cases a <;> cases b <;> simp [RegistryMessageKind.toUInt8] at h ⊢
  · intro k
    cases k <;> simp [RegistryMessageKind.toUInt8]

/-- C10: the preamble constant is 0x2d424956, its four-byte little-endian encoding is
the byte array `REGISTRY_MESSAGE_HEADER_PREAMBLE_BYTES`, which is 0x56, 0x49, 0x42, 0x2d,
the ASCII codes of `V`, `I`, `B`, `-`; and a default-constructed `RegistryMsgHeader`
carries the preamble constant, whatever the current protocol version is. -/
theorem preamble_is_VIB_dash (currentProtocolVersion : ProtocolVersion) :
    REGISTRY_MESSAGE_HEADER_PREAMBLE_VALUE = 0x2d424956
      ∧ littleEndianBytes REGISTRY_MESSAGE_HEADER_PREAMBLE_VALUE 4
          = REGISTRY_MESSAGE_HEADER_PREAMBLE_BYTES
      ∧ REGISTRY_MESSAGE_HEADER_PREAMBLE_BYTES = [0x56, 0x49, 0x42, 0x2d]
      ∧ REGISTRY_MESSAGE_HEADER_PREAMBLE_BYTES = ['V', 'I', 'B', '-'].map Char.toNat
      ∧ REGISTRY_MESSAGE_HEADER_PREAMBLE_BYTES.length = 4
      ∧ (RegistryMsgHeader.new currentProtocolVersion).preamble
          = REGISTRY_MESSAGE_HEADER_PREAMBLE_VALUE := by
  refine ⟨by decide, by decide, by decide, by decide, rfl, rfl⟩

end SilKit.Core

namespace ib.mw

open ib.sim.eth

/-! ### The Ethernet wire codec -/

theorem length_littleEndianBytes (v w : Nat) : (SilKit.Core.littleEndianBytes v w).length = w := by
  induction w generalizing v with
  | zero => rfl
  | succ w ih => simp [SilKit.Core.littleEndianBytes, ih]

theorem fromLittleEndian_littleEndianBytes (v w : Nat) :
    fromLittleEndian (SilKit.Core.littleEndianBytes v w) = v % 256 ^ w := by
  induction w generalizing v with
  | zero => simp [SilKit.Core.littleEndianBytes, fromLittleEndian, Nat.mod_one]
  | succ w ih =>
    simp only [SilKit.Core.littleEndianBytes, fromLittleEndian, ih]
    rw [pow_succ, Nat.mul_comm (256 ^ w) 256, Nat.mod_mul]

theorem getUInt_putUInt (w v : Nat) (rest : MessageBuffer) (h : v < 256 ^ w) :
    getUInt w (putUInt w v ++ rest) = .ok (v, rest) := by
  unfold getUInt putUInt
  have hl := length_littleEndianBytes (v % 256 ^ w) w
  rw [if_neg (by simp [hl])]
  rw [List.take_left' hl, List.drop_left' hl, fromLittleEndian_littleEndianBytes]
  simp [Nat.mod_eq_of_lt h]

theorem getInt64_putInt64 (t : Int) (rest : MessageBuffer) (h1 : -(2 ^ 63) ≤ t)
    (h2 : t < 2 ^ 63) : getInt64 (putInt64 t ++ rest) = .ok (t, rest) := by
  unfold getInt64 putInt64
  have hpos : (0 : Int) ≤ t % 2 ^ 64 := Int.emod_nonneg _ (by norm_num)
  have hlt : t % 2 ^ 64 < 2 ^ 64 := Int.emod_lt_of_pos _ (by norm_num)
  have hn : (t % 2 ^ 64).toNat < 256 ^ 8 := by
    have : ((t % 2 ^ 64).toNat : Int) < 2 ^ 64 := by rw [Int.toNat_of_nonneg hpos]; exact hlt
    have h256 : (256 : Nat) ^ 8 = 2 ^ 64 := by norm_num
    rw [h256]
    exact_mod_cast this
  rw [getUInt_putUInt 8 _ rest hn]
  simp only
  congr 2
  by_cases hneg : 0 ≤ t
  · have e : t % 2 ^ 64 = t := Int.emod_eq_of_lt hneg (by linarith)
    have : (t % 2 ^ 64).toNat < 2 ^ 63 := by
      have : ((t % 2 ^ 64).toNat : Int) < 2 ^ 63 := by
        rw [Int.toNat_of_nonneg hpos, e]; exact h2
      exact_mod_cast this
    rw [if_pos this, Int.toNat_of_nonneg hpos, e]
  · push_neg at hneg
    have e : t % 2 ^ 64 = t + 2 ^ 64 := by
      rw [← Int.add_mul_emod_self_left t (2 ^ 64) 1, mul_one]
      exact Int.emod_eq_of_lt (by linarith) (by linarith)
    have : ¬ (t % 2 ^ 64).toNat < 2 ^ 63 := by
      intro hc
      have : ((t % 2 ^ 64).toNat : Int) < 2 ^ 63 := by exact_mod_cast hc
      rw [Int.toNat_of_nonneg hpos, e] at this
      linarith
    rw [if_neg this, Int.toNat_of_nonneg hpos, e]
    ring

theorem map_mod_of_bytes (bytes : List Nat) (h : ∀ b ∈ bytes, b < 256) :
    bytes.map (· % 256) = bytes := by
  induction bytes with
  | nil => rfl
  | cons b bs ih =>
    simp only [List.map_cons]
    rw [Nat.mod_eq_of_lt (h b (List.mem_cons_self _ _)),
      ih (fun x hx => h x (List.mem_cons_of_mem _ hx))]

theorem getBytes_putBytes (bytes : List Nat) (rest : MessageBuffer)
    (hb : ∀ b ∈ bytes, b < 256) (hl : bytes.length < 2 ^ 32) :
    getBytes (putBytes bytes ++ rest) = .ok (bytes, rest) := by
  unfold getBytes putBytes
  rw [List.append_assoc, getUInt_putUInt 4 _ _ (by norm_num; omega), map_mod_of_bytes bytes hb]
  simp

end ib.mw

namespace ib.mw

open ib.sim.eth

/-- C11: for each of the four Ethernet message types, serialising a message into the
buffer and deserialising from it gives back an equal message and leaves what followed
it in the buffer: `EthernetFrameEvent` (transmit id, timestamp and the frame's raw
bytes, of any length the 32-bit length field holds, the empty frame included, hence
every accessor of the frame), `EthernetFrameTransmitEvent`, `EthernetStatus` (every
32-bit bitrate) and `EthernetSetMode`. -/
theorem ethernet_messages_round_trip (rest : MessageBuffer) :
    (∀ m : EthernetFrameEvent, m.WellFormed →
        deserializeEthernetFrameEvent (serializeEthernetFrameEvent m ++ rest) = .ok (m, rest))
      ∧ (∀ m : EthernetFrameTransmitEvent, m.WellFormed →
        deserializeEthernetFrameTransmitEvent (serializeEthernetFrameTransmitEvent m ++ rest)
          = .ok (m, rest))
      ∧ (∀ m : EthernetStatus, m.WellFormed →
        deserializeEthernetStatus (serializeEthernetStatus m ++ rest) = .ok (m, rest))
      ∧ (∀ m : EthernetSetMode,
        deserializeEthernetSetMode (serializeEthernetSetMode m ++ rest) = .ok (m, rest)) := by
  refine ⟨?_, ?_, ?_, ?_⟩
  · rintro ⟨transmitId, timestamp, ⟨rawFrame⟩⟩ ⟨h1, h2, h3, h4, h5⟩
    simp only [serializeEthernetFrameEvent, deserializeEthernetFrameEvent, List.append_assoc,
      EthernetFrame.RawFrame]
    rw [getUInt_putUInt 4 _ _ (by norm_num; exact h1)]
    simp only
    rw [getInt64_putInt64 _ _ h2 h3]
    simp only
    rw [getBytes_putBytes _ _ h4 h5]
    rfl
  · rintro ⟨transmitId, timestamp, status⟩ ⟨h1, h2, h3⟩
    simp only [serializeEthernetFrameTransmitEvent, deserializeEthernetFrameTransmitEvent,
      List.append_assoc]
    rw [getUInt_putUInt 4 _ _ (by norm_num; exact h1)]
    simp only
    rw [getInt64_putInt64 _ _ h2 h3]
    simp only [getEthernetTransmitStatus]
    rw [getUInt_putUInt 1 _ _ (by cases status <;> simp [EthernetTransmitStatus.toNat])]
    cases status <;> rfl
  · rintro ⟨timestamp, state, bitrate⟩ ⟨h1, h2, h3⟩
    simp only [serializeEthernetStatus, deserializeEthernetStatus, List.append_assoc]
    rw [getInt64_putInt64 _ _ h1 h2]
    simp only [getEthernetState]
    rw [getUInt_putUInt 1 _ _ (by cases state <;> simp [EthernetState.toNat])]
    cases state <;>
      · simp only [EthernetState.toNat]
        rw [getUInt_putUInt 4 _ _ (by norm_num; exact h3)]
  · rintro ⟨mode⟩
    simp only [serializeEthernetSetMode, deserializeEthernetSetMode, getEthernetMode]
    rw [getUInt_putUInt 1 _ _ (by cases mode <;> simp [EthernetMode.toNat])]
    cases mode <;> rfl

/-- C11, evaluated on the status message of the serialisation test (state `LinkUp`,
timestamp 13 ns, bitrate 4294967295) and on a frame event with an empty frame. -/
theorem ethernet_messages_round_trip_witness :
    deserializeEthernetStatus
        (serializeEthernetStatus
          { timestamp := 13, state := EthernetState.LinkUp, bitrate := 4294967295 } ++ [])
        = .ok ({ timestamp := 13, state := EthernetState.LinkUp, bitrate := 4294967295 }, [])
      ∧ deserializeEthernetFrameEvent
          (serializeEthernetFrameEvent { transmitId := 5, timestamp := 13, frame := ⟨[]⟩ } ++ [])
        = .ok ({ transmitId := 5, timestamp := 13, frame := ⟨[]⟩ }, []) :=
  ⟨(ethernet_messages_round_trip []).2.2.1
      { timestamp := 13, state := EthernetState.LinkUp, bitrate := 4294967295 }
      ⟨by norm_num, by norm_num, by norm_num⟩,
    (ethernet_messages_round_trip []).1 { transmitId := 5, timestamp := 13, frame := ⟨[]⟩ }
      ⟨by norm_num, by norm_num, by norm_num, by simp, by simp⟩⟩

end ib.mw

namespace ib.sim.eth

open ib.mw ib.mw.service

/-! ### Ethernet controller: helper lemmas -/

namespace CallbacksT

variable {Callback : Type}

theorem remove_after_remove (c : CallbacksT Callback) (handlerId : HandlerId) :
    ((c.Remove handlerId).2.Remove handlerId) = (false, (c.Remove handlerId).2) := by
  have key : ∀ l : List (HandlerId × Callback),
      (l.filter (fun e => e.1 != handlerId)).any (fun e => e.1 == handlerId) = false := by
    intro l
    rw [List.any_eq_false]
    intro e he
    have := (List.mem_filter.mp he).2
    simpa using this
  unfold Remove
  by_cases h : c.entries.any (fun e => e.1 == handlerId) = true
  · simp only [h, if_true]
    rw [if_neg (by rw [key]; simp)]
  · simp only [h]
    simp [h]

theorem remove_of_absent (c : CallbacksT Callback) (handlerId : HandlerId)
    (h : ∀ e ∈ c.entries, e.1 ≠ handlerId) : c.Remove handlerId = (false, c) := by
  unfold Remove
  have : c.entries.any (fun e => e.1 == handlerId) = false := by
    rw [List.any_eq_false]
    intro e he
    simpa using h e he
  simp [this]

end CallbacksT

namespace EthController

variable {Callback : Type}

/-! ### Handler removal -/

/-- C12: after `RemoveFrameHandler(id)`, a second `RemoveFrameHandler(id)` finds no
handler (`RemoveHandler` returns false), leaves the frame-handler table and every other
member as they are, and only logs the warning; the same holds for a first call with an
id that is not in the table. -/
theorem remove_frame_handler_twice (s : EthController Callback) (handlerId : HandlerId) :
    ((s.RemoveFrameHandler handlerId).RemoveHandler_EthernetFrameEvent handlerId).1 = false
      ∧ (s.RemoveFrameHandler handlerId).RemoveFrameHandler handlerId =
          { s.RemoveFrameHandler handlerId with
            warnings := (s.RemoveFrameHandler handlerId).warnings
              ++ ["RemoveFrameHandler failed: Unknown HandlerId."] }
      ∧ ((s.RemoveFrameHandler handlerId).RemoveFrameHandler handlerId).frameCallbacks
          = (s.RemoveFrameHandler handlerId).frameCallbacks
      ∧ ((∀ e ∈ s.frameCallbacks.entries, e.1 ≠ handlerId) →
          (s.RemoveHandler_EthernetFrameEvent handlerId).1 = false
            ∧ s.RemoveFrameHandler handlerId =
              { s with warnings := s.warnings ++ ["RemoveFrameHandler failed: Unknown HandlerId."] }) := by
  have hfc : (s.RemoveFrameHandler handlerId).frameCallbacks
      = (s.frameCallbacks.Remove handlerId).2 := by
    unfold RemoveFrameHandler RemoveHandler_EthernetFrameEvent
    split <;> rfl
  have h2 : ((s.RemoveFrameHandler handlerId).frameCallbacks.Remove handlerId)
      = (false, (s.RemoveFrameHandler handlerId).frameCallbacks) := by
    rw [hfc]
    exact CallbacksT.remove_after_remove _ _
  have absent : ∀ t : EthController Callback,
      t.frameCallbacks.Remove handlerId = (false, t.frameCallbacks) →
      (t.RemoveHandler_EthernetFrameEvent handlerId).1 = false
        ∧ t.RemoveFrameHandler handlerId =
          { t with warnings := t.warnings ++ ["RemoveFrameHandler failed: Unknown HandlerId."] } := by
    intro t ht
    unfold RemoveFrameHandler RemoveHandler_EthernetFrameEvent
    rw [ht]
    simp
  obtain ⟨a1, a2⟩ := absent _ h2
  refine ⟨a1, a2, ?_, ?_⟩
  · rw [a2]
  · intro h
    exact absent s (CallbacksT.remove_of_absent _ _ h)

/-- C12, evaluated: on the sample controller with handlers under ids 0 and 1, removing
id 0 twice leaves one handler and one warning; removing the never issued id 7 changes
nothing but the warnings. -/
theorem remove_frame_handler_twice_witness :
    ((sampleWithHandlers.RemoveFrameHandler 0).RemoveFrameHandler 0).frameCallbacks.entries
        = [(1, 42)]
      ∧ ((sampleWithHandlers.RemoveFrameHandler 0).RemoveFrameHandler 0).warnings
        = ["RemoveFrameHandler failed: Unknown HandlerId."]
      ∧ sampleWithHandlers.RemoveFrameHandler 7 =
          { sampleWithHandlers with
            warnings := sampleWithHandlers.warnings
              ++ ["RemoveFrameHandler failed: Unknown HandlerId."] } :=
  ⟨rfl, rfl,
    ((remove_frame_handler_twice sampleWithHandlers 7).2.2.2 (by decide)).2⟩

end EthController

end ib.sim.eth

namespace ib.sim.eth

open ib.mw ib.mw.service

namespace EthController

variable {Callback : Type}

theorem callHandlers_fields (s : EthController Callback) (event : EthEvent) :
    (s.CallHandlers event).simulationBehavior = s.simulationBehavior
      ∧ (s.CallHandlers event).ethState = s.ethState
      ∧ (s.CallHandlers event).ethBitRate = s.ethBitRate
      ∧ (s.CallHandlers event).frameCallbacks = s.frameCallbacks
      ∧ (s.CallHandlers event).stateChangeCallbacks = s.stateChangeCallbacks
      ∧ (s.CallHandlers event).bitrateChangeCallbacks = s.bitrateChangeCallbacks
      ∧ (s.CallHandlers event).raised = s.raised ++ [event] := by
  cases event <;> simp [CallHandlers]

theorem receive_sent (env : EthControllerEnv) (s : EthController Callback)
    (sender : ServiceDescriptor) (msg : InMsg) :
    (s.ReceiveIbMessage env sender msg).simulationBehavior.sent = s.simulationBehavior.sent := by
  cases msg <;>
    simp only [ReceiveIbMessage, ReceiveIbMessage_EthernetFrameEvent,
      ReceiveIbMessage_EthernetFrameTransmitEvent, ReceiveIbMessage_EthernetStatus, applyStatus]
  · split
    · rfl
    · rw [(callHandlers_fields _ _).1]
  · split
    · rfl
    · rw [(callHandlers_fields _ _).1]
      simp [SimBehavior.sent, SimBehavior.invoke]
  · split
    · rfl
    · split <;> split <;> simp [(callHandlers_fields _ _).1]

theorem foldl_receive_sent (env : EthControllerEnv) (back : List (ServiceDescriptor × InMsg))
    (s : EthController Callback) :
    (back.foldl (fun st b => st.ReceiveIbMessage env b.1 b.2) s).simulationBehavior.sent
      = s.simulationBehavior.sent := by
  induction back generalizing s with
  | nil => rfl
  | cons b back ih => rw [List.foldl_cons, ih, receive_sent]

theorem sendIbMessage_sent (env : EthControllerEnv) (s : EthController Callback) (msg : OutMsg) :
    (s.SendIbMessage env msg).simulationBehavior.sent = s.simulationBehavior.sent ++ [msg] := by
  unfold SendIbMessage
  rw [foldl_receive_sent]
  simp [SimBehavior.sent, SimBehavior.invoke]

theorem applyStatus_eq (s : EthController Callback) (msg : EthernetStatus) :
    (s.applyStatus msg).ethBitRate = msg.bitrate
      ∧ (s.applyStatus msg).ethState = msg.state
      ∧ (s.applyStatus msg).raised = s.raised
          ++ (if msg.bitrate ≠ s.ethBitRate then
                [EthEvent.bitrateChange { timestamp := msg.timestamp, bitrate := msg.bitrate }]
              else [])
          ++ (if msg.state ≠ s.ethState then
                [EthEvent.stateChange { timestamp := msg.timestamp, state := msg.state }]
              else [])
      ∧ (s.applyStatus msg).invoked = s.invoked
          ++ (if msg.bitrate ≠ s.ethBitRate then
                s.bitrateChangeCallbacks.InvokeAll
                  (.bitrateChange { timestamp := msg.timestamp, bitrate := msg.bitrate })
              else [])
          ++ (if msg.state ≠ s.ethState then
                s.stateChangeCallbacks.InvokeAll
                  (.stateChange { timestamp := msg.timestamp, state := msg.state })
              else []) := by
  unfold applyStatus
  by_cases hb : msg.bitrate = s.ethBitRate <;> by_cases hs : msg.state = s.ethState <;>
    simp [hb, hs, CallHandlers]

theorem applyStatus_of_same (s : EthController Callback) (msg : EthernetStatus)
    (hb : msg.bitrate = s.ethBitRate) (hs : msg.state = s.ethState) : s.applyStatus msg = s := by
  unfold applyStatus
  simp [hb, hs]

theorem applyStatus_simulationBehavior (s : EthController Callback) (msg : EthernetStatus) :
    (s.applyStatus msg).simulationBehavior = s.simulationBehavior := by
  unfold applyStatus
  by_cases hb : msg.bitrate = s.ethBitRate <;> by_cases hs : msg.state = s.ethState <;>
    simp [hb, hs, CallHandlers]

end EthController

namespace EthControllerProxy

variable {Callback : Type}

theorem receiveStatus_eq (s : EthControllerProxy Callback) (sender : ServiceDescriptor)
    (msg : EthernetStatus) :
    (s.ReceiveIbMessage_EthernetStatus sender msg).ethBitRate = msg.bitrate
      ∧ (s.ReceiveIbMessage_EthernetStatus sender msg).ethState = msg.state
      ∧ (s.ReceiveIbMessage_EthernetStatus sender msg).raised = s.raised
          ++ (if msg.bitrate ≠ s.ethBitRate then
                [EthEvent.bitrateChange { timestamp := msg.timestamp, bitrate := msg.bitrate }]
              else [])
          ++ (if msg.state ≠ s.ethState then
                [EthEvent.stateChange { timestamp := msg.timestamp, state := msg.state }]
              else [])
      ∧ (s.ReceiveIbMessage_EthernetStatus sender msg).invoked = s.invoked
          ++ (if msg.bitrate ≠ s.ethBitRate then
                s.bitrateChangeCallbacks.map (fun h =>
                  (h, EthEvent.bitrateChange { timestamp := msg.timestamp, bitrate := msg.bitrate }))
              else [])
          ++ (if msg.state ≠ s.ethState then
                s.stateChangeCallbacks.map (fun h =>
                  (h, EthEvent.stateChange { timestamp := msg.timestamp, state := msg.state }))
              else []) := by
  unfold ReceiveIbMessage_EthernetStatus
  by_cases hb : msg.bitrate = s.ethBitRate <;> by_cases hs : msg.state = s.ethState <;>
    simp [hb, hs, CallHandlers]

theorem receiveStatus_of_same (s : EthControllerProxy Callback) (sender : ServiceDescriptor)
    (msg : EthernetStatus) (hb : msg.bitrate = s.ethBitRate) (hs : msg.state = s.ethState) :
    s.ReceiveIbMessage_EthernetStatus sender msg = s := by
  unfold ReceiveIbMessage_EthernetStatus
  simp [hb, hs]

end EthControllerProxy

end ib.sim.eth

namespace ib.sim.eth

open ib.mw ib.mw.service

/-! ### Ethernet controller: sending, switching, status -/

/-- C16: `SendFrameEvent` on `EthController` and on `EthControllerProxy` returns the
transmit id carried by the one message it sends: the message sent has the returned id
as `transmitId`, whatever id the caller's message held, and the caller's frame and
timestamp.  `SendFrame` sends the given frame in a value-initialised event under the id
it returns. -/
theorem send_returns_sent_transmit_id {Callback : Type} (env : EthControllerEnv)
    (MakeTxId : Nat → EthernetTxId × Nat) (s : EthController Callback)
    (p : EthControllerProxy Callback) (msg : EthernetFrameEvent) (frame : EthernetFrame) :
    (s.SendFrameEvent env msg).2.simulationBehavior.sent
        = s.simulationBehavior.sent
          ++ [OutMsg.frameEvent
              { transmitId := (s.SendFrameEvent env msg).1
                timestamp := msg.timestamp
                frame := msg.frame }]
      ∧ (s.SendFrame env frame).2.simulationBehavior.sent
        = s.simulationBehavior.sent
          ++ [OutMsg.frameEvent
              { transmitId := (s.SendFrame env frame).1, timestamp := 0, frame := frame }]
      ∧ (p.SendFrameEvent MakeTxId msg).2.sent
        = p.sent
          ++ [OutMsg.frameEvent
              { transmitId := (p.SendFrameEvent MakeTxId msg).1
                timestamp := msg.timestamp
                frame := msg.frame }]
      ∧ (p.SendFrame MakeTxId frame).2.sent
        = p.sent
          ++ [OutMsg.frameEvent
              { transmitId := (p.SendFrame MakeTxId frame).1, timestamp := 0, frame := frame }] := by
  refine ⟨?_, ?_, rfl, rfl⟩
  · simp only [EthController.SendFrameEvent]
    rw [EthController.sendIbMessage_sent]
  · simp only [EthController.SendFrame, EthController.SendFrameEvent]
    rw [EthController.sendIbMessage_sent]

/-- C18: the discovery handler of `EthController` calls `SetDetailedBehavior` exactly
when the simulation behaviour is trivial and the event is `ServiceCreated` for a
descriptor with service type `Link` and the controller's network name; it calls
`SetTrivialBehavior` exactly when the behaviour is not trivial and the event is
`ServiceRemoved` for such a descriptor; in every other case it changes nothing. -/
theorem eth_discovery_switch {Callback : Type} (env : EthControllerEnv)
    (s : EthController Callback) (discoveryType : ServiceDiscoveryEventType)
    (d : ServiceDescriptor) :
    ((env.IsTrivial s.simulationBehavior = true
          ∧ discoveryType = ServiceDiscoveryEventType.ServiceCreated
          ∧ d.serviceType = ServiceType.Link
          ∧ d.networkName = s.serviceDescriptor.networkName) →
        s.discoveryHandler env discoveryType d = s.SetDetailedBehavior d)
      ∧ ((env.IsTrivial s.simulationBehavior = false
          ∧ discoveryType = ServiceDiscoveryEventType.ServiceRemoved
          ∧ d.serviceType = ServiceType.Link
          ∧ d.networkName = s.serviceDescriptor.networkName) →
        s.discoveryHandler env discoveryType d = s.SetTrivialBehavior)
      ∧ ((s.discoveryHandler env discoveryType d).simulationBehavior.received
            = s.simulationBehavior.received ++ [SimCall.SetDetailedBehavior d]
          ↔ (env.IsTrivial s.simulationBehavior = true
              ∧ discoveryType = ServiceDiscoveryEventType.ServiceCreated
              ∧ d.serviceType = ServiceType.Link
              ∧ d.networkName = s.serviceDescriptor.networkName))
      ∧ ((s.discoveryHandler env discoveryType d).simulationBehavior.received
            = s.simulationBehavior.received ++ [SimCall.SetTrivialBehavior]
          ↔ (env.IsTrivial s.simulationBehavior = false
              ∧ discoveryType = ServiceDiscoveryEventType.ServiceRemoved
              ∧ d.serviceType = ServiceType.Link
              ∧ d.networkName = s.serviceDescriptor.networkName))
      ∧ (¬ (env.IsTrivial s.simulationBehavior = true
              ∧ discoveryType = ServiceDiscoveryEventType.ServiceCreated
              ∧ d.serviceType = ServiceType.Link
              ∧ d.networkName = s.serviceDescriptor.networkName) →
          ¬ (env.IsTrivial s.simulationBehavior = false
              ∧ discoveryType = ServiceDiscoveryEventType.ServiceRemoved
              ∧ d.serviceType = ServiceType.Link
              ∧ d.networkName = s.serviceDescriptor.networkName) →
          s.discoveryHandler env discoveryType d = s) := by
  unfold EthController.discoveryHandler EthController.IsRelevantNetwork
    EthController.SetDetailedBehavior EthController.SetTrivialBehavior SimBehavior.invoke
  cases ht : env.IsTrivial s.simulationBehavior <;> cases discoveryType <;>
    by_cases h2 : d.serviceType = ServiceType.Link <;>
    by_cases h3 : d.networkName = s.serviceDescriptor.networkName <;>
    simp [h2, h3]

/-- C18, evaluated: the sample controller is trivial, and the network simulator's link
for its network makes the handler call `SetDetailedBehavior` with that link. -/
theorem eth_discovery_switch_witness :
    sampleEnv.IsTrivial sampleController.simulationBehavior = true
      ∧ sampleController.discoveryHandler sampleEnv .ServiceCreated ethLink
        = sampleController.SetDetailedBehavior ethLink :=
  ⟨rfl, (eth_discovery_switch sampleEnv sampleController .ServiceCreated ethLink).1
    ⟨rfl, rfl, rfl, rfl⟩⟩

/-- C19: when an accepted `EthernetStatus` message differs from the stored bit rate and
from the stored state, `CallHandlers` is called first with the bitrate-change event and
then with the state-change event, each carrying the message's timestamp and new value;
every bitrate-change handler is invoked before any state-change handler; afterwards the
stored bit rate and `GetState()` equal the message's.  The same holds on the proxy,
which accepts every sender. -/
theorem status_bitrate_before_state {Callback : Type} (env : EthControllerEnv)
    (s : EthController Callback) (p : EthControllerProxy Callback) (sender : ServiceDescriptor)
    (msg : EthernetStatus) :
    (s.AllowReception env sender = true → msg.bitrate ≠ s.ethBitRate → msg.state ≠ s.ethState →
        (s.ReceiveIbMessage_EthernetStatus env sender msg).raised
            = s.raised
              ++ [EthEvent.bitrateChange { timestamp := msg.timestamp, bitrate := msg.bitrate },
                  EthEvent.stateChange { timestamp := msg.timestamp, state := msg.state }]
          ∧ (s.ReceiveIbMessage_EthernetStatus env sender msg).invoked
            = s.invoked
              ++ s.bitrateChangeCallbacks.InvokeAll
                  (.bitrateChange { timestamp := msg.timestamp, bitrate := msg.bitrate })
              ++ s.stateChangeCallbacks.InvokeAll
                  (.stateChange { timestamp := msg.timestamp, state := msg.state })
          ∧ (s.ReceiveIbMessage_EthernetStatus env sender msg).ethBitRate = msg.bitrate
          ∧ (s.ReceiveIbMessage_EthernetStatus env sender msg).GetState = msg.state)
      ∧ (msg.bitrate ≠ p.ethBitRate → msg.state ≠ p.ethState →
        (p.ReceiveIbMessage_EthernetStatus sender msg).raised
            = p.raised
              ++ [EthEvent.bitrateChange { timestamp := msg.timestamp, bitrate := msg.bitrate },
                  EthEvent.stateChange { timestamp := msg.timestamp, state := msg.state }]
          ∧ (p.ReceiveIbMessage_EthernetStatus sender msg).invoked
            = p.invoked
              ++ p.bitrateChangeCallbacks.map (fun h =>
                  (h, EthEvent.bitrateChange
                    { timestamp := msg.timestamp, bitrate := msg.bitrate }))
              ++ p.stateChangeCallbacks.map (fun h =>
                  (h, EthEvent.stateChange { timestamp := msg.timestamp, state := msg.state }))
          ∧ (p.ReceiveIbMessage_EthernetStatus sender msg).ethBitRate = msg.bitrate
          ∧ (p.ReceiveIbMessage_EthernetStatus sender msg).ethState = msg.state) := by
  constructor
  · intro ha hb hs
    obtain ⟨h1, h2, h3, h4⟩ := EthController.applyStatus_eq s msg
    simp only [EthController.ReceiveIbMessage_EthernetStatus, ha, EthController.GetState]
    simp only [if_pos hb, if_pos hs] at h3 h4
    exact ⟨by simpa using h3, by simpa using h4, h1, h2⟩
  · intro hb hs
    obtain ⟨h1, h2, h3, h4⟩ := EthControllerProxy.receiveStatus_eq p sender msg
    simp only [if_pos hb, if_pos hs] at h3 h4
    exact ⟨by simpa using h3, h4, h1, h2⟩

/-- C19, evaluated: the switched-off sample controller with bit rate 0 receives link up
with bitrate 1000 at 13 ns. -/
theorem status_bitrate_before_state_witness :
    (sampleController.ReceiveIbMessage_EthernetStatus sampleEnv ethLink sampleEthStatus).raised
        = [EthEvent.bitrateChange { timestamp := 13, bitrate := 1000 },
            EthEvent.stateChange { timestamp := 13, state := EthernetState.LinkUp }]
      ∧ (sampleController.ReceiveIbMessage_EthernetStatus sampleEnv ethLink sampleEthStatus).GetState
        = EthernetState.LinkUp :=
  ⟨((status_bitrate_before_state sampleEnv sampleController sampleProxy ethLink
      sampleEthStatus).1 rfl (by decide) (by decide)).1,
    ((status_bitrate_before_state sampleEnv sampleController sampleProxy ethLink
      sampleEthStatus).1 rfl (by decide) (by decide)).2.2.2⟩

/-- C20: for an accepted `EthernetStatus` message, `CallHandlers` is called with a
bitrate-change event if and only if the message's bitrate differs from the stored bit
rate, and with a state-change event if and only if its state differs from the stored
state, and with nothing else; receiving the same message a second time changes
nothing.  The same holds on the proxy. -/
theorem status_events_only_on_change {Callback : Type} (env : EthControllerEnv)
    (s : EthController Callback) (p : EthControllerProxy Callback) (sender : ServiceDescriptor)
    (msg : EthernetStatus) :
    (s.AllowReception env sender = true →
        (s.ReceiveIbMessage_EthernetStatus env sender msg).raised
          = s.raised
            ++ (if msg.bitrate ≠ s.ethBitRate then
                  [EthEvent.bitrateChange { timestamp := msg.timestamp, bitrate := msg.bitrate }]
                else [])
            ++ (if msg.state ≠ s.ethState then
                  [EthEvent.stateChange { timestamp := msg.timestamp, state := msg.state }]
                else []))
      ∧ (s.ReceiveIbMessage_EthernetStatus env sender msg).ReceiveIbMessage_EthernetStatus env
            sender msg
          = s.ReceiveIbMessage_EthernetStatus env sender msg
      ∧ (p.ReceiveIbMessage_EthernetStatus sender msg).raised
          = p.raised
            ++ (if msg.bitrate ≠ p.ethBitRate then
                  [EthEvent.bitrateChange { timestamp := msg.timestamp, bitrate := msg.bitrate }]
                else [])
            ++ (if msg.state ≠ p.ethState then
                  [EthEvent.stateChange { timestamp := msg.timestamp, state := msg.state }]
                else [])
      ∧ (p.ReceiveIbMessage_EthernetStatus sender msg).ReceiveIbMessage_EthernetStatus sender msg
          = p.ReceiveIbMessage_EthernetStatus sender msg := by
  refine ⟨?_, ?_, (EthControllerProxy.receiveStatus_eq p sender msg).2.2.1, ?_⟩
  · intro ha
    simp only [EthController.ReceiveIbMessage_EthernetStatus, ha]
    exact (EthController.applyStatus_eq s msg).2.2.1
  · by_cases ha : s.AllowReception env sender = true
    · have e : s.ReceiveIbMessage_EthernetStatus env sender msg = s.applyStatus msg := by
        simp [EthController.ReceiveIbMessage_EthernetStatus, ha]
      have ha2 : (s.applyStatus msg).AllowReception env sender = true := by
        simpa [EthController.AllowReception, EthController.applyStatus_simulationBehavior]
          using ha
      rw [e]
      simp only [EthController.ReceiveIbMessage_EthernetStatus, ha2]
      obtain ⟨h1, h2, -, -⟩ := EthController.applyStatus_eq s msg
      simpa using EthController.applyStatus_of_same (s.applyStatus msg) msg h1.symm h2.symm
    · have e : s.ReceiveIbMessage_EthernetStatus env sender msg = s := by
        simp [EthController.ReceiveIbMessage_EthernetStatus, ha]
      rw [e, e]
  · obtain ⟨h1, h2, -, -⟩ := EthControllerProxy.receiveStatus_eq p sender msg
    exact EthControllerProxy.receiveStatus_of_same _ sender msg h1.symm h2.symm

/-- C20, evaluated: after the sample controller received link up with bitrate 1000, the
same message again raises nothing. -/
theorem status_events_only_on_change_witness :
    ((sampleController.ReceiveIbMessage_EthernetStatus sampleEnv ethLink
          sampleEthStatus).ReceiveIbMessage_EthernetStatus sampleEnv ethLink sampleEthStatus).raised
      = (sampleController.ReceiveIbMessage_EthernetStatus sampleEnv ethLink sampleEthStatus).raised
          ++ [] ++ [] :=
  (status_events_only_on_change sampleEnv
    (sampleController.ReceiveIbMessage_EthernetStatus sampleEnv ethLink sampleEthStatus)
    sampleProxy ethLink sampleEthStatus).1 rfl

end ib.sim.eth

namespace ib.sim.eth

open ib.mw ib.mw.service

namespace EthController

variable {Callback : Type}

theorem quiet_refl (handlerId : HandlerId) (s : EthController Callback)
    (h : Retired handlerId s) : Quiet handlerId s s :=
  ⟨h, [], by simp, by intro inv hinv; simp at hinv⟩

theorem quiet_trans (handlerId : HandlerId) (s t u : EthController Callback)
    (h1 : Quiet handlerId s t) (h2 : Quiet handlerId t u) : Quiet handlerId s u := by
  obtain ⟨-, n1, e1, q1⟩ := h1
  obtain ⟨r2, n2, e2, q2⟩ := h2
  refine ⟨r2, n1 ++ n2, by rw [e2, e1, List.append_assoc], ?_⟩
  intro inv hinv
  rcases List.mem_append.mp hinv with h | h
  · exact q1 inv h
  · exact q2 inv h

theorem quiet_of_same (handlerId : HandlerId) (s t : EthController Callback)
    (h : Retired handlerId s) (hf : t.frameCallbacks = s.frameCallbacks)
    (hi : t.invoked = s.invoked) : Quiet handlerId s t :=
  ⟨by unfold Retired; rw [hf]; exact h, [], by simp [hi], by intro inv hinv; simp at hinv⟩

theorem callHandlers_quiet (handlerId : HandlerId) (s t : EthController Callback)
    (event : EthEvent) (h : Retired handlerId s) (hf : t.frameCallbacks = s.frameCallbacks)
    (hi : t.invoked = s.invoked) : Quiet handlerId s (t.CallHandlers event) := by
  have hr : Retired handlerId t := by unfold Retired; rw [hf]; exact h
  cases event <;> simp only [CallHandlers]
  case frame e =>
    refine ⟨hr, t.frameCallbacks.InvokeAll (.frame e), by simp [hi], ?_⟩
    intro inv hinv _ _
    simp only [CallbacksT.InvokeAll, List.mem_map] at hinv
    obtain ⟨en, hen, rfl⟩ := hinv
    exact hr.2 en hen
  all_goals
    refine ⟨hr, _, by rw [hi], ?_⟩
    intro inv hinv e he
    simp only [CallbacksT.InvokeAll, List.mem_map] at hinv
    obtain ⟨en, -, rfl⟩ := hinv
    simp at he

theorem applyStatus_first_quiet (handlerId : HandlerId) (s : EthController Callback)
    (m : EthernetStatus) (h : Retired handlerId s) :
    Quiet handlerId s
      (if m.bitrate ≠ s.ethBitRate then
        CallHandlers { s with ethBitRate := m.bitrate }
          (.bitrateChange { timestamp := m.timestamp, bitrate := m.bitrate })
      else s) := by
  split
  · exact callHandlers_quiet _ _ _ _ h rfl rfl
  · exact quiet_refl _ _ h

theorem applyStatus_second_quiet (handlerId : HandlerId) (t : EthController Callback)
    (m : EthernetStatus) (h : Retired handlerId t) :
    Quiet handlerId t
      (if m.state ≠ t.ethState then
        CallHandlers { t with ethState := m.state }
          (.stateChange { timestamp := m.timestamp, state := m.state })
      else t) := by
  split
  · exact callHandlers_quiet _ _ _ _ h rfl rfl
  · exact quiet_refl _ _ h

theorem receive_quiet (env : EthControllerEnv) (handlerId : HandlerId)
    (s : EthController Callback) (sender : ServiceDescriptor) (msg : InMsg)
    (h : Retired handlerId s) : Quiet handlerId s (s.ReceiveIbMessage env sender msg) := by
  cases msg with
  | frameEvent m =>
    simp only [ReceiveIbMessage, ReceiveIbMessage_EthernetFrameEvent]
    split
    · exact quiet_refl _ _ h
    · exact callHandlers_quiet _ _ _ _ h rfl rfl
  | frameTransmitEvent m =>
    simp only [ReceiveIbMessage, ReceiveIbMessage_EthernetFrameTransmitEvent]
    split
    · exact quiet_refl _ _ h
    · exact callHandlers_quiet _ _ _ _ h rfl rfl
  | status m =>
    simp only [ReceiveIbMessage, ReceiveIbMessage_EthernetStatus]
    split
    · exact quiet_refl _ _ h
    · exact quiet_trans _ _ _ _ (applyStatus_first_quiet handlerId s m h)
        (applyStatus_second_quiet handlerId _ m (applyStatus_first_quiet handlerId s m h).1)

theorem foldl_receive_quiet (env : EthControllerEnv) (handlerId : HandlerId)
    (back : List (ServiceDescriptor × InMsg)) (s : EthController Callback)
    (h : Retired handlerId s) :
    Quiet handlerId s (back.foldl (fun st b => st.ReceiveIbMessage env b.1 b.2) s) := by
  induction back generalizing s with
  | nil => exact quiet_refl _ _ h
  | cons b back ih =>
    have q := receive_quiet env handlerId s b.1 b.2 h
    exact quiet_trans _ _ _ _ q (ih _ q.1)

theorem sendIbMessage_quiet (env : EthControllerEnv) (handlerId : HandlerId)
    (s t : EthController Callback) (msg : OutMsg) (h : Retired handlerId s)
    (hf : t.frameCallbacks = s.frameCallbacks) (hi : t.invoked = s.invoked) :
    Quiet handlerId s (t.SendIbMessage env msg) := by
  unfold SendIbMessage
  have q0 : Quiet handlerId s
      { t with simulationBehavior := t.simulationBehavior.invoke (.SendIbMessage msg) } :=
    quiet_of_same _ _ _ h hf hi
  exact quiet_trans _ _ _ _ q0 (foldl_receive_quiet env handlerId _ _ q0.1)

theorem retired_after_remove (s : EthController Callback) (handlerId : HandlerId)
    (hId : handlerId < s.frameCallbacks.nextHandlerId) :
    Retired handlerId (s.RemoveFrameHandler handlerId)
      ∧ (s.RemoveFrameHandler handlerId).invoked = s.invoked := by
  have hfc : (s.RemoveFrameHandler handlerId).frameCallbacks
      = (s.frameCallbacks.Remove handlerId).2
      ∧ (s.RemoveFrameHandler handlerId).invoked = s.invoked := by
    unfold RemoveFrameHandler RemoveHandler_EthernetFrameEvent
    split <;> exact ⟨rfl, rfl⟩
  refine ⟨?_, hfc.2⟩
  unfold Retired
  rw [hfc.1]
  unfold CallbacksT.Remove
  split
  · refine ⟨hId, ?_⟩
    intro e he
    have := (List.mem_filter.mp he).2
    simpa using this
  · rename_i hn
    refine ⟨hId, ?_⟩
    intro e he heq
    apply hn
    rw [List.any_eq_true]
    exact ⟨e, he, by simpa using heq⟩

theorem step_quiet (env : EthControllerEnv) (handlerId : HandlerId)
    (s : EthController Callback) (op : Op Callback) (h : Retired handlerId s) :
    Quiet handlerId s (s.step env op) := by
  cases op <;> simp only [step]
  case Activate =>
    unfold Activate
    split
    · exact quiet_refl _ _ h
    · exact sendIbMessage_quiet env _ _ _ _ h rfl rfl
  case Deactivate =>
    unfold Deactivate
    split
    · exact quiet_refl _ _ h
    · exact sendIbMessage_quiet env _ _ _ _ h rfl rfl
  case SendFrameEvent msg => exact sendIbMessage_quiet env _ _ _ _ h rfl rfl
  case SendFrame frame => exact sendIbMessage_quiet env _ _ _ _ h rfl rfl
  case ReceiveIbMessage sender msg => exact receive_quiet env _ _ _ _ h
  case AddFrameHandler handler =>
    refine ⟨?_, [], by simp [AddFrameHandler], by intro inv hinv; simp at hinv⟩
    simp only [Retired, AddFrameHandler, CallbacksT.Add]
    refine ⟨Nat.lt_succ_of_lt h.1, ?_⟩
    intro e he
    rcases List.mem_append.mp he with h1 | h1
    · exact h.2 e h1
    · simp only [List.mem_singleton] at h1
      rw [h1]
      exact (Nat.ne_of_lt h.1).symm
  case RemoveFrameHandler id2 =>
    have hfc : (s.RemoveFrameHandler id2).frameCallbacks = (s.frameCallbacks.Remove id2).2
        ∧ (s.RemoveFrameHandler id2).invoked = s.invoked := by
      unfold RemoveFrameHandler RemoveHandler_EthernetFrameEvent
      split <;> exact ⟨rfl, rfl⟩
    refine ⟨?_, [], by simp [hfc.2], by intro inv hinv; simp at hinv⟩
    unfold Retired
    rw [hfc.1]
    unfold CallbacksT.Remove
    split
    · exact ⟨h.1, fun e he => h.2 e (List.mem_filter.mp he).1⟩
    · exact h
  case AddFrameTransmitHandler handler => exact quiet_of_same _ _ _ h rfl rfl
  case AddStateChangeHandler handler => exact quiet_of_same _ _ _ h rfl rfl
  case AddBitrateChangeHandler handler => exact quiet_of_same _ _ _ h rfl rfl
  case RemoveFrameTransmitHandler id2 =>
    unfold RemoveFrameTransmitHandler
    split <;> exact quiet_of_same _ _ _ h rfl rfl
  case RemoveStateChangeHandler id2 =>
    unfold RemoveStateChangeHandler
    split <;> exact quiet_of_same _ _ _ h rfl rfl
  case RemoveBitrateChangeHandler id2 =>
    unfold RemoveBitrateChangeHandler
    split <;> exact quiet_of_same _ _ _ h rfl rfl
  case Discovery k d =>
    unfold discoveryHandler SetDetailedBehavior SetTrivialBehavior
    split <;> split <;> exact quiet_of_same _ _ _ h rfl rfl

theorem run_quiet (env : EthControllerEnv) (handlerId : HandlerId)
    (ops : List (Op Callback)) (s : EthController Callback) (h : Retired handlerId s) :
    Quiet handlerId s (s.run env ops) := by
  induction ops generalizing s with
  | nil => exact quiet_refl _ _ h
  | cons op ops ih =>
    have q := step_quiet env handlerId s op h
    exact quiet_trans _ _ _ _ q (ih _ q.1)

theorem remove_eq_filter {Callback : Type} (c : CallbacksT Callback) (handlerId : HandlerId) :
    (c.Remove handlerId).2
      = { nextHandlerId := c.nextHandlerId
          entries := c.entries.filter (fun e => e.1 != handlerId) } := by
  unfold CallbacksT.Remove
  split
  · rfl
  · rename_i hn
    have hself : c.entries.filter (fun e => e.1 != handlerId) = c.entries := by
      rw [List.filter_eq_self]
      intro e he
      by_contra hc
      apply hn
      rw [List.any_eq_true]
      exact ⟨e, he, by simpa using hc⟩
    rw [hself]

theorem removeFrameHandler_eq (s : EthController Callback) (handlerId : HandlerId) :
    s.RemoveFrameHandler handlerId =
      { s with
        frameCallbacks :=
          { nextHandlerId := s.frameCallbacks.nextHandlerId
            entries := s.frameCallbacks.entries.filter (fun e => e.1 != handlerId) }
        warnings := (s.RemoveFrameHandler handlerId).warnings } := by
  unfold RemoveFrameHandler RemoveHandler_EthernetFrameEvent
  split <;> simp [remove_eq_filter]

theorem receive_frameCallbacks (env : EthControllerEnv) (s : EthController Callback)
    (sender : ServiceDescriptor) (msg : InMsg) :
    (s.ReceiveIbMessage env sender msg).frameCallbacks = s.frameCallbacks := by
  cases msg with
  | frameEvent m =>
    simp only [ReceiveIbMessage, ReceiveIbMessage_EthernetFrameEvent]
    split
    · rfl
    · rw [(callHandlers_fields _ _).2.2.2.1]
  | frameTransmitEvent m =>
    simp only [ReceiveIbMessage, ReceiveIbMessage_EthernetFrameTransmitEvent]
    split
    · rfl
    · rw [(callHandlers_fields _ _).2.2.2.1]
  | status m =>
    simp only [ReceiveIbMessage, ReceiveIbMessage_EthernetStatus, applyStatus]
    split
    · rfl
    · split <;> split <;> simp [(callHandlers_fields _ _).2.2.2.1]

theorem foldl_receive_frameCallbacks (env : EthControllerEnv)
    (back : List (ServiceDescriptor × InMsg)) (s : EthController Callback) :
    (back.foldl (fun st b => st.ReceiveIbMessage env b.1 b.2) s).frameCallbacks
      = s.frameCallbacks := by
  induction back generalizing s with
  | nil => rfl
  | cons b back ih => rw [List.foldl_cons, ih, receive_frameCallbacks]

theorem sendIbMessage_frameCallbacks (env : EthControllerEnv) (s : EthController Callback)
    (msg : OutMsg) : (s.SendIbMessage env msg).frameCallbacks = s.frameCallbacks := by
  unfold SendIbMessage
  rw [foldl_receive_frameCallbacks]

theorem step_frameCallbacks (env : EthControllerEnv) (s : EthController Callback)
    (op : Op Callback) : (s.step env op).frameCallbacks = expectedFrameTable s.frameCallbacks op := by
  cases op <;> simp only [step, expectedFrameTable]
  case Activate =>
    unfold Activate
    split
    · rfl
    · exact sendIbMessage_frameCallbacks env s _
  case Deactivate =>
    unfold Deactivate
    split
    · rfl
    · exact sendIbMessage_frameCallbacks env s _
  case SendFrameEvent msg =>
    simp only [SendFrameEvent]
    rw [sendIbMessage_frameCallbacks]
  case SendFrame frame =>
    simp only [SendFrame, SendFrameEvent]
    rw [sendIbMessage_frameCallbacks]
  case ReceiveIbMessage sender msg => exact receive_frameCallbacks env s sender msg
  case AddFrameHandler handler => rfl
  case RemoveFrameHandler id2 => rw [removeFrameHandler_eq]
  case AddFrameTransmitHandler handler => rfl
  case AddStateChangeHandler handler => rfl
  case AddBitrateChangeHandler handler => rfl
  case RemoveFrameTransmitHandler id2 =>
    unfold RemoveFrameTransmitHandler
    split <;> rfl
  case RemoveStateChangeHandler id2 =>
    unfold RemoveStateChangeHandler
    split <;> rfl
  case RemoveBitrateChangeHandler id2 =>
    unfold RemoveBitrateChangeHandler
    split <;> rfl
  case Discovery k d =>
    unfold discoveryHandler SetDetailedBehavior SetTrivialBehavior
    split <;> split <;> rfl

theorem run_frameCallbacks (env : EthControllerEnv) (ops : List (Op Callback))
    (s : EthController Callback) :
    (s.run env ops).frameCallbacks = ops.foldl expectedFrameTable s.frameCallbacks := by
  induction ops generalizing s with
  | nil => rfl
  | cons op ops ih =>
    show ((s.step env op).run env ops).frameCallbacks = _
    rw [ih, step_frameCallbacks]
    rfl

theorem mem_foldl_expectedFrameTable (ops : List (Op Callback)) (c : CallbacksT Callback)
    (e : HandlerId × Callback) (he : e ∈ c.entries)
    (hkeep : ∀ i, Op.RemoveFrameHandler i ∈ ops → i ≠ e.1) :
    e ∈ (ops.foldl expectedFrameTable c).entries := by
  induction ops generalizing c with
  | nil => exact he
  | cons op ops ih =>
    rw [List.foldl_cons]
    apply ih
    · cases op <;> simp only [expectedFrameTable] <;> try exact he
      case AddFrameHandler handler => exact List.mem_append_left _ he
      case RemoveFrameHandler i =>
        rw [List.mem_filter]
        refine ⟨he, ?_⟩
        have := hkeep i (List.mem_cons_self _ _)
        simpa using fun h => this h.symm
    · intro i hi
      exact hkeep i (List.mem_cons_of_mem _ hi)

/-- C13: let `id` be an id the frame-handler table has handed out.
`RemoveFrameHandler(id)` takes the registration under `id`, and no other, out of the
frame-handler table and changes nothing else but the logged warnings.  After it and any
later sequence of operations (adds and removes of handlers of every kind, sends,
inbound messages, discovery events), no frame-handler call made since the removal was
made under `id`; the frame-handler table is exactly what the later adds and removes of
frame handlers make of it, so a handler registered under another id and not removed
later is still in it; and an accepted frame event that arrives then invokes exactly the
handlers in the table at that moment, each once, in registration order, none of them
under `id`. -/
theorem removed_frame_handler_not_invoked (env : EthControllerEnv)
    (s : EthController Callback) (handlerId : HandlerId) (ops : List (Op Callback))
    (sender : ServiceDescriptor) (msg : EthernetFrameEvent)
    (hIssued : handlerId < s.frameCallbacks.nextHandlerId) :
    (∃ new, ((s.RemoveFrameHandler handlerId).run env ops).invoked
          = (s.RemoveFrameHandler handlerId).invoked ++ new
        ∧ ∀ inv ∈ new, ∀ e : EthernetFrameEvent,
            inv.event = EthEvent.frame e → inv.handlerId ≠ handlerId)
      ∧ (((s.RemoveFrameHandler handlerId).run env ops).AllowReception env sender = true →
          (((s.RemoveFrameHandler handlerId).run env ops).ReceiveIbMessage_EthernetFrameEvent env
              sender msg).invoked
            = ((s.RemoveFrameHandler handlerId).run env ops).invoked
              ++ ((s.RemoveFrameHandler handlerId).run env ops).frameCallbacks.entries.map
                  (fun e => { handlerId := e.1, handler := e.2, event := EthEvent.frame msg }))
      ∧ (∀ e ∈ ((s.RemoveFrameHandler handlerId).run env ops).frameCallbacks.entries,
          e.1 ≠ handlerId)
      ∧ s.RemoveFrameHandler handlerId =
          { s with
            frameCallbacks :=
              { nextHandlerId := s.frameCallbacks.nextHandlerId
                entries := s.frameCallbacks.entries.filter (fun e => e.1 != handlerId) }
            warnings := (s.RemoveFrameHandler handlerId).warnings }
      ∧ ((s.RemoveFrameHandler handlerId).run env ops).frameCallbacks
          = ops.foldl expectedFrameTable
              { nextHandlerId := s.frameCallbacks.nextHandlerId
                entries := s.frameCallbacks.entries.filter (fun e => e.1 != handlerId) }
      ∧ (∀ e ∈ s.frameCallbacks.entries, e.1 ≠ handlerId →
          (∀ i, Op.RemoveFrameHandler i ∈ ops → i ≠ e.1) →
          e ∈ ((s.RemoveFrameHandler handlerId).run env ops).frameCallbacks.entries
            ∧ (((s.RemoveFrameHandler handlerId).run env ops).AllowReception env sender = true →
              { handlerId := e.1, handler := e.2, event := EthEvent.frame msg }
                ∈ (((s.RemoveFrameHandler handlerId).run env
                      ops).ReceiveIbMessage_EthernetFrameEvent env sender msg).invoked)) := by
  obtain ⟨hr, -⟩ := retired_after_remove s handlerId hIssued
  obtain ⟨hr2, new, hnew, hq⟩ := run_quiet env handlerId ops _ hr
  have hdispatch : ((s.RemoveFrameHandler handlerId).run env ops).AllowReception env sender = true →
      (((s.RemoveFrameHandler handlerId).run env ops).ReceiveIbMessage_EthernetFrameEvent env
          sender msg).invoked
        = ((s.RemoveFrameHandler handlerId).run env ops).invoked
          ++ ((s.RemoveFrameHandler handlerId).run env ops).frameCallbacks.entries.map
              (fun e => { handlerId := e.1, handler := e.2, event := EthEvent.frame msg }) := by
    intro ha
    simp [ReceiveIbMessage_EthernetFrameEvent, ha, CallHandlers, CallbacksT.InvokeAll]
  have htable : ((s.RemoveFrameHandler handlerId).run env ops).frameCallbacks
      = ops.foldl expectedFrameTable
          { nextHandlerId := s.frameCallbacks.nextHandlerId
            entries := s.frameCallbacks.entries.filter (fun e => e.1 != handlerId) } := by
    rw [run_frameCallbacks]
    congr 1
    rw [removeFrameHandler_eq]
  refine ⟨⟨new, hnew, hq⟩, hdispatch, hr2.2, removeFrameHandler_eq s handlerId, htable, ?_⟩
  intro e he hne hkeep
  have hmem : e ∈ ((s.RemoveFrameHandler handlerId).run env ops).frameCallbacks.entries := by
    rw [htable]
    apply mem_foldl_expectedFrameTable _ _ _ _ hkeep
    rw [List.mem_filter]
    exact ⟨he, by simpa using hne⟩
  refine ⟨hmem, ?_⟩
  intro ha
  rw [hdispatch ha]
  apply List.mem_append_right
  rw [List.mem_map]
  exact ⟨e, hmem, rfl⟩

/-- C13, evaluated: on the sample controller with handlers 41 and 42 under ids 0 and 1,
after id 0 is removed and handler 43 is added, a frame event invokes handlers 42 and 43
under ids 1 and 2 and nothing else; after id 1 is removed instead, handler 41 under id
0 is still in the table. -/
theorem removed_frame_handler_not_invoked_witness :
    (0 : Nat) < sampleWithHandlers.frameCallbacks.nextHandlerId
      ∧ (((sampleWithHandlers.RemoveFrameHandler 0).run sampleEnv
            [Op.AddFrameHandler 43]).ReceiveIbMessage_EthernetFrameEvent sampleEnv ethLink
              sampleFrameEvent).invoked
          = ((sampleWithHandlers.RemoveFrameHandler 0).run sampleEnv [Op.AddFrameHandler 43]).invoked
            ++ [{ handlerId := 1, handler := 42, event := EthEvent.frame sampleFrameEvent },
                { handlerId := 2, handler := 43, event := EthEvent.frame sampleFrameEvent }]
      ∧ (1 : Nat) < sampleWithHandlers.frameCallbacks.nextHandlerId
      ∧ ((0 : Nat), (41 : Nat))
          ∈ ((sampleWithHandlers.RemoveFrameHandler 1).run sampleEnv
              [Op.AddFrameHandler 43]).frameCallbacks.entries
      ∧ ((sampleWithHandlers.RemoveFrameHandler 1).run sampleEnv
          [Op.AddFrameHandler 43]).frameCallbacks.entries = [(0, 41), (2, 43)] :=
  ⟨by decide,
    (removed_frame_handler_not_invoked sampleEnv sampleWithHandlers 0 [Op.AddFrameHandler 43]
      ethLink sampleFrameEvent (by decide)).2.1 rfl,
    by decide,
    ((removed_frame_handler_not_invoked sampleEnv sampleWithHandlers 1 [Op.AddFrameHandler 43]
      ethLink sampleFrameEvent (by decide)).2.2.2.2.2 (0, 41) (by decide) (by decide)
        (by intro i hi; simp at hi)).1,
    rfl⟩

end EthController

end ib.sim.eth

namespace ib.sim.eth

open ib.mw ib.mw.service

/-- C17, as stated, fails: `Activate` on the switched-off sample proxy and on the
switched-off sample controller leaves the state `Inactive`, not `LinkDown`; and
`Deactivate` on a proxy whose state is `LinkDown` leaves it `LinkDown`. -/
theorem activate_leaves_state_unchanged :
    sampleProxy.ethState = EthernetState.Inactive
      ∧ sampleProxy.Activate.ethState = EthernetState.Inactive
      ∧ sampleProxy.Activate.ethState ≠ EthernetState.LinkDown
      ∧ (sampleController.Activate sampleEnv).GetState = EthernetState.Inactive
      ∧ (EthControllerProxy.Deactivate
          { sampleProxy with ethState := EthernetState.LinkDown }).ethState
        = EthernetState.LinkDown := by
  refine ⟨rfl, rfl, by decide, rfl, rfl⟩

/-- C17, amended: `Activate` on a controller whose state is `Inactive` sends the mode
request `EthernetSetMode{Active}` and `Deactivate` on a controller whose state is not
`Inactive` sends `EthernetSetMode{Inactive}`; neither assigns the stored state (on the
proxy nothing but the sent messages changes; on `EthController` the state is unchanged
when the simulation behaviour hands no message back).  The stored state becomes the
state of an `EthernetStatus` message when one is accepted: `LinkDown` on a status with
state `LinkDown`, `Inactive` again on a status with state `Inactive`. -/
theorem activate_sends_mode_request {Callback : Type} (env : EthControllerEnv)
    (s : EthController Callback) (p : EthControllerProxy Callback) :
    (p.ethState = EthernetState.Inactive →
        p.Activate = { p with sent := p.sent ++ [OutMsg.setMode { mode := EthernetMode.Active }] })
      ∧ (p.ethState ≠ EthernetState.Inactive →
        p.Deactivate
          = { p with sent := p.sent ++ [OutMsg.setMode { mode := EthernetMode.Inactive }] })
      ∧ (∀ (sender : ServiceDescriptor) (msg : EthernetStatus),
        (p.ReceiveIbMessage_EthernetStatus sender msg).ethState = msg.state)
      ∧ (s.ethState = EthernetState.Inactive →
        (s.Activate env).simulationBehavior.sent
          = s.simulationBehavior.sent ++ [OutMsg.setMode { mode := EthernetMode.Active }])
      ∧ (s.ethState = EthernetState.Inactive →
        env.handedBack s.simulationBehavior (OutMsg.setMode { mode := EthernetMode.Active }) = [] →
        (s.Activate env).GetState = EthernetState.Inactive)
      ∧ (s.ethState ≠ EthernetState.Inactive →
        (s.Deactivate env).simulationBehavior.sent
          = s.simulationBehavior.sent ++ [OutMsg.setMode { mode := EthernetMode.Inactive }])
      ∧ (s.ethState ≠ EthernetState.Inactive →
        env.handedBack s.simulationBehavior (OutMsg.setMode { mode := EthernetMode.Inactive }) = [] →
        (s.Deactivate env).GetState = s.ethState)
      ∧ (∀ (sender : ServiceDescriptor) (msg : EthernetStatus),
        s.AllowReception env sender = true →
        (s.ReceiveIbMessage_EthernetStatus env sender msg).GetState = msg.state) := by
  refine ⟨?_, ?_, ?_, ?_, ?_, ?_, ?_, ?_⟩
  · intro h
    simp [EthControllerProxy.Activate, h]
  · intro h
    simp [EthControllerProxy.Deactivate, h]
  · intro sender msg
    exact (EthControllerProxy.receiveStatus_eq p sender msg).2.1
  · intro h
    simp only [EthController.Activate, h, ne_eq, not_true_eq_false, if_false]
    exact EthController.sendIbMessage_sent env s _
  · intro h hb
    simp [EthController.Activate, h, EthController.SendIbMessage, hb, EthController.GetState]
  · intro h
    simp only [EthController.Deactivate, h, if_false]
    exact EthController.sendIbMessage_sent env s _
  · intro h hb
    simp [EthController.Deactivate, h, EthController.SendIbMessage, hb, EthController.GetState]
  · intro sender msg ha
    simp only [EthController.ReceiveIbMessage_EthernetStatus, ha, EthController.GetState]
    exact (EthController.applyStatus_eq s msg).2.1

/-- C17 amended, evaluated: the switched-off sample proxy sends the activation request
and stays `Inactive`; the status message `LinkDown` then makes it `LinkDown`. -/
theorem activate_sends_mode_request_witness :
    sampleProxy.Activate.sent = [OutMsg.setMode { mode := EthernetMode.Active }]
      ∧ (sampleProxy.Activate.ReceiveIbMessage_EthernetStatus ethLink
          { timestamp := 13, state := EthernetState.LinkDown, bitrate := 0 }).ethState
        = EthernetState.LinkDown :=
  ⟨congrArg EthControllerProxy.sent
      ((activate_sends_mode_request sampleEnv sampleController sampleProxy).1 rfl),
    (activate_sends_mode_request sampleEnv sampleController sampleProxy.Activate).2.2.1 ethLink
      { timestamp := 13, state := EthernetState.LinkDown, bitrate := 0 }⟩

end ib.sim.eth

namespace ib.capi

open ib.mw ib.mw.service ib.sim.eth

/-! ### The C API for Ethernet -/

namespace CapiEthernet

variable {σ : Type}

theorem callHandler_controller (st : CapiEthernet σ) (handler context : Nat)
    (ack : EthernetFrameTransmitEvent) :
    (st.callHandler handler context ack).controller = st.controller := rfl

theorem frameTransmitLambda_controller (st : CapiEthernet σ) (l : FrameTransmitLambda)
    (ack : EthernetFrameTransmitEvent) :
    (st.frameTransmitLambda l ack).controller = st.controller := by
  unfold frameTransmitLambda
  simp only
  split <;> rfl

theorem runLambdas_controller
    (invocations : List (FrameTransmitLambda × EthernetFrameTransmitEvent))
    (st : CapiEthernet σ) : (st.runLambdas invocations).controller = st.controller := by
  induction invocations generalizing st with
  | nil => rfl
  | cons inv rest ih =>
    simp only [runLambdas, List.foldl_cons] at ih ⊢
    rw [ih, frameTransmitLambda_controller]

theorem foldl_callHandler_controller (pending : List (Nat × DeferredCallback))
    (st : CapiEthernet σ) :
    (pending.foldl (fun acc p => acc.callHandler p.2.handler p.2.context p.2.ack) st).controller
      = st.controller := by
  induction pending generalizing st with
  | nil => rfl
  | cons p rest ih => rw [List.foldl_cons, ih, callHandler_controller]

theorem sendFrame_controller (I : IEthernetController σ) (st : CapiEthernet σ)
    (frame : ib_Ethernet_Frame) (userContext : Nat) (h : 60 ≤ frame.size) :
    (st.ib_Ethernet_Controller_SendFrame I frame userContext).1 = ib_ReturnCode.SUCCESS
      ∧ (st.ib_Ethernet_Controller_SendFrame I frame userContext).2.controller
        = (I.SendFrame st.controller ⟨frame.data.take frame.size⟩).2.1 := by
  unfold ib_Ethernet_Controller_SendFrame
  rw [if_neg (by simp [ETHERNET_MIN_FRAME_SIZE]; omega)]
  refine ⟨rfl, ?_⟩
  simp only
  rw [foldl_callHandler_controller]
  simp only
  rw [runLambdas_controller]
  rfl

end CapiEthernet

/-- C14: `ib_Ethernet_Controller_SendFrame` returns `ib_ReturnCode_BADPARAMETER` if and
only if the frame's size is below 60; then the controller and the pending-transmit
tables are as before and no handler was called.  For a size of 60 or more it returns
`ib_ReturnCode_SUCCESS` and the controller is the one left by exactly one `SendFrame`
call with the frame's `size` bytes; on the proxy this is one more sent frame event,
carrying those bytes. -/
theorem sendFrame_minimum_size {σ : Type} (I : IEthernetController σ) (st : CapiEthernet σ)
    (MakeTxId : Nat → EthernetTxId × Nat)
    (pst : CapiEthernet (EthControllerProxy FrameTransmitLambda))
    (frame : ib_Ethernet_Frame) (userContext : Nat) :
    ((st.ib_Ethernet_Controller_SendFrame I frame userContext).1 = ib_ReturnCode.BADPARAMETER
        ↔ frame.size < 60)
      ∧ (frame.size < 60 →
          (st.ib_Ethernet_Controller_SendFrame I frame userContext).2.controller = st.controller
            ∧ (st.ib_Ethernet_Controller_SendFrame I frame userContext).2.pendingEthernetTransmits
              = st.pendingEthernetTransmits
            ∧ (st.ib_Ethernet_Controller_SendFrame I frame userContext).2.handlerCalls
              = st.handlerCalls)
      ∧ (60 ≤ frame.size →
          (st.ib_Ethernet_Controller_SendFrame I frame userContext).1 = ib_ReturnCode.SUCCESS
            ∧ (st.ib_Ethernet_Controller_SendFrame I frame userContext).2.controller
              = (I.SendFrame st.controller ⟨frame.data.take frame.size⟩).2.1)
      ∧ (60 ≤ frame.size →
          (pst.ib_Ethernet_Controller_SendFrame (proxyController MakeTxId) frame
              userContext).2.controller.sent
            = pst.controller.sent
              ++ [OutMsg.frameEvent
                  { transmitId := (MakeTxId pst.controller.ethTxId).1
                    timestamp := 0
                    frame := ⟨frame.data.take frame.size⟩ }]) := by
  refine ⟨?_, ?_, ?_, ?_⟩
  · constructor
    · intro h
      by_contra hc
      have := (CapiEthernet.sendFrame_controller I st frame userContext (by omega)).1
      rw [this] at h
      exact absurd h (by decide)
    · intro h
      simp [CapiEthernet.ib_Ethernet_Controller_SendFrame, ETHERNET_MIN_FRAME_SIZE, h]
  · intro h
    simp [CapiEthernet.ib_Ethernet_Controller_SendFrame, ETHERNET_MIN_FRAME_SIZE, h]
  · intro h
    exact CapiEthernet.sendFrame_controller I st frame userContext h
  · intro h
    rw [(CapiEthernet.sendFrame_controller (proxyController MakeTxId) pst frame userContext h).2]
    rfl

/-- C14, evaluated: 59 bytes are refused and nothing is sent; 60 bytes are accepted
and one frame event with transmit id 1 is sent. -/
theorem sendFrame_minimum_size_witness :
    (capiStart.ib_Ethernet_Controller_SendFrame (proxyController countingTxId) frame59 7).1
        = ib_ReturnCode.BADPARAMETER
      ∧ (capiStart.ib_Ethernet_Controller_SendFrame (proxyController countingTxId) frame59
          7).2.controller = capiStart.controller
      ∧ (capiStart.ib_Ethernet_Controller_SendFrame (proxyController countingTxId) frame60
          7).2.controller.sent
        = capiStart.controller.sent
          ++ [OutMsg.frameEvent
              { transmitId := (countingTxId capiStart.controller.ethTxId).1
                timestamp := 0
                frame := ⟨frame60.data.take frame60.size⟩ }] :=
  ⟨(sendFrame_minimum_size (proxyController countingTxId) capiStart countingTxId capiStart
      frame59 7).1.mpr (by decide),
    ((sendFrame_minimum_size (proxyController countingTxId) capiStart countingTxId capiStart
      frame59 7).2.1 (by decide)).1,
    (sendFrame_minimum_size (proxyController countingTxId) capiStart countingTxId capiStart
      frame60 7).2.2.2 (by decide)⟩

/-- C15, at the failing input: two frame-transmit handlers are registered, a frame is
sent with user context 7 and its acknowledgement arrives.  The first handler is called
with user context 7.  The second handler is not called then; it is called during the
next `SendFrame`, with the acknowledgement's status and timestamp and a null user
context. -/
theorem second_transmit_handler_gets_null_context :
    capiAfterSend.pendingEthernetTransmits.userContextById = [(1, 7)]
      ∧ capiAfterAck.handlerCalls
        = [{ handler := 101, context := 11
             event := { userContext := 7, timestamp := 13, status := 0 } }]
      ∧ capiAfterSecondSend.handlerCalls
        = [{ handler := 101, context := 11
             event := { userContext := 7, timestamp := 13, status := 0 } },
            { handler := 102, context := 12
              event := { userContext := 0, timestamp := 13, status := 0 } }] := by
  refine ⟨by decide, by decide, by decide⟩

end ib.capi

namespace ib.capi

open ib.mw ib.mw.service ib.sim.eth

theorem mapFind_mapAssign {α : Type} (key : Nat) (value : α) (m : List (Nat × α)) :
    mapFind key (mapAssign key value m) = some value := by
  induction m with
  | nil => simp [mapAssign, mapFind]
  | cons e rest ih =>
    obtain ⟨k, v⟩ := e
    simp only [mapAssign]
    split
    · simp [mapFind]
    · split
      · simp [mapFind]
      · rename_i h1 h2
        simp only [mapFind]
        rw [if_neg (fun h => h2 h.symm), ih]

/-- With one frame-transmit handler registered on the proxy and nothing deferred, a
frame sent with a non-null user context and then acknowledged gives one handler call,
with that user context and the acknowledgement's timestamp and status. -/
theorem single_transmit_handler_gets_context (MakeTxId : Nat → EthernetTxId × Nat)
    (pst : CapiEthernet (EthControllerProxy FrameTransmitLambda)) (l : FrameTransmitLambda)
    (frame : ib_Ethernet_Frame) (userContext : Nat) (sender : ServiceDescriptor)
    (ack : EthernetFrameTransmitEvent)
    (hOne : pst.controller.frameTransmitCallbacks = [l])
    (hNone : pst.pendingEthernetTransmits.callbacksById = [])
    (hSize : 60 ≤ frame.size) (hContext : userContext ≠ 0)
    (hAck : ack.transmitId = (MakeTxId pst.controller.ethTxId).1) :
    (proxyReceivesAck
        (pst.ib_Ethernet_Controller_SendFrame (proxyController MakeTxId) frame userContext).2
        sender ack).handlerCalls
      = pst.handlerCalls
        ++ [{ handler := l.handler, context := l.context
              event :=
                { userContext := userContext
                  timestamp := (ack.timestamp % 2 ^ 64).toNat
                  status := ack.status.toNat } }] := by
  have hs : ¬ frame.size < ETHERNET_MIN_FRAME_SIZE := by
    simp [ETHERNET_MIN_FRAME_SIZE]; omega
  simp only [proxyReceivesAck, CapiEthernet.ib_Ethernet_Controller_SendFrame, hs, if_false,
    proxyController, CapiEthernet.runLambdas, List.foldl_nil, hNone,
    EthControllerProxy.SendFrame, EthControllerProxy.SendFrameEvent, hOne, List.map_cons,
    List.map_nil, List.foldl_cons, CapiEthernet.frameTransmitLambda, mapIndex, hAck,
    mapFind_mapAssign, CapiEthernet.callHandler]
  simp [hContext, mapIndex, mapFind_mapAssign]

end ib.capi

namespace ib.sim.eth

open ib.mw ib.mw.service

/-! ### Ethernet controller: mode requests and pending transmissions -/

theorem mapFind_mapErase_self {α : Type} (key : Nat) (m : List (Nat × α)) :
    mapFind key (mapErase key m) = none := by
  induction m with
  | nil => rfl
  | cons e rest ih =>
    obtain ⟨k, v⟩ := e
    by_cases h : k = key
    · simpa [mapErase, h] using ih
    · have : mapErase key ((k, v) :: rest) = (k, v) :: mapErase key rest := by
        simp [mapErase, h]
      rw [this]
      simp only [mapFind, if_neg h]
      exact ih

theorem mapFind_mapErase_ne {α : Type} (key other : Nat) (m : List (Nat × α))
    (hne : other ≠ key) : mapFind other (mapErase key m) = mapFind other m := by
  induction m with
  | nil => rfl
  | cons e rest ih =>
    obtain ⟨k, v⟩ := e
    by_cases h : k = key
    · have : mapErase key ((k, v) :: rest) = mapErase key rest := by
        simp [mapErase, h]
      rw [this, ih]
      simp only [mapFind]
      rw [if_neg (by rw [h]; exact fun hc => hne hc.symm)]
    · have : mapErase key ((k, v) :: rest) = (k, v) :: mapErase key rest := by
        simp [mapErase, h]
      rw [this]
      simp only [mapFind]
      split
      · rfl
      · exact ih

/-- C21: `Activate` sends exactly one `EthernetSetMode{Active}` when the stored state is
`Inactive` and does nothing when it is `LinkDown` or `LinkUp`; `Deactivate` sends
exactly one `EthernetSetMode{Inactive}` when the stored state is not `Inactive` and does
nothing when it is `Inactive`; on `EthControllerProxy` and on `EthController`. -/
theorem mode_request_sent_once {Callback : Type} (env : EthControllerEnv)
    (s : EthController Callback) (p : EthControllerProxy Callback) :
    ((p.ethState = EthernetState.Inactive →
          p.Activate.sent = p.sent ++ [OutMsg.setMode { mode := EthernetMode.Active }])
        ∧ (p.ethState ≠ EthernetState.Inactive → p.Activate = p)
        ∧ (p.ethState ≠ EthernetState.Inactive →
          p.Deactivate.sent = p.sent ++ [OutMsg.setMode { mode := EthernetMode.Inactive }])
        ∧ (p.ethState = EthernetState.Inactive → p.Deactivate = p))
      ∧ ((s.ethState = EthernetState.Inactive →
          (s.Activate env).simulationBehavior.sent
            = s.simulationBehavior.sent ++ [OutMsg.setMode { mode := EthernetMode.Active }])
        ∧ (s.ethState ≠ EthernetState.Inactive → s.Activate env = s)
        ∧ (s.ethState ≠ EthernetState.Inactive →
          (s.Deactivate env).simulationBehavior.sent
            = s.simulationBehavior.sent ++ [OutMsg.setMode { mode := EthernetMode.Inactive }])
        ∧ (s.ethState = EthernetState.Inactive → s.Deactivate env = s)) := by
  refine ⟨⟨?_, ?_, ?_, ?_⟩, ⟨?_, ?_, ?_, ?_⟩⟩
  · intro h
    simp [EthControllerProxy.Activate, h]
  · intro h
    simp [EthControllerProxy.Activate, h]
  · intro h
    simp [EthControllerProxy.Deactivate, h]
  · intro h
    simp [EthControllerProxy.Deactivate, h]
  · intro h
    simp only [EthController.Activate, h, ne_eq, not_true_eq_false, if_false]
    exact EthController.sendIbMessage_sent env s _
  · intro h
    simp [EthController.Activate, h]
  · intro h
    simp only [EthController.Deactivate, h, if_false]
    exact EthController.sendIbMessage_sent env s _
  · intro h
    simp [EthController.Deactivate, h]

/-- C21, evaluated: the switched-off sample controller sends one activation request;
once the link is up a second `Activate` does nothing. -/
theorem mode_request_sent_once_witness :
    (sampleController.Activate sampleEnv).simulationBehavior.sent
        = [OutMsg.setMode { mode := EthernetMode.Active }]
      ∧ EthController.Activate sampleEnv
          ((sampleController.Activate sampleEnv).ReceiveIbMessage_EthernetStatus sampleEnv ethLink
            sampleEthStatus)
        = (sampleController.Activate sampleEnv).ReceiveIbMessage_EthernetStatus sampleEnv ethLink
            sampleEthStatus :=
  ⟨(mode_request_sent_once sampleEnv sampleController sampleProxy).2.1 rfl,
    (mode_request_sent_once sampleEnv
      ((sampleController.Activate sampleEnv).ReceiveIbMessage_EthernetStatus sampleEnv ethLink
        sampleEthStatus) sampleProxy).2.2.1 (by decide)⟩

theorem mapFind_mapAssign_ne {α : Type} (key other : Nat) (value : α) (m : List (Nat × α))
    (hne : other ≠ key) : mapFind other (mapAssign key value m) = mapFind other m := by
  induction m with
  | nil => simp [mapAssign, mapFind, Ne.symm hne]
  | cons e rest ih =>
    obtain ⟨k, v⟩ := e
    simp only [mapAssign]
    split
    · simp [mapFind, Ne.symm hne]
    · split
      · rename_i h1 h2
        simp only [mapFind]
        rw [if_neg (Ne.symm hne), if_neg (by rw [← h2]; exact Ne.symm hne)]
      · simp only [mapFind]
        split
        · rfl
        · exact ih

namespace EthControllerProxy

variable {Callback : Type}

theorem callHandlers_transmittedMessages (p : EthControllerProxy Callback) (event : EthEvent) :
    (p.CallHandlers event).transmittedMessages = p.transmittedMessages := by
  cases event <;> rfl

theorem step_spares (MakeTxId : Nat → EthernetTxId × Nat) (t : EthernetTxId)
    (p : EthControllerProxy Callback) (op : Op Callback) (h : Spares MakeTxId t p op) :
    mapFind t (p.step MakeTxId op).transmittedMessages = mapFind t p.transmittedMessages := by
  cases op <;> simp only [step, Spares] at h ⊢
  case Activate =>
    unfold Activate
    split <;> rfl
  case Deactivate =>
    unfold Deactivate
    split <;> rfl
  case SendFrameEvent msg =>
    simp only [SendFrameEvent]
    exact mapFind_mapAssign_ne _ _ _ _ (Ne.symm h)
  case SendFrame frame =>
    simp only [SendFrame, SendFrameEvent]
    exact mapFind_mapAssign_ne _ _ _ _ (Ne.symm h)
  case AddFrameHandler handler => rfl
  case AddFrameTransmitHandler handler => rfl
  case AddStateChangeHandler handler => rfl
  case AddBitrateChangeHandler handler => rfl
  case ReceiveFrameEvent sender msg =>
    simp only [ReceiveIbMessage_EthernetFrameEvent, callHandlers_transmittedMessages]
  case ReceiveFrameTransmitEvent sender msg =>
    unfold ReceiveIbMessage_EthernetFrameTransmitEvent
    simp only [callHandlers_transmittedMessages]
    split
    · exact mapFind_mapErase_ne _ _ _ (Ne.symm h)
    · rfl
  case ReceiveStatus sender msg =>
    unfold ReceiveIbMessage_EthernetStatus
    simp only
    split <;> split <;> simp [callHandlers_transmittedMessages]

theorem run_spares (MakeTxId : Nat → EthernetTxId × Nat) (t : EthernetTxId)
    (ops : List (Op Callback)) (p : EthControllerProxy Callback)
    (h : SparesAll MakeTxId t ops p) :
    mapFind t (p.run MakeTxId ops).transmittedMessages = mapFind t p.transmittedMessages := by
  induction ops generalizing p with
  | nil => rfl
  | cons op ops ih =>
    obtain ⟨h1, h2⟩ := h
    show mapFind t ((p.step MakeTxId op).run MakeTxId ops).transmittedMessages = _
    rw [ih _ h2, step_spares MakeTxId t p op h1]

end EthControllerProxy

/-- C22: on `EthControllerProxy`, after `SendFrameEvent` returns id `t` the pending
table holds the sent frame under `t`, the entry of every other id is as it was, and the
frame stays pending under `t` through every later sequence of operations that contains
neither an acknowledgement for `t` nor a send that is given the id `t` again.
Receiving an acknowledgement removes its transmit id from the table whatever its status
and leaves the entry of every other id as it was; when the id is not pending the table
is unchanged.  In every case `CallHandlers` is called once with the acknowledgement and
each transmit handler is invoked once with it. -/
theorem proxy_pending_until_acknowledged {Callback : Type} (MakeTxId : Nat → EthernetTxId × Nat)
    (p : EthControllerProxy Callback) (msg : EthernetFrameEvent) (sender : ServiceDescriptor)
    (ack : EthernetFrameTransmitEvent) :
    mapFind (p.SendFrameEvent MakeTxId msg).1 (p.SendFrameEvent MakeTxId msg).2.transmittedMessages
        = some msg.frame
      ∧ mapFind ack.transmitId
          (p.ReceiveIbMessage_EthernetFrameTransmitEvent sender ack).transmittedMessages = none
      ∧ (∀ other : Nat, other ≠ ack.transmitId →
          mapFind other
              (p.ReceiveIbMessage_EthernetFrameTransmitEvent sender ack).transmittedMessages
            = mapFind other p.transmittedMessages)
      ∧ (mapFind ack.transmitId p.transmittedMessages = none →
          (p.ReceiveIbMessage_EthernetFrameTransmitEvent sender ack).transmittedMessages
            = p.transmittedMessages)
      ∧ (p.ReceiveIbMessage_EthernetFrameTransmitEvent sender ack).raised
          = p.raised ++ [EthEvent.frameTransmit ack]
      ∧ (p.ReceiveIbMessage_EthernetFrameTransmitEvent sender ack).invoked
          = p.invoked ++ p.frameTransmitCallbacks.map (fun h => (h, EthEvent.frameTransmit ack))
      ∧ (∀ other : Nat, other ≠ (p.SendFrameEvent MakeTxId msg).1 →
          mapFind other (p.SendFrameEvent MakeTxId msg).2.transmittedMessages
            = mapFind other p.transmittedMessages)
      ∧ (∀ ops : List (EthControllerProxy.Op Callback),
          EthControllerProxy.SparesAll MakeTxId (p.SendFrameEvent MakeTxId msg).1 ops
              (p.SendFrameEvent MakeTxId msg).2 →
          mapFind (p.SendFrameEvent MakeTxId msg).1
              ((p.SendFrameEvent MakeTxId msg).2.run MakeTxId ops).transmittedMessages
            = some msg.frame)
      ∧ (∀ (t : EthernetTxId) (ops : List (EthControllerProxy.Op Callback)),
          EthControllerProxy.SparesAll MakeTxId t ops p →
          mapFind t (p.run MakeTxId ops).transmittedMessages
            = mapFind t p.transmittedMessages)
      ∧ (mapFind ack.transmitId p.transmittedMessages ≠ none →
          (p.ReceiveIbMessage_EthernetFrameTransmitEvent sender ack).transmittedMessages
            = mapErase ack.transmitId p.transmittedMessages) := by
  refine ⟨ib.capi.mapFind_mapAssign _ _ _, ?_, ?_, ?_, ?_, ?_, ?_, ?_, ?_, ?_⟩
  · unfold EthControllerProxy.ReceiveIbMessage_EthernetFrameTransmitEvent
    cases hf : mapFind ack.transmitId p.transmittedMessages with
    | none => simpa [EthControllerProxy.CallHandlers] using hf
    | some frame =>
      simpa [EthControllerProxy.CallHandlers] using mapFind_mapErase_self _ _
  · intro other hne
    unfold EthControllerProxy.ReceiveIbMessage_EthernetFrameTransmitEvent
    cases hf : mapFind ack.transmitId p.transmittedMessages with
    | none => simp [EthControllerProxy.CallHandlers]
    | some frame =>
      simpa [EthControllerProxy.CallHandlers] using mapFind_mapErase_ne _ _ _ hne
  · intro hf
    unfold EthControllerProxy.ReceiveIbMessage_EthernetFrameTransmitEvent
    simp [hf, EthControllerProxy.CallHandlers]
  · unfold EthControllerProxy.ReceiveIbMessage_EthernetFrameTransmitEvent
    cases hf : mapFind ack.transmitId p.transmittedMessages <;>
      simp [EthControllerProxy.CallHandlers]
  · unfold EthControllerProxy.ReceiveIbMessage_EthernetFrameTransmitEvent
    cases hf : mapFind ack.transmitId p.transmittedMessages <;>
      simp [EthControllerProxy.CallHandlers]
  · intro other hne
    exact mapFind_mapAssign_ne _ _ _ _ hne
  · intro ops h
    rw [EthControllerProxy.run_spares MakeTxId _ ops _ h]
    exact ib.capi.mapFind_mapAssign _ _ _
  · intro t ops h
    exact EthControllerProxy.run_spares MakeTxId t ops p h
  · intro hf
    unfold EthControllerProxy.ReceiveIbMessage_EthernetFrameTransmitEvent
    cases hf2 : mapFind ack.transmitId p.transmittedMessages with
    | none => exact absurd hf2 hf
    | some frame => simp [EthControllerProxy.CallHandlers]

/-- C22, evaluated on the sample proxy: the frame sent under transmit id 1 is pending,
its acknowledgement empties the table, and an acknowledgement for an id that is not
pending leaves the table as it is; after a second send both frames are pending, and the
acknowledgement of id 1 leaves the frame under id 2 pending. -/
theorem proxy_pending_until_acknowledged_witness :
    mapFind (sampleProxy.SendFrameEvent ib.capi.countingTxId sampleFrameEvent).1
        (sampleProxy.SendFrameEvent ib.capi.countingTxId sampleFrameEvent).2.transmittedMessages
        = some sampleFrameEvent.frame
      ∧ ((sampleProxy.SendFrameEvent ib.capi.countingTxId
            sampleFrameEvent).2.ReceiveIbMessage_EthernetFrameTransmitEvent ethLink
              ib.capi.ackOne).transmittedMessages = []
      ∧ (sampleProxy.ReceiveIbMessage_EthernetFrameTransmitEvent ethLink
            ib.capi.ackOne).transmittedMessages = sampleProxy.transmittedMessages
      ∧ sampleTwoSends.transmittedMessages = [(1, sampleFrameEvent.frame), (2, ⟨[9, 9]⟩)]
      ∧ mapFind 1
          ((sampleProxy.SendFrameEvent (fun n => (n + 1, n + 1)) sampleFrameEvent).2.run
            (fun n => (n + 1, n + 1))
            [EthControllerProxy.Op.SendFrame ⟨[9, 9]⟩,
              EthControllerProxy.Op.ReceiveStatus ethLink sampleEthStatus]).transmittedMessages
        = some sampleFrameEvent.frame
      ∧ mapFind 2 (sampleTwoSends.ReceiveIbMessage_EthernetFrameTransmitEvent ethLink
            ib.capi.ackOne).transmittedMessages
        = mapFind 2 sampleTwoSends.transmittedMessages :=
  ⟨(proxy_pending_until_acknowledged ib.capi.countingTxId sampleProxy sampleFrameEvent ethLink
      ib.capi.ackOne).1,
    rfl,
    (proxy_pending_until_acknowledged ib.capi.countingTxId sampleProxy sampleFrameEvent ethLink
      ib.capi.ackOne).2.2.2.1 rfl,
    rfl,
    (proxy_pending_until_acknowledged (fun n => (n + 1, n + 1)) sampleProxy sampleFrameEvent
      ethLink ib.capi.ackOne).2.2.2.2.2.2.2.1
      [EthControllerProxy.Op.SendFrame ⟨[9, 9]⟩,
        EthControllerProxy.Op.ReceiveStatus ethLink sampleEthStatus]
      ⟨(by show ¬ ((2 : Nat) = 1); decide), trivial, trivial⟩,
    (proxy_pending_until_acknowledged ib.capi.countingTxId sampleTwoSends sampleFrameEvent
      ethLink ib.capi.ackOne).2.2.1 2 (by decide)⟩

end ib.sim.eth

namespace ib.sim.fr

namespace Header

/-! ### FlexRay header flags -/

set_option maxRecDepth 100000 in
theorem flag_bits_fin (m : Fin (2 ^ 8)) (f g : Flag) :
    (((m.val ||| f.toUInt8) % 2 ^ 8 &&& f.toUInt8) != 0) = true
      ∧ (((m.val &&& complementInt f.toUInt8) % 2 ^ 8 &&& f.toUInt8) != 0) = false
      ∧ ((m.val ||| f.toUInt8) % 2 ^ 8 ||| f.toUInt8) % 2 ^ 8 = (m.val ||| f.toUInt8) % 2 ^ 8
      ∧ ((m.val &&& complementInt f.toUInt8) % 2 ^ 8 &&& complementInt f.toUInt8) % 2 ^ 8
          = (m.val &&& complementInt f.toUInt8) % 2 ^ 8
      ∧ (f ≠ g →
          (((m.val ||| f.toUInt8) % 2 ^ 8 &&& g.toUInt8) != 0) = ((m.val &&& g.toUInt8) != 0)
            ∧ (((m.val &&& complementInt f.toUInt8) % 2 ^ 8 &&& g.toUInt8) != 0)
              = ((m.val &&& g.toUInt8) != 0))
      ∧ (m.val ||| f.toUInt8) % 2 ^ 8 / 2 ^ 4 = m.val / 2 ^ 4
      ∧ (m.val &&& complementInt f.toUInt8) % 2 ^ 8 / 2 ^ 4 = m.val / 2 ^ 4
      ∧ (m.val ||| f.toUInt8) < 2 ^ 8
      ∧ (m.val &&& complementInt f.toUInt8) < 2 ^ 8 := by
  revert m f g
  decide

theorem sampleHeader_wellFormed : sampleHeader.WellFormed := by
  show sampleHeader.flags < 2 ^ 8
  decide

/-- C23: for every header whose flags fit the `uint8_t`, every flag `f` and every
boolean `c`: after `Set(f, c)`, `IsSet(f)` is `c`; after `Set(f)` it is true; after
`Clear(f)` it is false; and `Set(f)` and `Clear(f)` applied twice give what they give
applied once. -/
theorem flag_set_then_isSet (h : Header) (hw : h.WellFormed) (f : Flag) (c : Bool) :
    (h.SetCond f c).IsSet f = c
      ∧ (h.Set f).IsSet f = true
      ∧ (h.Clear f).IsSet f = false
      ∧ (h.Set f).Set f = h.Set f
      ∧ (h.Clear f).Clear f = h.Clear f := by
  obtain ⟨k1, k2, k3, k4, -⟩ := flag_bits_fin ⟨h.flags, hw⟩ f f
  refine ⟨?_, k1, k2, ?_, ?_⟩
  · cases c
    · exact k2
    · exact k1
  · show ({ h with flags := _ } : Header) = { h with flags := _ }
    exact congrArg (fun n => ({ h with flags := n } : Header)) k3
  · show ({ h with flags := _ } : Header) = { h with flags := _ }
    exact congrArg (fun n => ({ h with flags := n } : Header)) k4

/-- C23, evaluated on the sample header (flags 0xB5): `NFIndicator` is set, clearing
it gives flags 0xB1, and setting `SyFIndicator` gives flags 0xB7. -/
theorem flag_set_then_isSet_witness :
    sampleHeader.WellFormed
      ∧ (sampleHeader.Clear Flag.NFIndicator).IsSet Flag.NFIndicator = false
      ∧ (sampleHeader.Set Flag.SyFIndicator).IsSet Flag.SyFIndicator = true
      ∧ (sampleHeader.Clear Flag.NFIndicator).flags = 0xB1
      ∧ (sampleHeader.Set Flag.SyFIndicator).flags = 0xB7 :=
  ⟨sampleHeader_wellFormed,
    (flag_set_then_isSet sampleHeader sampleHeader_wellFormed Flag.NFIndicator true).2.2.1,
    (flag_set_then_isSet sampleHeader sampleHeader_wellFormed Flag.SyFIndicator true).2.1,
    by decide, by decide⟩

/-- C24: for every header whose flags fit the `uint8_t` and distinct flags `f` and `g`,
`Set(f)`, `Clear(f)` and `Set(f, c)` leave `IsSet(g)` as it was and leave bits 4 to 7 of
the flags as they were; the `int` value `flags & ~f` computed in `Clear` already fits
eight bits, so storing it loses nothing; and `frameId`, `payloadLength`, `headerCrc` and
`cycleCount` are as before. -/
theorem flag_change_is_local (h : Header) (hw : h.WellFormed) (f g : Flag) (c : Bool)
    (hfg : f ≠ g) :
    ((h.Set f).IsSet g = h.IsSet g
        ∧ (h.Clear f).IsSet g = h.IsSet g
        ∧ (h.SetCond f c).IsSet g = h.IsSet g)
      ∧ ((h.Set f).flags / 2 ^ 4 = h.flags / 2 ^ 4
        ∧ (h.Clear f).flags / 2 ^ 4 = h.flags / 2 ^ 4
        ∧ (h.SetCond f c).flags / 2 ^ 4 = h.flags / 2 ^ 4)
      ∧ (h.flags &&& complementInt f.toUInt8 < 2 ^ 8
        ∧ (h.Clear f).flags = h.flags &&& complementInt f.toUInt8)
      ∧ (h.Set f = { h with flags := (h.Set f).flags }
        ∧ h.Clear f = { h with flags := (h.Clear f).flags }
        ∧ h.SetCond f c = { h with flags := (h.SetCond f c).flags }) := by
  obtain ⟨-, -, -, -, k5, k6, k7, -, k9⟩ := flag_bits_fin ⟨h.flags, hw⟩ f g
  obtain ⟨k5a, k5b⟩ := k5 hfg
  refine ⟨⟨k5a, k5b, ?_⟩, ⟨k6, k7, ?_⟩, ⟨k9, ?_⟩, ⟨rfl, rfl, ?_⟩⟩
  · cases c
    · exact k5b
    · exact k5a
  · cases c
    · exact k7
    · exact k6
  · exact Nat.mod_eq_of_lt k9
  · cases c <;> rfl

/-- C24, evaluated on the sample header: clearing `NFIndicator` leaves `SuFIndicator`
set, the upper four bits 0xB and the frame id 17. -/
theorem flag_change_is_local_witness :
    sampleHeader.WellFormed
      ∧ (sampleHeader.Clear Flag.NFIndicator).IsSet Flag.SuFIndicator
        = sampleHeader.IsSet Flag.SuFIndicator
      ∧ (sampleHeader.Clear Flag.NFIndicator).flags / 2 ^ 4 = 0xB
      ∧ (sampleHeader.Clear Flag.NFIndicator).frameId = 17 :=
  ⟨sampleHeader_wellFormed,
    (flag_change_is_local sampleHeader sampleHeader_wellFormed Flag.NFIndicator
      Flag.SuFIndicator false (by decide)).1.2.1,
    by decide, rfl⟩

end Header

end ib.sim.fr
